import Mathlib

/-!
# Vulkan uniform buffer pool

A shallow embedding of `Engine/Source/Runtime/VulkanRHI/Private/VulkanUniformBuffer.cpp`:
the size-bucketed pool `FVulkanGlobalUniformPool` with its per-frame used lists.

* `TArray` values are lists; `Add` appends at the end, `Pop` removes the last element,
  `Append` concatenates, `Reset` empties.
* The two member arrays of the pool are indexed by natural numbers. An index below the
  declared length (`NumPoolBuckets`, resp. `NumPoolBuckets * NumFrames`) is an element of the
  array; the theorems only speak about those.
* `new FVulkanPooledUniformBuffer(InDevice, BufferSize)` yields an object that is distinct
  from every object created before; the device counts its creations and the count is the
  identity of the new object.
* The enum constants `NumPoolBuckets` and `NumFrames` are declared in a header that is not
  among the sources; they are parameters throughout.
* The constructor of `FVulkanUniformBuffer` runs on an explicit state (`RHIState`); a failed
  `check` ends it with the failed check as result. `Contents` is `none` for a null pointer;
  the memory it points to is given by its bytes and by the resource pointers read from it.
  `Lock`/`Memcpy`/`Unlock` overwrite the first bytes of the memory of the buffer.
-/

namespace VulkanRHI

/-! ## Size classes -/

/-- Modelled from the spec: `FMath::RoundUpToPowerOfTwo` is not among the sources; the spec
names it "round-up-to-power-of-two". This is its search loop: `p` runs through the powers
of two starting at the given one and the first `p` with `n ≤ p` is the result. -/
def RoundUpFrom (n : Nat) : Nat → Nat → Nat
  | 0, p => p
  | fuel + 1, p => if n ≤ p then p else RoundUpFrom n fuel (2 * p)

/-- Modelled from the spec: `FMath::RoundUpToPowerOfTwo` is not among the sources; per the
spec it rounds its argument up to a power of two. The search starts at `1` and `n` doublings
always suffice because `n ≤ 2 ^ n`. -/
def RoundUpToPowerOfTwo (n : Nat) : Nat :=
  RoundUpFrom n n 1

/-- Modelled from the spec: the `log2` of the spec's
`bucketIndex = log2(roundUpToPowerOfTwo(requestedSize))`, by repeated halving. -/
def FloorLogTwoFrom : Nat → Nat → Nat
  | 0, _ => 0
  | fuel + 1, n => if 2 ≤ n then FloorLogTwoFrom fuel (n / 2) + 1 else 0

/-- Modelled from the spec: base-two logarithm (rounded down) used by the bucket index. -/
def FloorLogTwo (n : Nat) : Nat :=
  FloorLogTwoFrom n n

/-- Modelled from the spec: `GetPoolBucketIndex` is declared outside the sources; the spec
defines `bucketIndex = log2(roundUpToPowerOfTwo(requestedSize))`. -/
def GetPoolBucketIndex (NumBytes : Nat) : Nat :=
  FloorLogTwo (RoundUpToPowerOfTwo NumBytes)

/-- `GetPoolBucketSize`: `return FMath::RoundUpToPowerOfTwo(NumBytes);` with result type
`uint32`. -/
def GetPoolBucketSize (NumBytes : Nat) : Nat :=
  RoundUpToPowerOfTwo NumBytes % 2 ^ 32

/-! ## Buffers, device, pool -/

/-- One `FVulkanPooledUniformBuffer` object: `Id` is the identity of the heap object,
`Size` the `InSize` its constructor received. -/
structure FVulkanPooledUniformBuffer where
  Id : Nat
  Size : Nat
  deriving DecidableEq, Repr

/-- `FPooledUniformBufferRef` is `TRefCountPtr<FVulkanPooledUniformBuffer>`. -/
abbrev FPooledUniformBufferRef := FVulkanPooledUniformBuffer

/-- `FVulkanDevice` as far as the pool sees it: the number of buffer objects created. -/
structure FVulkanDevice where
  NumCreated : Nat
  deriving DecidableEq, Repr

/-- The two member arrays of `FVulkanGlobalUniformPool`. -/
structure FVulkanGlobalUniformPool where
  GlobalUniformBufferPool : Nat → List FPooledUniformBufferRef
  UsedGlobalUniformBuffers : Nat → List FPooledUniformBufferRef

/-- `FVulkanGlobalUniformPool::FVulkanGlobalUniformPool()`: every array starts empty. -/
def FVulkanGlobalUniformPool.New : FVulkanGlobalUniformPool :=
  { GlobalUniformBufferPool := fun _ => [], UsedGlobalUniformBuffers := fun _ => [] }

/-- `new FVulkanPooledUniformBuffer(InDevice, InSize)`. -/
def NewPooledUniformBuffer (InDevice : FVulkanDevice) (InSize : Nat) :
    FPooledUniformBufferRef × FVulkanDevice :=
  ({ Id := InDevice.NumCreated, Size := InSize }, { NumCreated := InDevice.NumCreated + 1 })

/-- `TArray::Add`: appends the item and returns its index. -/
def TArrayAdd (A : List FPooledUniformBufferRef) (Item : FPooledUniformBufferRef) :
    List FPooledUniformBufferRef × Nat :=
  (A ++ [Item], A.length)

/-- Body of the loop of `FVulkanGlobalUniformPool::BeginFrame` for one `BucketIndex`. -/
def BeginFrameBucket (NumPoolBuckets CurrentFrameIndex : Nat) (Pool : FVulkanGlobalUniformPool)
    (BucketIndex : Nat) : FVulkanGlobalUniformPool :=
  let UsedBucketIndex := CurrentFrameIndex * NumPoolBuckets + BucketIndex
  { GlobalUniformBufferPool :=
      Function.update Pool.GlobalUniformBufferPool BucketIndex
        (Pool.GlobalUniformBufferPool BucketIndex ++ Pool.UsedGlobalUniformBuffers UsedBucketIndex)
    UsedGlobalUniformBuffers := Function.update Pool.UsedGlobalUniformBuffers UsedBucketIndex [] }

/-- `FVulkanGlobalUniformPool::BeginFrame`. -/
def BeginFrame (NumPoolBuckets NumFrames GFrameNumberRenderThread : Nat)
    (Pool : FVulkanGlobalUniformPool) : FVulkanGlobalUniformPool :=
  let CurrentFrameIndex := GFrameNumberRenderThread % NumFrames
  (List.range NumPoolBuckets).foldl (BeginFrameBucket NumPoolBuckets CurrentFrameIndex) Pool

/-- `FVulkanGlobalUniformPool::GetGlobalUniformBufferFromPool`. The result is the element
at `NewIndex` of the used list, the pool and the device after the call. -/
def GetGlobalUniformBufferFromPool (NumPoolBuckets NumFrames GFrameNumberRenderThread : Nat)
    (Pool : FVulkanGlobalUniformPool) (InDevice : FVulkanDevice) (InSize : Nat) :
    FPooledUniformBufferRef × FVulkanGlobalUniformPool × FVulkanDevice :=
  let BucketIndex := GetPoolBucketIndex InSize
  let PoolBucket := Pool.GlobalUniformBufferPool BucketIndex
  let BufferSize := GetPoolBucketSize InSize
  let CurrentFrameIndex := GFrameNumberRenderThread % NumFrames
  let UsedBucketIndex := CurrentFrameIndex * NumPoolBuckets + BucketIndex
  let Used := Pool.UsedGlobalUniformBuffers UsedBucketIndex
  if h : 0 < PoolBucket.length then
    let Popped := PoolBucket.getLast (List.ne_nil_of_length_pos h)
    let Added := TArrayAdd Used Popped
    (Added.1.get ⟨Added.2, by simp [Added, TArrayAdd]⟩,
      { GlobalUniformBufferPool :=
          Function.update Pool.GlobalUniformBufferPool BucketIndex PoolBucket.dropLast
        UsedGlobalUniformBuffers :=
          Function.update Pool.UsedGlobalUniformBuffers UsedBucketIndex Added.1 },
      InDevice)
  else
    let Created := NewPooledUniformBuffer InDevice BufferSize
    let Added := TArrayAdd Used Created.1
    (Added.1.get ⟨Added.2, by simp [Added, TArrayAdd]⟩,
      { GlobalUniformBufferPool := Pool.GlobalUniformBufferPool
        UsedGlobalUniformBuffers :=
          Function.update Pool.UsedGlobalUniformBuffers UsedBucketIndex Added.1 },
      Created.2)


/-! ## All buffers held by a pool -/

/-- Every handle held by the pool: the free lists of all `NumPoolBuckets` buckets followed
by the `NumPoolBuckets * NumFrames` used lists (the two ranges the destructor walks). -/
def AllPooledBuffers (NumPoolBuckets NumFrames : Nat) (Pool : FVulkanGlobalUniformPool) :
    List FPooledUniformBufferRef :=
  (List.range NumPoolBuckets).flatMap Pool.GlobalUniformBufferPool ++
    (List.range (NumPoolBuckets * NumFrames)).flatMap Pool.UsedGlobalUniformBuffers

/-- Pool states reachable from the empty pool by `BeginFrame` and
`GetGlobalUniformBufferFromPool` calls, made at any value of the frame counter; a requested
size names one of the `NumPoolBuckets` buckets. -/
inductive Reachable (NumPoolBuckets NumFrames : Nat) :
    FVulkanGlobalUniformPool → FVulkanDevice → Prop
  | init (InDevice : FVulkanDevice) :
      Reachable NumPoolBuckets NumFrames FVulkanGlobalUniformPool.New InDevice
  | beginFrame (GFrameNumberRenderThread : Nat) {Pool : FVulkanGlobalUniformPool}
      {InDevice : FVulkanDevice} :
      Reachable NumPoolBuckets NumFrames Pool InDevice →
      Reachable NumPoolBuckets NumFrames
        (BeginFrame NumPoolBuckets NumFrames GFrameNumberRenderThread Pool) InDevice
  | getBuffer (GFrameNumberRenderThread InSize : Nat) {Pool : FVulkanGlobalUniformPool}
      {InDevice : FVulkanDevice} :
      Reachable NumPoolBuckets NumFrames Pool InDevice →
      GetPoolBucketIndex InSize < NumPoolBuckets →
      Reachable NumPoolBuckets NumFrames
        (GetGlobalUniformBufferFromPool NumPoolBuckets NumFrames GFrameNumberRenderThread
          Pool InDevice InSize).2.1
        (GetGlobalUniformBufferFromPool NumPoolBuckets NumFrames GFrameNumberRenderThread
          Pool InDevice InSize).2.2

/-! ## Frames -/

/-- Modelled from the spec: `GFrameNumberRenderThread` is declared outside the sources; the
spec's FrameClock is a process-wide monotonically increasing frame counter. The render
thread state is that counter together with the pool and the device. -/
structure RenderThread where
  GFrameNumberRenderThread : Nat
  Pool : FVulkanGlobalUniformPool
  Device : FVulkanDevice

/-- What the renderer does under the frame protocol: start the next frame (the frame counter
advances by one, then `BeginFrame` runs), or acquire a buffer in the current frame. -/
inductive FrameEvent where
  | NextFrame
  | Acquire (InSize : Nat)
  deriving DecidableEq, Repr

/-- The requested size of an acquire names one of the `NumPoolBuckets` buckets. -/
def FrameEvent.InRange (NumPoolBuckets : Nat) : FrameEvent → Bool
  | FrameEvent.NextFrame => true
  | FrameEvent.Acquire InSize => decide (GetPoolBucketIndex InSize < NumPoolBuckets)

/-- One event: the state after it and the handle it returned, if it is an acquire. -/
def Step (NumPoolBuckets NumFrames : Nat) (W : RenderThread) :
    FrameEvent → RenderThread × Option FPooledUniformBufferRef
  | FrameEvent.NextFrame =>
    ({ GFrameNumberRenderThread := W.GFrameNumberRenderThread + 1
       Pool := BeginFrame NumPoolBuckets NumFrames (W.GFrameNumberRenderThread + 1) W.Pool
       Device := W.Device }, none)
  | FrameEvent.Acquire InSize =>
    let R := GetGlobalUniformBufferFromPool NumPoolBuckets NumFrames
      W.GFrameNumberRenderThread W.Pool W.Device InSize
    ({ GFrameNumberRenderThread := W.GFrameNumberRenderThread, Pool := R.2.1, Device := R.2.2 },
      some R.1)

/-- A run of events: the final state and the handles returned, in order. -/
def Run (NumPoolBuckets NumFrames : Nat) :
    RenderThread → List FrameEvent → RenderThread × List FPooledUniformBufferRef
  | W, [] => (W, [])
  | W, e :: es =>
    let A := Step NumPoolBuckets NumFrames W e
    let B := Run NumPoolBuckets NumFrames A.1 es
    (B.1, A.2.toList ++ B.2)

/-- The render thread before the first frame: an empty pool. -/
def RenderThread.Start (GFrameNumberRenderThread : Nat) (InDevice : FVulkanDevice) :
    RenderThread :=
  { GFrameNumberRenderThread := GFrameNumberRenderThread
    Pool := FVulkanGlobalUniformPool.New
    Device := InDevice }

/-- Number of `BeginFrame` calls in a run. -/
def NumBeginFrames (es : List FrameEvent) : Nat :=
  es.count FrameEvent.NextFrame

/-! ## Ownership invariant -/

/-- Invariant of the pool arrays: every held handle was created by the device, no list
repeats a handle and no handle sits in two lists. -/
structure PoolInvariant (NumPoolBuckets NumFrames : Nat) (Pool : FVulkanGlobalUniformPool)
    (InDevice : FVulkanDevice) : Prop where
  free_created : ∀ b < NumPoolBuckets, ∀ x ∈ Pool.GlobalUniformBufferPool b,
    x.Id < InDevice.NumCreated
  used_created : ∀ i < NumPoolBuckets * NumFrames, ∀ x ∈ Pool.UsedGlobalUniformBuffers i,
    x.Id < InDevice.NumCreated
  free_nodup : ∀ b < NumPoolBuckets, (Pool.GlobalUniformBufferPool b).Nodup
  used_nodup : ∀ i < NumPoolBuckets * NumFrames, (Pool.UsedGlobalUniformBuffers i).Nodup
  free_free : ∀ b < NumPoolBuckets, ∀ b' < NumPoolBuckets, b ≠ b' →
    ∀ x ∈ Pool.GlobalUniformBufferPool b, x ∉ Pool.GlobalUniformBufferPool b'
  used_used : ∀ i < NumPoolBuckets * NumFrames, ∀ i' < NumPoolBuckets * NumFrames, i ≠ i' →
    ∀ x ∈ Pool.UsedGlobalUniformBuffers i, x ∉ Pool.UsedGlobalUniformBuffers i'
  free_used : ∀ b < NumPoolBuckets, ∀ i < NumPoolBuckets * NumFrames,
    ∀ x ∈ Pool.GlobalUniformBufferPool b, x ∉ Pool.UsedGlobalUniformBuffers i

/-- An acquire of size `InSize` made after the events `es`, starting from `W`: the handle
it returns and the render thread state after it. -/
def AcquireAfter (NumPoolBuckets NumFrames : Nat) (W : RenderThread) (es : List FrameEvent)
    (InSize : Nat) : FPooledUniformBufferRef × RenderThread :=
  let W1 := (Run NumPoolBuckets NumFrames W es).1
  let R := GetGlobalUniformBufferFromPool NumPoolBuckets NumFrames
    W1.GFrameNumberRenderThread W1.Pool W1.Device InSize
  (R.1, { GFrameNumberRenderThread := W1.GFrameNumberRenderThread, Pool := R.2.1,
          Device := R.2.2 })

/-! ## The call on the render thread -/

/-- The call `BeginFrame()` on the render thread: the method reads the global
`GFrameNumberRenderThread` and writes the two member arrays of the pool, nothing else. -/
def CallBeginFrame (NumPoolBuckets NumFrames : Nat) (W : RenderThread) : RenderThread :=
  { GFrameNumberRenderThread := W.GFrameNumberRenderThread
    Pool := BeginFrame NumPoolBuckets NumFrames W.GFrameNumberRenderThread W.Pool
    Device := W.Device }

/-- A handle is held in bucket `b`: it is in the free list of `b` or in the used list of
`(s, b)` for one of the `NumFrames` slots `s`. -/
def HeldInBucket (NumPoolBuckets NumFrames : Nat) (Pool : FVulkanGlobalUniformPool) (b : Nat)
    (x : FPooledUniformBufferRef) : Prop :=
  x ∈ Pool.GlobalUniformBufferPool b ∨
    ∃ s, s < NumFrames ∧ x ∈ Pool.UsedGlobalUniformBuffers (s * NumPoolBuckets + b)

/-! ## The fixed-size ring pool and the uniform buffer object -/

/-- `const int NUM_SAFE_FRAMES = 5;` -/
def NUM_SAFE_FRAMES : Nat := 5

/-- One `FVulkanBuffer` object: `Id` is the identity of the device buffer, `Size` the size
its constructor received. -/
structure FVulkanBuffer where
  Id : Nat
  Size : Nat
  deriving DecidableEq, Repr

/-- Modelled from the spec: `EUniformBufferUsage` is declared outside the sources; the spec
has `usageMode ∈ {SingleFrame, MultiFrame}`. -/
inductive EUniformBufferUsage where
  | UniformBuffer_SingleFrame
  | UniformBuffer_MultiFrame
  deriving DecidableEq, Repr

/-- `new FVulkanBuffer(Device, Size, ...)`: a device buffer distinct from all earlier ones. -/
def NewVulkanBuffer (Device : FVulkanDevice) (Size : Nat) : FVulkanBuffer × FVulkanDevice :=
  ({ Id := Device.NumCreated, Size := Size }, { NumCreated := Device.NumCreated + 1 })

/-- `AllocateBufferFromPool`. The static array `GUBPool` and the global frame counter are
passed in; the result is the returned buffer, `GUBPool` and the device after the call. -/
def AllocateBufferFromPool (GFrameNumberRenderThread : Nat) (GUBPool : Nat → List FVulkanBuffer)
    (Device : FVulkanDevice) (ConstantBufferSize : Nat) (Usage : EUniformBufferUsage) :
    FVulkanBuffer × (Nat → List FVulkanBuffer) × FVulkanDevice :=
  if Usage = EUniformBufferUsage.UniformBuffer_MultiFrame then
    let Created := NewVulkanBuffer Device ConstantBufferSize
    (Created.1, GUBPool, Created.2)
  else
    let BufferIndex := GFrameNumberRenderThread % NUM_SAFE_FRAMES
    let Created := NewVulkanBuffer Device ConstantBufferSize
    let Slot := GUBPool BufferIndex ++ [Created.1]
    (Slot.getLast (by simp [Slot]), Function.update GUBPool BufferIndex Slot, Created.2)

/-- `CleanupUniformBufferPool`. The sum `GFrameNumberRenderThread + 1` is formed in the
32-bit unsigned type of the frame counter, so it wraps to `0` at `2^32 - 1`. -/
def CleanupUniformBufferPool (GFrameNumberRenderThread : Nat)
    (GUBPool : Nat → List FVulkanBuffer) : Nat → List FVulkanBuffer :=
  let BufferIndex := (GFrameNumberRenderThread + 1) % 2 ^ 32 % NUM_SAFE_FRAMES
  Function.update GUBPool BufferIndex []

/-- Modelled from the spec: `FRHIUniformBufferLayout` is declared outside the sources; it
carries the constant-data byte size and the list of resource-reference descriptors, and the
byte offset at which the resource references start in the contents. -/
structure FRHIUniformBufferLayout where
  ConstantBufferSize : Nat
  ResourceOffset : Nat
  Resources : List Nat
  deriving DecidableEq, Repr

/-- An `FRHIResource` object (a texture or a sampler), known by its identity only. -/
structure FRHIResource where
  Id : Nat
  deriving DecidableEq, Repr

/-- The memory `Contents` points to: its bytes, and the resource pointers it holds, where
`ResourceAt Offset Index` is `((FRHIResource**)((uint8*)Contents + Offset))[Index]` and
`none` is a null pointer. -/
structure FContents where
  Bytes : List Nat
  ResourceAt : Nat → Nat → Option FRHIResource

/-- The process-wide state the uniform buffer code reads and writes: the frame counter, the
static `GUBPool`, the global uniform pool, the device and the memory of its buffers
(`BufferData Id` are the bytes of the buffer `Id`), and the console variable
`r.Vulkan.UseRealUBs` (`none` when it is not registered). -/
structure RHIState where
  GFrameNumberRenderThread : Nat
  GUBPool : Nat → List FVulkanBuffer
  UniformPool : FVulkanGlobalUniformPool
  Device : FVulkanDevice
  BufferData : Nat → List Nat
  UseRealUBs : Option Int

/-- `CVar && CVar->GetValueOnAnyThread() != 0`. -/
def RHIState.UseRealUBsEnabled (St : RHIState) : Bool :=
  match St.UseRealUBs with
  | some Value => Value != 0
  | none => false

/-- `FMemory::Memcpy(Dest, Src, Count)`: the first `Count` bytes of `Dest` become the first
`Count` bytes of `Src`. -/
def Memcpy (Dest Src : List Nat) (Count : Nat) : List Nat :=
  Src.take Count ++ Dest.drop Count

/-- A failed `check(...)` of the constructor, by source line. -/
inductive FCheckFailure where
  | LayoutEmpty
  | ContentsNull
  | ResourceNull (Index : Nat)
  deriving DecidableEq, Repr

/-- The members of `FVulkanUniformBuffer`: the layout of the base class, the device buffer
(`none` is the null reference), the CPU-side constant data and the resource table. -/
structure FVulkanUniformBuffer where
  Layout : FRHIUniformBufferLayout
  Buffer : Option FVulkanBuffer
  ConstantData : List Nat
  ResourceTable : List (Option FRHIResource)
  deriving DecidableEq, Repr

/-- Body of the loop that transfers the resource table, for one `Index`. -/
def ResourceLoopBody (Contents : FContents) (ResourceOffset : Nat)
    (ResourceTable : List (Option FRHIResource)) (Index : Nat) :
    Except FCheckFailure (List (Option FRHIResource)) :=
  match Contents.ResourceAt ResourceOffset Index with
  | none => Except.error (FCheckFailure.ResourceNull Index)
  | some CurrResource => Except.ok (ResourceTable.set Index (some CurrResource))

/-- `ResourceTable.Empty(NumResources); ResourceTable.AddZeroed(NumResources);` followed by
the loop over `Index < NumResources`. -/
def TransferResourceTable (Contents : FContents) (ResourceOffset NumResources : Nat) :
    Except FCheckFailure (List (Option FRHIResource)) :=
  (List.range NumResources).foldlM (ResourceLoopBody Contents ResourceOffset)
    (List.replicate NumResources none)

/-- The `if (InLayout.ConstantBufferSize)` block of the constructor: the device buffer and
constant data of the object, and the state after it. -/
def StoreConstantData (St : RHIState) (InLayout : FRHIUniformBufferLayout) (Contents : FContents)
    (Usage : EUniformBufferUsage) : Option FVulkanBuffer × List Nat × RHIState :=
  if InLayout.ConstantBufferSize ≠ 0 then
    if St.UseRealUBsEnabled then
      let A := AllocateBufferFromPool St.GFrameNumberRenderThread St.GUBPool St.Device
        InLayout.ConstantBufferSize Usage
      (some A.1, [],
        { St with
          GUBPool := A.2.1
          Device := A.2.2
          BufferData := Function.update St.BufferData A.1.Id
            (Memcpy (St.BufferData A.1.Id) Contents.Bytes InLayout.ConstantBufferSize) })
    else
      (none, Memcpy (List.replicate InLayout.ConstantBufferSize 0) Contents.Bytes
        InLayout.ConstantBufferSize, St)
  else
    (none, [], St)

/-- `FVulkanUniformBuffer::FVulkanUniformBuffer`. A failed `check` ends construction; the
result is the object or the failed check, and the state after the call. -/
def FVulkanUniformBuffer.New (St : RHIState) (InLayout : FRHIUniformBufferLayout)
    (Contents : Option FContents) (Usage : EUniformBufferUsage) :
    Except FCheckFailure FVulkanUniformBuffer × RHIState :=
  if ¬ (InLayout.Resources.length > 0 ∨ InLayout.ConstantBufferSize > 0) then
    (Except.error FCheckFailure.LayoutEmpty, St)
  else
    match Contents with
    | none => (Except.error FCheckFailure.ContentsNull, St)
    | some C =>
      let Stored := StoreConstantData St InLayout C Usage
      let NumResources := InLayout.Resources.length
      if NumResources = 0 then
        (Except.ok { Layout := InLayout, Buffer := Stored.1, ConstantData := Stored.2.1,
                     ResourceTable := [] }, Stored.2.2)
      else
        match TransferResourceTable C InLayout.ResourceOffset NumResources with
        | Except.error Failure => (Except.error Failure, Stored.2.2)
        | Except.ok Table =>
          (Except.ok { Layout := InLayout, Buffer := Stored.1, ConstantData := Stored.2.1,
                       ResourceTable := Table }, Stored.2.2)

/-- `FVulkanUniformBuffer::~FVulkanUniformBuffer`: the body is empty. The members drop
their references; a buffer that a pool list refers to stays where it is. -/
def FVulkanUniformBuffer.Destroy (St : RHIState) (_Obj : FVulkanUniformBuffer) : RHIState :=
  St

/-! ## Runs of the ring pool -/

/-- What happens to the ring pool `GUBPool`: a buffer is allocated, the pool is cleaned up,
or the frame counter advances by one. -/
inductive RingEvent where
  | Allocate (ConstantBufferSize : Nat) (Usage : EUniformBufferUsage)
  | Cleanup
  | NextFrame
  deriving DecidableEq, Repr

/-- One event of the ring pool on the state. -/
def RingStep (St : RHIState) : RingEvent → RHIState
  | RingEvent.Allocate ConstantBufferSize Usage =>
    let A := AllocateBufferFromPool St.GFrameNumberRenderThread St.GUBPool St.Device
      ConstantBufferSize Usage
    { St with GUBPool := A.2.1, Device := A.2.2 }
  | RingEvent.Cleanup =>
    { St with GUBPool := CleanupUniformBufferPool St.GFrameNumberRenderThread St.GUBPool }
  | RingEvent.NextFrame =>
    { St with GFrameNumberRenderThread := St.GFrameNumberRenderThread + 1 }

/-- A run of ring pool events. -/
def RingRun : RHIState → List RingEvent → RHIState
  | St, [] => St
  | St, e :: es => RingRun (RingStep St e) es

/-- Number of frame advances in a run of ring pool events. -/
def NumRingFrames (es : List RingEvent) : Nat :=
  es.count RingEvent.NextFrame

/-! ## Indexing of the used lists -/

/-- `const uint32 NumUsedBuckets = NumPoolBuckets * NumFrames;` (destructor). -/
def NumUsedBuckets (NumPoolBuckets NumFrames : Nat) : Nat :=
  NumPoolBuckets * NumFrames

/-- `const uint32 UsedBucketIndex = CurrentFrameIndex * NumPoolBuckets + BucketIndex;`
(`BeginFrame` and `GetGlobalUniformBufferFromPool`). -/
def UsedBucketIndex (NumPoolBuckets CurrentFrameIndex BucketIndex : Nat) : Nat :=
  CurrentFrameIndex * NumPoolBuckets + BucketIndex

/-! # Theorems -/

/-! ## Arithmetic of the size classes -/

theorem RoundUpFrom_pow (n : Nat) :
    ∀ (fuel k : Nat), k ≤ Nat.clog 2 n → Nat.clog 2 n ≤ k + fuel →
      RoundUpFrom n fuel (2 ^ k) = 2 ^ Nat.clog 2 n := by
  intro fuel
  induction fuel with
  | zero =>
    intro k h1 h2
    have hk : k = Nat.clog 2 n := by omega
    simp [RoundUpFrom, hk]
  | succ fuel ih =>
    intro k h1 h2
    unfold RoundUpFrom
    by_cases hle : n ≤ 2 ^ k
    · have h3 : Nat.clog 2 n ≤ k := (Nat.le_pow_iff_clog_le (by norm_num)).mp hle
      have hk : k = Nat.clog 2 n := by omega
      simp only [hle, if_true]
      rw [← hk]
    · have h3 : ¬ Nat.clog 2 n ≤ k := fun h => hle ((Nat.le_pow_iff_clog_le (by norm_num)).mpr h)
      simp only [hle, if_false]
      have h4 : 2 * 2 ^ k = 2 ^ (k + 1) := by rw [pow_succ]; ring
      rw [h4]
      exact ih (k + 1) (by omega) (by omega)

theorem RoundUpToPowerOfTwo_eq (n : Nat) : RoundUpToPowerOfTwo n = 2 ^ Nat.clog 2 n := by
  have h : Nat.clog 2 n ≤ n :=
    (Nat.le_pow_iff_clog_le (by norm_num)).mp (Nat.lt_two_pow n).le
  have := RoundUpFrom_pow n n 0 (Nat.zero_le _) (by omega)
  simpa [RoundUpToPowerOfTwo] using this

theorem FloorLogTwoFrom_eq :
    ∀ (fuel n : Nat), n ≤ fuel → FloorLogTwoFrom fuel n = Nat.log 2 n := by
  intro fuel
  induction fuel with
  | zero =>
    intro n h
    have : n = 0 := by omega
    simp [FloorLogTwoFrom, this]
  | succ fuel ih =>
    intro n h
    unfold FloorLogTwoFrom
    by_cases h2 : 2 ≤ n
    · simp only [h2, if_true]
      rw [ih (n / 2) (by omega), Nat.log_of_one_lt_of_le (by norm_num) h2]
    · simp only [h2, if_false]
      exact (Nat.log_of_lt (by omega)).symm

theorem GetPoolBucketIndex_eq (n : Nat) : GetPoolBucketIndex n = Nat.clog 2 n := by
  unfold GetPoolBucketIndex FloorLogTwo
  rw [FloorLogTwoFrom_eq _ _ le_rfl, RoundUpToPowerOfTwo_eq, Nat.log_pow (by norm_num)]

theorem GetPoolBucketIndex_eq_iff (S k : Nat) (hlo : 2 ^ k < 2 * S) (hhi : S ≤ 2 ^ k) :
    GetPoolBucketIndex S = k := by
  rw [GetPoolBucketIndex_eq]
  have h1 : Nat.clog 2 S ≤ k := (Nat.le_pow_iff_clog_le (by norm_num)).mp hhi
  rcases Nat.eq_zero_or_pos k with hk | hk
  · omega
  · have h2 : 2 ^ (k - 1) < S := by
      have : 2 ^ k = 2 * 2 ^ (k - 1) := by
        conv_lhs => rw [show k = (k - 1) + 1 by omega]
        rw [pow_succ]; ring
      omega
    have h3 : k - 1 < Nat.clog 2 S := (Nat.pow_lt_iff_lt_clog (by norm_num)).mp h2
    omega

theorem GetPoolBucketSize_of_le (S : Nat) (h : S ≤ 2 ^ 31) :
    GetPoolBucketSize S = 2 ^ GetPoolBucketIndex S := by
  have h1 : Nat.clog 2 S ≤ 31 := (Nat.le_pow_iff_clog_le (by norm_num)).mp h
  have h2 : 2 ^ Nat.clog 2 S ≤ 2 ^ 31 := Nat.pow_le_pow_right (by norm_num) h1
  unfold GetPoolBucketSize
  rw [GetPoolBucketIndex_eq, RoundUpToPowerOfTwo_eq]
  exact Nat.mod_eq_of_lt (by omega)

/-- C6. The bucket index `log2(S rounded up to a power of two)` is monotonically
non-decreasing in the size (positive or not), and two sizes `S1 ≤ S2` of one power-of-two range
`(2^(k-1), 2^k]` (written `2^k < 2*S1` and `S2 ≤ 2^k`, which also covers `k = 0`) both have
bucket index `k`. -/
theorem bucketIndex_monotone_and_constant_on_range (S1 S2 : Nat) (h12 : S1 ≤ S2) :
    GetPoolBucketIndex S1 ≤ GetPoolBucketIndex S2 ∧
      ∀ k : Nat, 2 ^ k < 2 * S1 → S2 ≤ 2 ^ k →
        GetPoolBucketIndex S1 = k ∧ GetPoolBucketIndex S2 = k := by
  refine ⟨?_, ?_⟩
  · rw [GetPoolBucketIndex_eq, GetPoolBucketIndex_eq]
    exact Nat.clog_mono_right 2 h12
  · intro k hlo hhi
    exact ⟨GetPoolBucketIndex_eq_iff S1 k hlo (le_trans h12 hhi),
      GetPoolBucketIndex_eq_iff S2 k (by omega) hhi⟩

theorem bucketIndex_monotone_and_constant_on_range_witness :
    65 ≤ 100 ∧ GetPoolBucketIndex 65 ≤ GetPoolBucketIndex 100 ∧
      (GetPoolBucketIndex 65 = 7 ∧ GetPoolBucketIndex 100 = 7) :=
  ⟨by decide, (bucketIndex_monotone_and_constant_on_range 65 100 (by decide)).1,
    (bucketIndex_monotone_and_constant_on_range 65 100 (by decide)).2 7
      (by decide) (by decide)⟩

/-- C7, as the code has it. For every requested size `S ≤ 2^31` (so for `0 < S ≤ 2^31`) the value of
`GetPoolBucketSize S` is the power of two `2 ^ bucketIndex(S)`, it is at least `S`, and no
smaller power of two is at least `S`; and among such sizes a larger bucket index has a
strictly larger bucket size. -/
theorem GetPoolBucketSize_smallest_sufficient (S : Nat) (hS : S ≤ 2 ^ 31) :
    GetPoolBucketSize S = 2 ^ GetPoolBucketIndex S ∧ S ≤ GetPoolBucketSize S ∧
      (∀ j : Nat, S ≤ 2 ^ j → GetPoolBucketSize S ≤ 2 ^ j) ∧
      (∀ T : Nat, T ≤ 2 ^ 31 → GetPoolBucketIndex S < GetPoolBucketIndex T →
        GetPoolBucketSize S < GetPoolBucketSize T) := by
  have hsz := GetPoolBucketSize_of_le S hS
  refine ⟨hsz, ?_, ?_, ?_⟩
  · rw [hsz, GetPoolBucketIndex_eq]
    exact Nat.le_pow_clog (by norm_num) S
  · intro j hj
    rw [hsz, GetPoolBucketIndex_eq]
    exact Nat.pow_le_pow_right (by norm_num) ((Nat.le_pow_iff_clog_le (by norm_num)).mp hj)
  · intro T hT hlt
    rw [hsz, GetPoolBucketSize_of_le T hT]
    exact Nat.pow_lt_pow_right (by norm_num) hlt

theorem GetPoolBucketSize_smallest_sufficient_witness :
    100 ≤ 2 ^ 31 ∧ GetPoolBucketSize 100 = 2 ^ GetPoolBucketIndex 100 ∧
      100 ≤ GetPoolBucketSize 100 ∧
      (∀ j : Nat, 100 ≤ 2 ^ j → GetPoolBucketSize 100 ≤ 2 ^ j) ∧
      (∀ T : Nat, T ≤ 2 ^ 31 → GetPoolBucketIndex 100 < GetPoolBucketIndex T →
        GetPoolBucketSize 100 < GetPoolBucketSize T) :=
  ⟨by decide, GetPoolBucketSize_smallest_sufficient 100 (by decide)⟩

/-- C7 as stated fails: the 32-bit size `2^31 + 1` is positive, yet the `uint32` result of
`GetPoolBucketSize` is not at least that size. -/
theorem GetPoolBucketSize_not_sufficient_above_two_pow_31 :
    ¬ ∀ S : Nat, 0 < S → S < 2 ^ 32 →
        (∃ k : Nat, GetPoolBucketSize S = 2 ^ k) ∧ S ≤ GetPoolBucketSize S ∧
          (∀ j : Nat, S ≤ 2 ^ j → GetPoolBucketSize S ≤ 2 ^ j) := by
  intro h
  have h1 := (h (2 ^ 31 + 1) (by decide) (by decide)).2.1
  revert h1
  decide

/-! ## The two calls in closed form -/

theorem GetGlobalUniformBufferFromPool_pop (NB NF f : Nat) (P : FVulkanGlobalUniformPool)
    (D : FVulkanDevice) (S : Nat)
    (h : P.GlobalUniformBufferPool (GetPoolBucketIndex S) ≠ []) :
    GetGlobalUniformBufferFromPool NB NF f P D S =
      ((P.GlobalUniformBufferPool (GetPoolBucketIndex S)).getLast h,
        { GlobalUniformBufferPool :=
            Function.update P.GlobalUniformBufferPool (GetPoolBucketIndex S)
              (P.GlobalUniformBufferPool (GetPoolBucketIndex S)).dropLast
          UsedGlobalUniformBuffers :=
            Function.update P.UsedGlobalUniformBuffers (f % NF * NB + GetPoolBucketIndex S)
              (P.UsedGlobalUniformBuffers (f % NF * NB + GetPoolBucketIndex S) ++
                [(P.GlobalUniformBufferPool (GetPoolBucketIndex S)).getLast h]) },
        D) := by
  have hpos : 0 < (P.GlobalUniformBufferPool (GetPoolBucketIndex S)).length :=
    List.length_pos.mpr h
  simp [GetGlobalUniformBufferFromPool, hpos, TArrayAdd]

theorem GetGlobalUniformBufferFromPool_new (NB NF f : Nat) (P : FVulkanGlobalUniformPool)
    (D : FVulkanDevice) (S : Nat)
    (h : P.GlobalUniformBufferPool (GetPoolBucketIndex S) = []) :
    GetGlobalUniformBufferFromPool NB NF f P D S =
      (⟨D.NumCreated, GetPoolBucketSize S⟩,
        { GlobalUniformBufferPool := P.GlobalUniformBufferPool
          UsedGlobalUniformBuffers :=
            Function.update P.UsedGlobalUniformBuffers (f % NF * NB + GetPoolBucketIndex S)
              (P.UsedGlobalUniformBuffers (f % NF * NB + GetPoolBucketIndex S) ++
                [⟨D.NumCreated, GetPoolBucketSize S⟩]) },
        ⟨D.NumCreated + 1⟩) := by
  simp [GetGlobalUniformBufferFromPool, h, TArrayAdd, NewPooledUniformBuffer]

theorem BeginFrame_loop (NB s : Nat) (P : FVulkanGlobalUniformPool) :
    ∀ n : Nat,
      ((List.range n).foldl (BeginFrameBucket NB s) P).GlobalUniformBufferPool =
          (fun b => if b < n then
              P.GlobalUniformBufferPool b ++ P.UsedGlobalUniformBuffers (s * NB + b)
            else P.GlobalUniformBufferPool b) ∧
        ((List.range n).foldl (BeginFrameBucket NB s) P).UsedGlobalUniformBuffers =
          (fun i => if s * NB ≤ i ∧ i < s * NB + n then [] else P.UsedGlobalUniformBuffers i) := by
  intro n
  induction n with
  | zero =>
    refine ⟨by simp, ?_⟩
    funext i
    have : ¬ (s * NB ≤ i ∧ i < s * NB + 0) := by omega
    simp only [List.range_zero, List.foldl_nil]
    rw [if_neg this]
  | succ n ih =>
    obtain ⟨ih1, ih2⟩ := ih
    rw [List.range_succ, List.foldl_append]
    simp only [List.foldl_cons, List.foldl_nil, BeginFrameBucket, ih1, ih2]
    constructor
    · funext b
      by_cases hb : b = n
      · subst hb
        simp
      · simp only [Function.update_apply, hb, if_false]
        by_cases hlt : b < n
        · simp [hlt, Nat.lt_succ_of_lt hlt]
        · have : ¬ b < n + 1 := by omega
          simp [hlt, this]
    · funext i
      by_cases hi : i = s * NB + n
      · subst hi
        simp
      · simp only [Function.update_apply, hi, if_false]
        by_cases h1 : s * NB ≤ i ∧ i < s * NB + n
        · have : s * NB ≤ i ∧ i < s * NB + (n + 1) := ⟨h1.1, by omega⟩
          simp [h1, this]
        · have : ¬ (s * NB ≤ i ∧ i < s * NB + (n + 1)) := by
            rintro ⟨h2, h3⟩
            exact h1 ⟨h2, by omega⟩
          simp [h1, this]

theorem BeginFrame_free (NB NF f : Nat) (P : FVulkanGlobalUniformPool) (b : Nat) :
    (BeginFrame NB NF f P).GlobalUniformBufferPool b =
      if b < NB then
        P.GlobalUniformBufferPool b ++ P.UsedGlobalUniformBuffers (f % NF * NB + b)
      else P.GlobalUniformBufferPool b := by
  unfold BeginFrame
  rw [(BeginFrame_loop NB (f % NF) P NB).1]

theorem BeginFrame_used (NB NF f : Nat) (P : FVulkanGlobalUniformPool) (i : Nat) :
    (BeginFrame NB NF f P).UsedGlobalUniformBuffers i =
      if f % NF * NB ≤ i ∧ i < f % NF * NB + NB then [] else P.UsedGlobalUniformBuffers i := by
  unfold BeginFrame
  rw [(BeginFrame_loop NB (f % NF) P NB).2]

theorem flat_index_lt (NB NF s b : Nat) (hs : s < NF) (hb : b < NB) :
    s * NB + b < NB * NF := by
  have h1 : (s + 1) * NB ≤ NF * NB := Nat.mul_le_mul_right NB hs
  have h2 : (s + 1) * NB = s * NB + NB := by ring
  have h3 : NF * NB = NB * NF := Nat.mul_comm _ _
  omega

theorem flat_index_inj (NB s b s' b' : Nat) (hb : b < NB) (hb' : b' < NB)
    (h : s * NB + b = s' * NB + b') : s = s' ∧ b = b' := by
  have hNB : 0 < NB := by omega
  have h1 : (s * NB + b) / NB = s := by
    rw [Nat.mul_comm, Nat.mul_add_div hNB, Nat.div_eq_of_lt hb, Nat.add_zero]
  have h2 : (s' * NB + b') / NB = s' := by
    rw [Nat.mul_comm, Nat.mul_add_div hNB, Nat.div_eq_of_lt hb', Nat.add_zero]
  have hs : s = s' := by rw [← h1, ← h2, h]
  subst hs
  exact ⟨rfl, by omega⟩

theorem flat_index_other_slot (NB s s' b : Nat) (hb : b < NB) (hne : s' ≠ s) :
    ¬ (s * NB ≤ s' * NB + b ∧ s' * NB + b < s * NB + NB) := by
  rintro ⟨h1, h2⟩
  have hle : s * NB + (s' * NB + b - s * NB) = s' * NB + (b) := by omega
  have := flat_index_inj NB s (s' * NB + b - s * NB) s' b (by omega) hb hle
  exact hne this.1.symm

/-! ## Single calls -/

/-- C4. When the free list of the bucket of size `S` is non-empty,
`GetGlobalUniformBufferFromPool` returns the last entry of that free list, the free list
afterwards is the previous list without that last entry, and the device has created no
buffer. -/
theorem acquire_pops_last_free_entry (NumPoolBuckets NumFrames GFrameNumberRenderThread : Nat)
    (Pool : FVulkanGlobalUniformPool) (InDevice : FVulkanDevice) (InSize : Nat)
    (h : Pool.GlobalUniformBufferPool (GetPoolBucketIndex InSize) ≠ []) :
    (GetGlobalUniformBufferFromPool NumPoolBuckets NumFrames GFrameNumberRenderThread
        Pool InDevice InSize).1 =
        (Pool.GlobalUniformBufferPool (GetPoolBucketIndex InSize)).getLast h ∧
      Pool.GlobalUniformBufferPool (GetPoolBucketIndex InSize) =
        (GetGlobalUniformBufferFromPool NumPoolBuckets NumFrames GFrameNumberRenderThread
          Pool InDevice InSize).2.1.GlobalUniformBufferPool (GetPoolBucketIndex InSize) ++
        [(GetGlobalUniformBufferFromPool NumPoolBuckets NumFrames GFrameNumberRenderThread
          Pool InDevice InSize).1] ∧
      (GetGlobalUniformBufferFromPool NumPoolBuckets NumFrames GFrameNumberRenderThread
        Pool InDevice InSize).2.2 = InDevice := by
  rw [GetGlobalUniformBufferFromPool_pop _ _ _ _ _ _ h]
  refine ⟨rfl, ?_, rfl⟩
  simp only [Function.update_same]
  exact (List.dropLast_append_getLast h).symm

theorem acquire_pops_last_free_entry_witness :
    (GetGlobalUniformBufferFromPool 17 4 9
        { GlobalUniformBufferPool := fun b => if b = 7 then [⟨3, 128⟩, ⟨5, 128⟩] else []
          UsedGlobalUniformBuffers := fun _ => [] } ⟨6⟩ 100).1 = ⟨5, 128⟩ ∧
      (GetGlobalUniformBufferFromPool 17 4 9
        { GlobalUniformBufferPool := fun b => if b = 7 then [⟨3, 128⟩, ⟨5, 128⟩] else []
          UsedGlobalUniformBuffers := fun _ => [] } ⟨6⟩ 100).2.2 = ⟨6⟩ := by
  have h := acquire_pops_last_free_entry 17 4 9
    { GlobalUniformBufferPool := fun b => if b = 7 then [⟨3, 128⟩, ⟨5, 128⟩] else []
      UsedGlobalUniformBuffers := fun _ => [] } ⟨6⟩ 100 (by decide)
  exact ⟨h.1.trans (by decide), h.2.2⟩

/-- C5. When the free list of the bucket of a size `S` is empty (`S > 0` or not; the bucket
is one of the `NumPoolBuckets ≤ 32` buckets of the pool), `GetGlobalUniformBufferFromPool` creates
exactly one device buffer, returns that new buffer, and its size is `GetPoolBucketSize S`,
which is the least power of two that is at least `S`. -/
theorem acquire_creates_bucket_sized_buffer
    (NumPoolBuckets NumFrames GFrameNumberRenderThread : Nat)
    (Pool : FVulkanGlobalUniformPool) (InDevice : FVulkanDevice) (InSize : Nat)
    (hBuckets : NumPoolBuckets ≤ 32)
    (hBucket : GetPoolBucketIndex InSize < NumPoolBuckets)
    (h : Pool.GlobalUniformBufferPool (GetPoolBucketIndex InSize) = []) :
    (GetGlobalUniformBufferFromPool NumPoolBuckets NumFrames GFrameNumberRenderThread
        Pool InDevice InSize).2.2.NumCreated = InDevice.NumCreated + 1 ∧
      (GetGlobalUniformBufferFromPool NumPoolBuckets NumFrames GFrameNumberRenderThread
        Pool InDevice InSize).1 = (NewPooledUniformBuffer InDevice (GetPoolBucketSize InSize)).1 ∧
      (GetGlobalUniformBufferFromPool NumPoolBuckets NumFrames GFrameNumberRenderThread
        Pool InDevice InSize).1.Size = GetPoolBucketSize InSize ∧
      (∃ k : Nat, GetPoolBucketSize InSize = 2 ^ k) ∧ InSize ≤ GetPoolBucketSize InSize ∧
      ∀ j : Nat, InSize ≤ 2 ^ j → GetPoolBucketSize InSize ≤ 2 ^ j := by
  have hle : InSize ≤ 2 ^ 31 := by
    have h1 : Nat.clog 2 InSize ≤ 31 := by
      rw [← GetPoolBucketIndex_eq]; omega
    exact (Nat.le_pow_iff_clog_le (by norm_num)).mpr h1
  have hsz := GetPoolBucketSize_of_le InSize hle
  rw [GetGlobalUniformBufferFromPool_new _ _ _ _ _ _ h]
  refine ⟨rfl, rfl, rfl, ⟨_, hsz⟩, ?_, ?_⟩
  · rw [hsz, GetPoolBucketIndex_eq]
    exact Nat.le_pow_clog (by norm_num) InSize
  · intro j hj
    rw [hsz, GetPoolBucketIndex_eq]
    exact Nat.pow_le_pow_right (by norm_num) ((Nat.le_pow_iff_clog_le (by norm_num)).mp hj)

theorem acquire_creates_bucket_sized_buffer_witness :
    (GetGlobalUniformBufferFromPool 17 4 9 FVulkanGlobalUniformPool.New ⟨6⟩ 100).1 = ⟨6, 128⟩ ∧
      (GetGlobalUniformBufferFromPool 17 4 9 FVulkanGlobalUniformPool.New ⟨6⟩ 100).2.2.NumCreated
        = 7 := by
  have h := acquire_creates_bucket_sized_buffer 17 4 9 FVulkanGlobalUniformPool.New ⟨6⟩ 100
    (by decide) (by decide) (by decide)
  exact ⟨h.2.1.trans (by decide), h.1⟩

/-- C8. For every size and every pool state, after `GetGlobalUniformBufferFromPool` the used
list at the flat index of (slot `GFrameNumberRenderThread % NumFrames`, bucket
`GetPoolBucketIndex InSize`) is its previous content followed by exactly the returned
handle, which is therefore its last element. -/
theorem acquire_registers_in_current_slot
    (NumPoolBuckets NumFrames GFrameNumberRenderThread : Nat)
    (Pool : FVulkanGlobalUniformPool) (InDevice : FVulkanDevice) (InSize : Nat) :
    (GetGlobalUniformBufferFromPool NumPoolBuckets NumFrames GFrameNumberRenderThread
        Pool InDevice InSize).2.1.UsedGlobalUniformBuffers
        (GFrameNumberRenderThread % NumFrames * NumPoolBuckets + GetPoolBucketIndex InSize) =
        Pool.UsedGlobalUniformBuffers
          (GFrameNumberRenderThread % NumFrames * NumPoolBuckets + GetPoolBucketIndex InSize) ++
        [(GetGlobalUniformBufferFromPool NumPoolBuckets NumFrames GFrameNumberRenderThread
          Pool InDevice InSize).1] ∧
      ((GetGlobalUniformBufferFromPool NumPoolBuckets NumFrames GFrameNumberRenderThread
        Pool InDevice InSize).2.1.UsedGlobalUniformBuffers
        (GFrameNumberRenderThread % NumFrames * NumPoolBuckets +
          GetPoolBucketIndex InSize)).getLast? =
        some (GetGlobalUniformBufferFromPool NumPoolBuckets NumFrames GFrameNumberRenderThread
          Pool InDevice InSize).1 := by
  by_cases h : Pool.GlobalUniformBufferPool (GetPoolBucketIndex InSize) = []
  · rw [GetGlobalUniformBufferFromPool_new _ _ _ _ _ _ h]
    simp
  · rw [GetGlobalUniformBufferFromPool_pop _ _ _ _ _ _ h]
    simp

/-- C9. `BeginFrame` recycles one slot. With `s = GFrameNumberRenderThread % NumFrames` the
released slot, for every bucket `b < NumPoolBuckets`: the free list of `b` afterwards is its
previous content followed by the previous content of the used list of `(s, b)`; that used
list is empty afterwards; and the used list of `(s', b)` is unchanged for every other slot
`s'`. -/
theorem BeginFrame_recycles_one_slot (NumPoolBuckets NumFrames GFrameNumberRenderThread : Nat)
    (Pool : FVulkanGlobalUniformPool) (b : Nat) (hb : b < NumPoolBuckets) :
    (BeginFrame NumPoolBuckets NumFrames GFrameNumberRenderThread Pool).GlobalUniformBufferPool b
        = Pool.GlobalUniformBufferPool b ++
          Pool.UsedGlobalUniformBuffers
            (GFrameNumberRenderThread % NumFrames * NumPoolBuckets + b) ∧
      (BeginFrame NumPoolBuckets NumFrames GFrameNumberRenderThread Pool).UsedGlobalUniformBuffers
        (GFrameNumberRenderThread % NumFrames * NumPoolBuckets + b) = [] ∧
      ∀ s' : Nat, s' ≠ GFrameNumberRenderThread % NumFrames →
        (BeginFrame NumPoolBuckets NumFrames GFrameNumberRenderThread
          Pool).UsedGlobalUniformBuffers (s' * NumPoolBuckets + b) =
          Pool.UsedGlobalUniformBuffers (s' * NumPoolBuckets + b) := by
  refine ⟨?_, ?_, ?_⟩
  · rw [BeginFrame_free, if_pos hb]
  · rw [BeginFrame_used, if_pos ⟨Nat.le_add_right _ _, by omega⟩]
  · intro s' hs'
    rw [BeginFrame_used, if_neg (flat_index_other_slot NumPoolBuckets _ s' b hb hs')]

theorem BeginFrame_recycles_one_slot_witness :
    (BeginFrame 17 4 9
        (GetGlobalUniformBufferFromPool 17 4 9 FVulkanGlobalUniformPool.New ⟨0⟩
          100).2.1).GlobalUniformBufferPool 7 = [⟨0, 128⟩] ∧
      (BeginFrame 17 4 9
        (GetGlobalUniformBufferFromPool 17 4 9 FVulkanGlobalUniformPool.New ⟨0⟩
          100).2.1).UsedGlobalUniformBuffers (9 % 4 * 17 + 7) = [] := by
  have h := BeginFrame_recycles_one_slot 17 4 9
    (GetGlobalUniformBufferFromPool 17 4 9 FVulkanGlobalUniformPool.New ⟨0⟩ 100).2.1 7
    (by decide)
  exact ⟨h.1.trans (by decide), h.2.1⟩

/-- C10, as the code has it. For every value `f` of the frame counter at the call, the slot
whose handles `BeginFrame` returns to the free lists is `f % NumFrames`: for every bucket
`b < NumPoolBuckets`, each handle of the used list of `(f % NumFrames, b)` is in the free
list of `b` afterwards, and the handles added to that free list are exactly those. -/
theorem BeginFrame_releases_current_slot (NumPoolBuckets NumFrames f : Nat)
    (Pool : FVulkanGlobalUniformPool) (b : Nat) (hb : b < NumPoolBuckets) :
    (∀ x ∈ Pool.UsedGlobalUniformBuffers (f % NumFrames * NumPoolBuckets + b),
        x ∈ (BeginFrame NumPoolBuckets NumFrames f Pool).GlobalUniformBufferPool b) ∧
      ∀ x ∈ (BeginFrame NumPoolBuckets NumFrames f Pool).GlobalUniformBufferPool b,
        x ∈ Pool.GlobalUniformBufferPool b ∨
          x ∈ Pool.UsedGlobalUniformBuffers (f % NumFrames * NumPoolBuckets + b) := by
  rw [BeginFrame_free, if_pos hb]
  constructor
  · intro x hx
    exact List.mem_append_right _ hx
  · intro x hx
    exact List.mem_append.mp hx

theorem BeginFrame_releases_current_slot_witness :
    (⟨0, 128⟩ : FPooledUniformBufferRef) ∈
      (BeginFrame 17 4 9
        (GetGlobalUniformBufferFromPool 17 4 9 FVulkanGlobalUniformPool.New ⟨0⟩
          100).2.1).GlobalUniformBufferPool 7 :=
  (BeginFrame_releases_current_slot 17 4 9
    (GetGlobalUniformBufferFromPool 17 4 9 FVulkanGlobalUniformPool.New ⟨0⟩ 100).2.1 7
    (by decide)).1 ⟨0, 128⟩ (by decide)

/-- C10 as stated fails. With 5 frame slots, a buffer acquired in frame 1 sits in slot 1;
`BeginFrame` at frame counter 5 would have to release slot `(5 + 1) % 5 = 1`, but the free
list of the buffer's bucket stays empty and the buffer stays in the used list of slot 1. -/
theorem BeginFrame_does_not_release_next_slot :
    ¬ ∀ (f : Nat) (Pool : FVulkanGlobalUniformPool) (b : Nat), b < 2 →
        ∀ x ∈ Pool.UsedGlobalUniformBuffers ((f + 1) % 5 * 2 + b),
          x ∈ (BeginFrame 2 5 f Pool).GlobalUniformBufferPool b := by
  intro h
  have h1 := h 5 (GetGlobalUniformBufferFromPool 2 5 1 FVulkanGlobalUniformPool.New ⟨0⟩ 1).2.1
    0 (by decide) ⟨0, 1⟩ (by decide)
  revert h1
  decide

/-! ## The ownership invariant is kept by both calls -/

theorem PoolInvariant_New (NB NF : Nat) (D : FVulkanDevice) :
    PoolInvariant NB NF FVulkanGlobalUniformPool.New D := by
  constructor <;> simp [FVulkanGlobalUniformPool.New]

theorem PoolInvariant_BeginFrame (NB NF f : Nat) (hNF : 0 < NF) (P : FVulkanGlobalUniformPool)
    (D : FVulkanDevice) (inv : PoolInvariant NB NF P D) :
    PoolInvariant NB NF (BeginFrame NB NF f P) D := by
  have hs : f % NF < NF := Nat.mod_lt _ hNF
  have hc : ∀ b < NB, f % NF * NB + b < NB * NF := fun b hb => flat_index_lt NB NF _ b hs hb
  have hfree : ∀ b < NB, ∀ x, x ∈ (BeginFrame NB NF f P).GlobalUniformBufferPool b →
      x ∈ P.GlobalUniformBufferPool b ∨ x ∈ P.UsedGlobalUniformBuffers (f % NF * NB + b) := by
    intro b hb x hx
    rw [BeginFrame_free, if_pos hb] at hx
    exact List.mem_append.mp hx
  have hused : ∀ i x, x ∈ (BeginFrame NB NF f P).UsedGlobalUniformBuffers i →
      x ∈ P.UsedGlobalUniformBuffers i ∧ ¬ (f % NF * NB ≤ i ∧ i < f % NF * NB + NB) := by
    intro i x hx
    rw [BeginFrame_used] at hx
    by_cases hi : f % NF * NB ≤ i ∧ i < f % NF * NB + NB
    · rw [if_pos hi] at hx
      simp at hx
    · rw [if_neg hi] at hx
      exact ⟨hx, hi⟩
  constructor
  · intro b hb x hx
    rcases hfree b hb x hx with h | h
    · exact inv.free_created b hb x h
    · exact inv.used_created _ (hc b hb) x h
  · intro i hi x hx
    exact inv.used_created i hi x (hused i x hx).1
  · intro b hb
    rw [BeginFrame_free, if_pos hb, List.nodup_append]
    refine ⟨inv.free_nodup b hb, inv.used_nodup _ (hc b hb), ?_⟩
    rw [List.disjoint_left]
    intro x hx
    exact inv.free_used b hb _ (hc b hb) x hx
  · intro i hi
    rw [BeginFrame_used]
    split
    · exact List.nodup_nil
    · exact inv.used_nodup i hi
  · intro b hb b' hb' hne x hx hx'
    rcases hfree b hb x hx with h | h <;> rcases hfree b' hb' x hx' with h' | h'
    · exact inv.free_free b hb b' hb' hne x h h'
    · exact inv.free_used b hb _ (hc b' hb') x h h'
    · exact inv.free_used b' hb' _ (hc b hb) x h' h
    · exact inv.used_used _ (hc b hb) _ (hc b' hb') (by omega) x h h'
  · intro i hi i' hi' hne x hx hx'
    exact inv.used_used i hi i' hi' hne x (hused i x hx).1 (hused i' x hx').1
  · intro b hb i hi x hx hx'
    obtain ⟨h', hni⟩ := hused i x hx'
    rcases hfree b hb x hx with h | h
    · exact inv.free_used b hb i hi x h h'
    · have hne : f % NF * NB + b ≠ i := by
        intro heq
        apply hni
        omega
      exact inv.used_used _ (hc b hb) i hi hne x h h'

theorem PoolInvariant_register (NB NF u : Nat) (P P' : FVulkanGlobalUniformPool)
    (D D' : FVulkanDevice) (x0 : FPooledUniformBufferRef) (inv : PoolInvariant NB NF P D)
    (hfree : ∀ b, (P'.GlobalUniformBufferPool b).Sublist (P.GlobalUniformBufferPool b))
    (hused : P'.UsedGlobalUniformBuffers =
      Function.update P.UsedGlobalUniformBuffers u (P.UsedGlobalUniformBuffers u ++ [x0]))
    (hu : u < NB * NF)
    (hx0free : ∀ b < NB, x0 ∉ P'.GlobalUniformBufferPool b)
    (hx0used : ∀ i < NB * NF, x0 ∉ P.UsedGlobalUniformBuffers i)
    (hx0 : x0.Id < D'.NumCreated) (hD : D.NumCreated ≤ D'.NumCreated) :
    PoolInvariant NB NF P' D' := by
  have hsub : ∀ b x, x ∈ P'.GlobalUniformBufferPool b → x ∈ P.GlobalUniformBufferPool b :=
    fun b x hx => (hfree b).subset hx
  have hmem : ∀ i x, x ∈ P'.UsedGlobalUniformBuffers i →
      x ∈ P.UsedGlobalUniformBuffers i ∨ (i = u ∧ x = x0) := by
    intro i x hx
    rw [hused, Function.update_apply] at hx
    by_cases hi : i = u
    · rw [if_pos hi] at hx
      rcases List.mem_append.mp hx with h | h
      · left; rw [hi]; exact h
      · right; exact ⟨hi, by simpa using h⟩
    · rw [if_neg hi] at hx
      exact Or.inl hx
  constructor
  · intro b hb x hx
    exact lt_of_lt_of_le (inv.free_created b hb x (hsub b x hx)) hD
  · intro i hi x hx
    rcases hmem i x hx with h | ⟨_, h⟩
    · exact lt_of_lt_of_le (inv.used_created i hi x h) hD
    · rw [h]; exact hx0
  · intro b hb
    exact (inv.free_nodup b hb).sublist (hfree b)
  · intro i hi
    rw [hused, Function.update_apply]
    split
    · rw [List.nodup_append]
      refine ⟨inv.used_nodup u hu, List.nodup_singleton _, ?_⟩
      rw [List.disjoint_left]
      intro x hx hx'
      have : x = x0 := by simpa using hx'
      exact hx0used u hu (this ▸ hx)
    · exact inv.used_nodup i hi
  · intro b hb b' hb' hne x hx hx'
    exact inv.free_free b hb b' hb' hne x (hsub b x hx) (hsub b' x hx')
  · intro i hi i' hi' hne x hx hx'
    rcases hmem i x hx with h | ⟨hiu, h⟩ <;> rcases hmem i' x hx' with h' | ⟨hiu', h'⟩
    · exact inv.used_used i hi i' hi' hne x h h'
    · exact hx0used i hi (h' ▸ h)
    · exact hx0used i' hi' (h ▸ h')
    · exact hne (hiu.trans hiu'.symm)
  · intro b hb i hi x hx hx'
    rcases hmem i x hx' with h | ⟨_, h⟩
    · exact inv.free_used b hb i hi x (hsub b x hx) h
    · exact hx0free b hb (h ▸ hx)

theorem getLast_not_mem_dropLast (l : List FPooledUniformBufferRef) (h : l ≠ [])
    (hnd : l.Nodup) : l.getLast h ∉ l.dropLast := by
  have hl := List.dropLast_append_getLast h
  rw [← hl, List.nodup_append] at hnd
  intro hmem
  exact (List.disjoint_left.mp hnd.2.2) hmem (List.mem_singleton_self _)

theorem PoolInvariant_GetGlobalUniformBufferFromPool (NB NF f : Nat) (hNF : 0 < NF)
    (P : FVulkanGlobalUniformPool) (D : FVulkanDevice) (S : Nat)
    (hS : GetPoolBucketIndex S < NB) (inv : PoolInvariant NB NF P D) :
    PoolInvariant NB NF (GetGlobalUniformBufferFromPool NB NF f P D S).2.1
      (GetGlobalUniformBufferFromPool NB NF f P D S).2.2 := by
  have hu : f % NF * NB + GetPoolBucketIndex S < NB * NF :=
    flat_index_lt NB NF _ _ (Nat.mod_lt _ hNF) hS
  by_cases h : P.GlobalUniformBufferPool (GetPoolBucketIndex S) = []
  · rw [GetGlobalUniformBufferFromPool_new _ _ _ _ _ _ h]
    refine PoolInvariant_register NB NF _ P _ D _ ⟨D.NumCreated, GetPoolBucketSize S⟩ inv
      (fun b => List.Sublist.refl _) rfl hu ?_ ?_ (Nat.lt_succ_self _) (Nat.le_succ _)
    · intro b hb hx
      exact absurd (inv.free_created b hb _ hx) (lt_irrefl _)
    · intro i hi hx
      exact absurd (inv.used_created i hi _ hx) (lt_irrefl _)
  · rw [GetGlobalUniformBufferFromPool_pop _ _ _ _ _ _ h]
    have hlast : (P.GlobalUniformBufferPool (GetPoolBucketIndex S)).getLast h ∈
        P.GlobalUniformBufferPool (GetPoolBucketIndex S) := List.getLast_mem h
    refine PoolInvariant_register NB NF _ P _ D _ _ inv ?_ rfl hu ?_ ?_
      (inv.free_created _ hS _ hlast) le_rfl
    · intro b
      simp only [Function.update_apply]
      split
      · rename_i hb
        rw [hb]
        exact List.dropLast_sublist _
      · exact List.Sublist.refl _
    · intro b hb
      simp only [Function.update_apply]
      split
      · exact getLast_not_mem_dropLast _ h (inv.free_nodup _ hS)
      · rename_i hne
        exact inv.free_free _ hS b hb (fun e => hne e.symm) _ hlast
    · intro i hi
      exact inv.free_used _ hS i hi _ hlast

theorem PoolInvariant_of_Reachable (NB NF : Nat) (hNF : 0 < NF) (P : FVulkanGlobalUniformPool)
    (D : FVulkanDevice) (h : Reachable NB NF P D) : PoolInvariant NB NF P D := by
  induction h with
  | init D => exact PoolInvariant_New NB NF D
  | beginFrame f _ ih => exact PoolInvariant_BeginFrame NB NF f hNF _ _ ih
  | getBuffer f S _ hS ih =>
    exact PoolInvariant_GetGlobalUniformBufferFromPool NB NF f hNF _ _ S hS ih

theorem nodup_flatMap_range (n : Nat) (F : Nat → List FPooledUniformBufferRef)
    (hnd : ∀ i < n, (F i).Nodup) (hdis : ∀ i < n, ∀ j < n, i ≠ j → ∀ x ∈ F i, x ∉ F j) :
    ((List.range n).flatMap F).Nodup := by
  rw [List.nodup_flatMap]
  refine ⟨fun i hi => hnd i (List.mem_range.mp hi), ?_⟩
  apply List.Nodup.pairwise_of_forall_ne (List.nodup_range n)
  intro i hi j hj hne
  show List.Disjoint (F i) (F j)
  rw [List.disjoint_left]
  intro x hx
  exact hdis i (List.mem_range.mp hi) j (List.mem_range.mp hj) hne x hx

theorem PoolInvariant_nodup (NB NF : Nat) (P : FVulkanGlobalUniformPool) (D : FVulkanDevice)
    (inv : PoolInvariant NB NF P D) : (AllPooledBuffers NB NF P).Nodup := by
  unfold AllPooledBuffers
  rw [List.nodup_append]
  refine ⟨nodup_flatMap_range _ _ inv.free_nodup inv.free_free,
    nodup_flatMap_range _ _ inv.used_nodup inv.used_used, ?_⟩
  rw [List.disjoint_left]
  intro x hx hx'
  obtain ⟨b, hb, hxb⟩ := List.mem_flatMap.mp hx
  obtain ⟨i, hi, hxi⟩ := List.mem_flatMap.mp hx'
  exact inv.free_used b (List.mem_range.mp hb) i (List.mem_range.mp hi) x hxb hxi

/-- C3. Single ownership: in every pool state reachable from the empty pool by `BeginFrame`
and `GetGlobalUniformBufferFromPool` calls (at arbitrary frame counter values, the device
creating fresh buffers), the free lists of all buckets and the used lists of all
(slot, bucket) pairs, concatenated, contain no handle twice. -/
theorem reachable_pool_has_single_ownership (NumPoolBuckets NumFrames : Nat)
    (hNumFrames : 0 < NumFrames) (Pool : FVulkanGlobalUniformPool) (InDevice : FVulkanDevice)
    (h : Reachable NumPoolBuckets NumFrames Pool InDevice) :
    (AllPooledBuffers NumPoolBuckets NumFrames Pool).Nodup :=
  PoolInvariant_nodup _ _ _ _ (PoolInvariant_of_Reachable _ _ hNumFrames _ _ h)

theorem reachable_pool_has_single_ownership_witness :
    (AllPooledBuffers 8 2
      (BeginFrame 8 2 2
        (GetGlobalUniformBufferFromPool 8 2 0 FVulkanGlobalUniformPool.New ⟨0⟩ 100).2.1)).Nodup :=
  reachable_pool_has_single_ownership 8 2 (by decide) _ _
    (Reachable.beginFrame 2
      (Reachable.getBuffer 0 100 (Reachable.init ⟨0⟩) (by decide)))

/-! ## Runs under the frame protocol -/

theorem mod_ne_of_lt (N m K : Nat) (h0 : 0 < m) (hm : m < K) : (N + m) % K ≠ N % K := by
  intro h
  have h1 : N + m ≡ N + 0 [MOD K] := by
    show (N + m) % K = (N + 0) % K
    rw [h, Nat.add_zero]
  have h2 : m ≡ 0 [MOD K] := Nat.ModEq.add_left_cancel' N h1
  have h3 : K ∣ m := (Nat.modEq_zero_iff_dvd).mp h2
  have := Nat.le_of_dvd h0 h3
  omega

theorem NumBeginFrames_nil : NumBeginFrames [] = 0 := rfl

theorem NumBeginFrames_NextFrame (es : List FrameEvent) :
    NumBeginFrames (FrameEvent.NextFrame :: es) = NumBeginFrames es + 1 := by
  simp [NumBeginFrames]

theorem NumBeginFrames_Acquire (S : Nat) (es : List FrameEvent) :
    NumBeginFrames (FrameEvent.Acquire S :: es) = NumBeginFrames es := by
  simp [NumBeginFrames]

theorem Get_used_mono (NB NF f : Nat) (P : FVulkanGlobalUniformPool) (D : FVulkanDevice)
    (S i : Nat) (x : FPooledUniformBufferRef) (hx : x ∈ P.UsedGlobalUniformBuffers i) :
    x ∈ (GetGlobalUniformBufferFromPool NB NF f P D S).2.1.UsedGlobalUniformBuffers i := by
  by_cases h : P.GlobalUniformBufferPool (GetPoolBucketIndex S) = []
  · rw [GetGlobalUniformBufferFromPool_new _ _ _ _ _ _ h]
    simp only [Function.update_apply]
    split
    · rename_i hi
      rw [← hi]
      exact List.mem_append_left _ hx
    · exact hx
  · rw [GetGlobalUniformBufferFromPool_pop _ _ _ _ _ _ h]
    simp only [Function.update_apply]
    split
    · rename_i hi
      rw [← hi]
      exact List.mem_append_left _ hx
    · exact hx

theorem Get_result_cases (NB NF f : Nat) (P : FVulkanGlobalUniformPool) (D : FVulkanDevice)
    (S : Nat) :
    (GetGlobalUniformBufferFromPool NB NF f P D S).1 ∈
        P.GlobalUniformBufferPool (GetPoolBucketIndex S) ∨
      (GetGlobalUniformBufferFromPool NB NF f P D S).1.Id = D.NumCreated := by
  by_cases h : P.GlobalUniformBufferPool (GetPoolBucketIndex S) = []
  · rw [GetGlobalUniformBufferFromPool_new _ _ _ _ _ _ h]
    exact Or.inr rfl
  · rw [GetGlobalUniformBufferFromPool_pop _ _ _ _ _ _ h]
    exact Or.inl (List.getLast_mem h)

theorem Get_registered (NB NF f : Nat) (P : FVulkanGlobalUniformPool) (D : FVulkanDevice)
    (S : Nat) :
    (GetGlobalUniformBufferFromPool NB NF f P D S).1 ∈
      (GetGlobalUniformBufferFromPool NB NF f P D S).2.1.UsedGlobalUniformBuffers
        (f % NF * NB + GetPoolBucketIndex S) := by
  by_cases h : P.GlobalUniformBufferPool (GetPoolBucketIndex S) = []
  · rw [GetGlobalUniformBufferFromPool_new _ _ _ _ _ _ h]
    simp
  · rw [GetGlobalUniformBufferFromPool_pop _ _ _ _ _ _ h]
    simp

theorem Get_free_keeps (NB NF f : Nat) (P : FVulkanGlobalUniformPool) (D : FVulkanDevice)
    (S b : Nat) (x : FPooledUniformBufferRef) (hx : x ∈ P.GlobalUniformBufferPool b)
    (hne : x ≠ (GetGlobalUniformBufferFromPool NB NF f P D S).1) :
    x ∈ (GetGlobalUniformBufferFromPool NB NF f P D S).2.1.GlobalUniformBufferPool b := by
  by_cases h : P.GlobalUniformBufferPool (GetPoolBucketIndex S) = []
  · rw [GetGlobalUniformBufferFromPool_new _ _ _ _ _ _ h]
    exact hx
  · rw [GetGlobalUniformBufferFromPool_pop _ _ _ _ _ _ h] at hne ⊢
    simp only [Function.update_apply]
    split
    · rename_i hb
      subst hb
      rw [← List.dropLast_append_getLast h] at hx
      rcases List.mem_append.mp hx with h1 | h1
      · exact h1
      · exact absurd (by simpa using h1) hne
    · exact hx

theorem Get_not_held_used (NB NF f : Nat) (hNF : 0 < NF) (P : FVulkanGlobalUniformPool)
    (D : FVulkanDevice) (S : Nat) (hS : GetPoolBucketIndex S < NB)
    (inv : PoolInvariant NB NF P D) (i : Nat) (hi : i < NB * NF)
    (x : FPooledUniformBufferRef) (hx : x ∈ P.UsedGlobalUniformBuffers i) :
    (GetGlobalUniformBufferFromPool NB NF f P D S).1 ≠ x := by
  have _ := hNF
  intro heq
  rcases Get_result_cases NB NF f P D S with h | h
  · rw [heq] at h
    exact inv.free_used _ hS i hi x h hx
  · rw [heq] at h
    exact absurd (inv.used_created i hi x hx) (by omega)

theorem Step_inv (NB NF : Nat) (hNF : 0 < NF) (W : RenderThread) (e : FrameEvent)
    (he : e.InRange NB = true) (inv : PoolInvariant NB NF W.Pool W.Device) :
    PoolInvariant NB NF (Step NB NF W e).1.Pool (Step NB NF W e).1.Device := by
  cases e with
  | NextFrame => exact PoolInvariant_BeginFrame NB NF _ hNF _ _ inv
  | Acquire S =>
    have hS : GetPoolBucketIndex S < NB := by simpa [FrameEvent.InRange] using he
    exact PoolInvariant_GetGlobalUniformBufferFromPool NB NF _ hNF _ _ S hS inv

theorem Run_inv (NB NF : Nat) (hNF : 0 < NF) :
    ∀ (es : List FrameEvent) (W : RenderThread), (∀ e ∈ es, e.InRange NB = true) →
      PoolInvariant NB NF W.Pool W.Device →
      PoolInvariant NB NF (Run NB NF W es).1.Pool (Run NB NF W es).1.Device := by
  intro es
  induction es with
  | nil => intro W _ inv; exact inv
  | cons e es ih =>
    intro W hes inv
    exact ih _ (fun e' he' => hes e' (List.mem_cons_of_mem _ he'))
      (Step_inv NB NF hNF W e (hes e (List.mem_cons_self _ _)) inv)

theorem Run_keeps_used (NB NF : Nat) (hNF : 0 < NF) (x : FPooledUniformBufferRef)
    (N b0 : Nat) (hb0 : b0 < NB) :
    ∀ (es : List FrameEvent) (W : RenderThread) (n : Nat),
      PoolInvariant NB NF W.Pool W.Device → (∀ e ∈ es, e.InRange NB = true) →
      W.GFrameNumberRenderThread = N + n → n + NumBeginFrames es < NF →
      x ∈ W.Pool.UsedGlobalUniformBuffers (N % NF * NB + b0) →
      x ∈ (Run NB NF W es).1.Pool.UsedGlobalUniformBuffers (N % NF * NB + b0) ∧
        x ∉ (Run NB NF W es).2 := by
  have hc : N % NF * NB + b0 < NB * NF := flat_index_lt NB NF _ _ (Nat.mod_lt _ hNF) hb0
  intro es
  induction es with
  | nil =>
    intro W n _ _ _ _ hx
    exact ⟨hx, by simp [Run]⟩
  | cons e es ih =>
    intro W n inv hes hf hn hx
    have hinv := Step_inv NB NF hNF W e (hes e (List.mem_cons_self _ _)) inv
    have hes' : ∀ e' ∈ es, e'.InRange NB = true :=
      fun e' he' => hes e' (List.mem_cons_of_mem _ he')
    cases e with
    | NextFrame =>
      rw [NumBeginFrames_NextFrame] at hn
      have hslot : (W.GFrameNumberRenderThread + 1) % NF ≠ N % NF := by
        rw [hf, Nat.add_assoc]
        exact mod_ne_of_lt N (n + 1) NF (by omega) (by omega)
      have hx' : x ∈ (Step NB NF W FrameEvent.NextFrame).1.Pool.UsedGlobalUniformBuffers
          (N % NF * NB + b0) := by
        show x ∈ (BeginFrame NB NF _ W.Pool).UsedGlobalUniformBuffers _
        rw [BeginFrame_used, if_neg (flat_index_other_slot NB _ _ b0 hb0 hslot.symm)]
        exact hx
      have := ih (Step NB NF W FrameEvent.NextFrame).1 (n + 1) hinv hes'
        (by show W.GFrameNumberRenderThread + 1 = N + (n + 1); omega) (by omega) hx'
      exact ⟨this.1, by simpa [Run, Step] using this.2⟩
    | Acquire S =>
      rw [NumBeginFrames_Acquire] at hn
      have hS : GetPoolBucketIndex S < NB := by
        simpa [FrameEvent.InRange] using hes _ (List.mem_cons_self _ _)
      have hx' : x ∈ (Step NB NF W (FrameEvent.Acquire S)).1.Pool.UsedGlobalUniformBuffers
          (N % NF * NB + b0) := Get_used_mono NB NF _ _ _ S _ x hx
      have hne := Get_not_held_used NB NF W.GFrameNumberRenderThread hNF W.Pool W.Device S hS
        inv _ hc x hx
      have := ih (Step NB NF W (FrameEvent.Acquire S)).1 n hinv hes' hf hn hx'
      refine ⟨this.1, ?_⟩
      intro hmem
      simp only [Run, Step, Option.toList, List.singleton_append, List.mem_cons] at hmem
      rcases hmem with h | h
      · exact hne h.symm
      · exact this.2 h

theorem Run_recycles (NB NF : Nat) (hNF : 0 < NF) (x : FPooledUniformBufferRef)
    (N b0 : Nat) (hb0 : b0 < NB) :
    ∀ (es : List FrameEvent) (W : RenderThread) (n : Nat),
      PoolInvariant NB NF W.Pool W.Device → (∀ e ∈ es, e.InRange NB = true) →
      (n < NF → W.GFrameNumberRenderThread = N + n ∧
        x ∈ W.Pool.UsedGlobalUniformBuffers (N % NF * NB + b0)) →
      (n = NF → x ∈ W.Pool.GlobalUniformBufferPool b0) →
      n + NumBeginFrames es = NF → x ∉ (Run NB NF W es).2 →
      x ∈ (Run NB NF W es).1.Pool.GlobalUniformBufferPool b0 := by
  intro es
  induction es with
  | nil =>
    intro W n _ _ _ hfree hn _
    exact hfree (by simpa [NumBeginFrames_nil] using hn)
  | cons e es ih =>
    intro W n inv hes hused hfree hn hout
    have hinv := Step_inv NB NF hNF W e (hes e (List.mem_cons_self _ _)) inv
    have hes' : ∀ e' ∈ es, e'.InRange NB = true :=
      fun e' he' => hes e' (List.mem_cons_of_mem _ he')
    cases e with
    | NextFrame =>
      rw [NumBeginFrames_NextFrame] at hn
      obtain ⟨hf, hx⟩ := hused (by omega)
      have hout' : x ∉ (Run NB NF (Step NB NF W FrameEvent.NextFrame).1 es).2 := by
        simpa [Run, Step] using hout
      refine ih (Step NB NF W FrameEvent.NextFrame).1 (n + 1) hinv hes' ?_ ?_ (by omega) hout'
      · intro hlt
        have hslot : (W.GFrameNumberRenderThread + 1) % NF ≠ N % NF := by
          rw [hf, Nat.add_assoc]
          exact mod_ne_of_lt N (n + 1) NF (by omega) hlt
        refine ⟨by show W.GFrameNumberRenderThread + 1 = N + (n + 1); omega, ?_⟩
        show x ∈ (BeginFrame NB NF _ W.Pool).UsedGlobalUniformBuffers _
        rw [BeginFrame_used, if_neg (flat_index_other_slot NB _ _ b0 hb0 hslot.symm)]
        exact hx
      · intro heq
        have hslot : (W.GFrameNumberRenderThread + 1) % NF = N % NF := by
          rw [hf, Nat.add_assoc, heq, Nat.add_mod_right]
        show x ∈ (BeginFrame NB NF _ W.Pool).GlobalUniformBufferPool b0
        rw [BeginFrame_free, if_pos hb0, hslot]
        exact List.mem_append_right _ hx
    | Acquire S =>
      rw [NumBeginFrames_Acquire] at hn
      have hout' : x ≠ (GetGlobalUniformBufferFromPool NB NF W.GFrameNumberRenderThread
            W.Pool W.Device S).1 ∧
          x ∉ (Run NB NF (Step NB NF W (FrameEvent.Acquire S)).1 es).2 := by
        simpa [Run, Step, not_or] using hout
      refine ih (Step NB NF W (FrameEvent.Acquire S)).1 n hinv hes' ?_ ?_ hn hout'.2
      · intro hlt
        obtain ⟨hf, hx⟩ := hused hlt
        exact ⟨hf, Get_used_mono NB NF _ _ _ S _ x hx⟩
      · intro heq
        exact Get_free_keeps NB NF _ _ _ S b0 x (hfree heq) hout'.1

/-- C1. Reuse latency. `pre`, then an acquire of size `S1`, then `mid`, then an acquire of
size `S2` is a run from the empty pool under the frame protocol (each `NextFrame` advances
the frame counter by one and then calls `BeginFrame`; acquires follow it). If the second
acquire returns the handle the first one returned, then at least `NumFrames - 1` calls of
`BeginFrame` lie between the two acquires. (This holds for an acquire on any bucket of the
pool, the same bucket included.) -/
theorem reuse_latency (NumPoolBuckets NumFrames : Nat) (hNumFrames : 0 < NumFrames)
    (GFrameNumberRenderThread : Nat) (InDevice : FVulkanDevice) (pre mid : List FrameEvent)
    (S1 S2 : Nat) (hpre : ∀ e ∈ pre, e.InRange NumPoolBuckets = true)
    (hmid : ∀ e ∈ mid, e.InRange NumPoolBuckets = true)
    (hS1 : GetPoolBucketIndex S1 < NumPoolBuckets)
    (hS2 : GetPoolBucketIndex S2 < NumPoolBuckets)
    (hsame :
      (AcquireAfter NumPoolBuckets NumFrames
        (AcquireAfter NumPoolBuckets NumFrames
          (RenderThread.Start GFrameNumberRenderThread InDevice) pre S1).2 mid S2).1 =
      (AcquireAfter NumPoolBuckets NumFrames
        (RenderThread.Start GFrameNumberRenderThread InDevice) pre S1).1) :
    NumFrames - 1 ≤ NumBeginFrames mid := by
  by_contra hlt
  have hcount : 0 + NumBeginFrames mid < NumFrames := by omega
  have inv1 := Run_inv NumPoolBuckets NumFrames hNumFrames pre
    (RenderThread.Start GFrameNumberRenderThread InDevice) hpre
    (PoolInvariant_New NumPoolBuckets NumFrames InDevice)
  have inv2 := PoolInvariant_GetGlobalUniformBufferFromPool NumPoolBuckets NumFrames
    (Run NumPoolBuckets NumFrames (RenderThread.Start GFrameNumberRenderThread InDevice)
      pre).1.GFrameNumberRenderThread hNumFrames _ _ S1 hS1 inv1
  have hreg := Get_registered NumPoolBuckets NumFrames
    (Run NumPoolBuckets NumFrames (RenderThread.Start GFrameNumberRenderThread InDevice)
      pre).1.GFrameNumberRenderThread
    (Run NumPoolBuckets NumFrames (RenderThread.Start GFrameNumberRenderThread InDevice)
      pre).1.Pool
    (Run NumPoolBuckets NumFrames (RenderThread.Start GFrameNumberRenderThread InDevice)
      pre).1.Device S1
  have hkeep := Run_keeps_used NumPoolBuckets NumFrames hNumFrames _ _ _ hS1 mid
    (AcquireAfter NumPoolBuckets NumFrames
      (RenderThread.Start GFrameNumberRenderThread InDevice) pre S1).2 0 inv2 hmid rfl
    hcount hreg
  have inv3 := Run_inv NumPoolBuckets NumFrames hNumFrames mid
    (AcquireAfter NumPoolBuckets NumFrames
      (RenderThread.Start GFrameNumberRenderThread InDevice) pre S1).2 hmid inv2
  exact Get_not_held_used NumPoolBuckets NumFrames _ hNumFrames _ _ S2 hS2 inv3 _
    (flat_index_lt NumPoolBuckets NumFrames _ _ (Nat.mod_lt _ hNumFrames) hS1) _ hkeep.1 hsame

theorem reuse_latency_witness :
    (AcquireAfter 8 2
        (AcquireAfter 8 2 (RenderThread.Start 0 ⟨0⟩) [] 100).2
        [FrameEvent.NextFrame, FrameEvent.NextFrame] 100).1 =
      (AcquireAfter 8 2 (RenderThread.Start 0 ⟨0⟩) [] 100).1 ∧
      2 - 1 ≤ NumBeginFrames [FrameEvent.NextFrame, FrameEvent.NextFrame] :=
  ⟨by decide,
    reuse_latency 8 2 (by decide) 0 ⟨0⟩ [] [FrameEvent.NextFrame, FrameEvent.NextFrame] 100 100
      (by decide) (by decide) (by decide) (by decide) (by decide)⟩

/-- C2. Eventual recycling. A buffer is returned by an acquire of size `S` (and thereby
registered as used in the bucket of `S`) in a run from the empty pool under the frame
protocol. If the events `mid` that follow contain exactly `NumFrames` calls of `BeginFrame`
(each after the frame counter advanced by one) and no acquire among them returned the buffer,
then after `mid` the buffer is in the free list of the bucket of `S`. -/
theorem eventual_recycling (NumPoolBuckets NumFrames : Nat) (hNumFrames : 0 < NumFrames)
    (GFrameNumberRenderThread : Nat) (InDevice : FVulkanDevice) (pre mid : List FrameEvent)
    (S : Nat) (hpre : ∀ e ∈ pre, e.InRange NumPoolBuckets = true)
    (hmid : ∀ e ∈ mid, e.InRange NumPoolBuckets = true)
    (hS : GetPoolBucketIndex S < NumPoolBuckets)
    (hcount : NumBeginFrames mid = NumFrames)
    (hnot :
      (AcquireAfter NumPoolBuckets NumFrames
        (RenderThread.Start GFrameNumberRenderThread InDevice) pre S).1 ∉
      (Run NumPoolBuckets NumFrames
        (AcquireAfter NumPoolBuckets NumFrames
          (RenderThread.Start GFrameNumberRenderThread InDevice) pre S).2 mid).2) :
    (AcquireAfter NumPoolBuckets NumFrames
        (RenderThread.Start GFrameNumberRenderThread InDevice) pre S).1 ∈
      (Run NumPoolBuckets NumFrames
        (AcquireAfter NumPoolBuckets NumFrames
          (RenderThread.Start GFrameNumberRenderThread InDevice) pre S).2
        mid).1.Pool.GlobalUniformBufferPool (GetPoolBucketIndex S) := by
  have inv1 := Run_inv NumPoolBuckets NumFrames hNumFrames pre
    (RenderThread.Start GFrameNumberRenderThread InDevice) hpre
    (PoolInvariant_New NumPoolBuckets NumFrames InDevice)
  have inv2 := PoolInvariant_GetGlobalUniformBufferFromPool NumPoolBuckets NumFrames
    (Run NumPoolBuckets NumFrames (RenderThread.Start GFrameNumberRenderThread InDevice)
      pre).1.GFrameNumberRenderThread hNumFrames _ _ S hS inv1
  have hreg := Get_registered NumPoolBuckets NumFrames
    (Run NumPoolBuckets NumFrames (RenderThread.Start GFrameNumberRenderThread InDevice)
      pre).1.GFrameNumberRenderThread
    (Run NumPoolBuckets NumFrames (RenderThread.Start GFrameNumberRenderThread InDevice)
      pre).1.Pool
    (Run NumPoolBuckets NumFrames (RenderThread.Start GFrameNumberRenderThread InDevice)
      pre).1.Device S
  refine Run_recycles NumPoolBuckets NumFrames hNumFrames _
    (Run NumPoolBuckets NumFrames (RenderThread.Start GFrameNumberRenderThread InDevice)
      pre).1.GFrameNumberRenderThread _ hS mid
    (AcquireAfter NumPoolBuckets NumFrames
      (RenderThread.Start GFrameNumberRenderThread InDevice) pre S).2 0 inv2 hmid
    (fun _ => ⟨rfl, hreg⟩) ?_ (by omega) hnot
  intro h0
  omega

theorem eventual_recycling_witness :
    (⟨0, 128⟩ : FPooledUniformBufferRef) ∈
      (Run 8 2 (AcquireAfter 8 2 (RenderThread.Start 0 ⟨0⟩) [] 100).2
        [FrameEvent.NextFrame, FrameEvent.Acquire 100,
          FrameEvent.NextFrame]).1.Pool.GlobalUniformBufferPool 7 :=
  eventual_recycling 8 2 (by decide) 0 ⟨0⟩ []
    [FrameEvent.NextFrame, FrameEvent.Acquire 100, FrameEvent.NextFrame] 100
    (by decide) (by decide) (by decide) (by decide) (by decide)


/-! ## Frame counter, recycling and the ring pool -/

/-- C11, as the code has it. `BeginFrame` leaves the frame counter as it is (it only reads
`GFrameNumberRenderThread`); the advance by one per frame is made by the caller before the
call, so that starting the next frame is `BeginFrame` run on the advanced counter. -/
theorem BeginFrame_keeps_frame_counter (NumPoolBuckets NumFrames : Nat) (W : RenderThread) :
    (CallBeginFrame NumPoolBuckets NumFrames W).GFrameNumberRenderThread =
        W.GFrameNumberRenderThread ∧
      (Step NumPoolBuckets NumFrames W FrameEvent.NextFrame).1 =
        CallBeginFrame NumPoolBuckets NumFrames
          { GFrameNumberRenderThread := W.GFrameNumberRenderThread + 1
            Pool := W.Pool
            Device := W.Device } :=
  ⟨rfl, rfl⟩

/-- C11 as stated fails: after one `BeginFrame` call on the render thread at frame counter 7
the frame counter is still 7, not 8. -/
theorem BeginFrame_does_not_advance_frame_counter :
    ¬ ∀ (NumPoolBuckets NumFrames : Nat) (W : RenderThread),
        (CallBeginFrame NumPoolBuckets NumFrames W).GFrameNumberRenderThread =
          W.GFrameNumberRenderThread + 1 := by
  intro h
  have h1 := h 17 4 (RenderThread.Start 7 ⟨0⟩)
  revert h1
  decide

theorem Get_free_other (NB NF f : Nat) (P : FVulkanGlobalUniformPool) (D : FVulkanDevice)
    (S b : Nat) (hb : b ≠ GetPoolBucketIndex S) :
    (GetGlobalUniformBufferFromPool NB NF f P D S).2.1.GlobalUniformBufferPool b =
      P.GlobalUniformBufferPool b := by
  by_cases h : P.GlobalUniformBufferPool (GetPoolBucketIndex S) = []
  · rw [GetGlobalUniformBufferFromPool_new _ _ _ _ _ _ h]
  · rw [GetGlobalUniformBufferFromPool_pop _ _ _ _ _ _ h]
    simp only [Function.update_apply, if_neg hb]

/-- C13. Buffers are recycled, never released: for every pool state, a handle held in
bucket `b` (in its free list or in one of its used lists) is still held in bucket `b` after
a `BeginFrame` call and after a `GetGlobalUniformBufferFromPool` call. -/
theorem buffers_stay_held_in_their_bucket (NumPoolBuckets NumFrames : Nat)
    (hNumFrames : 0 < NumFrames) (GFrameNumberRenderThread : Nat)
    (Pool : FVulkanGlobalUniformPool) (InDevice : FVulkanDevice) (InSize b : Nat)
    (hb : b < NumPoolBuckets) (x : FPooledUniformBufferRef)
    (h : HeldInBucket NumPoolBuckets NumFrames Pool b x) :
    HeldInBucket NumPoolBuckets NumFrames
        (BeginFrame NumPoolBuckets NumFrames GFrameNumberRenderThread Pool) b x ∧
      HeldInBucket NumPoolBuckets NumFrames
        (GetGlobalUniformBufferFromPool NumPoolBuckets NumFrames GFrameNumberRenderThread
          Pool InDevice InSize).2.1 b x := by
  constructor
  · rcases h with h | ⟨s, hs, h⟩
    · left
      rw [BeginFrame_free, if_pos hb]
      exact List.mem_append_left _ h
    · by_cases hsl : s = GFrameNumberRenderThread % NumFrames
      · left
        rw [BeginFrame_free, if_pos hb, ← hsl]
        exact List.mem_append_right _ h
      · right
        refine ⟨s, hs, ?_⟩
        rw [BeginFrame_used, if_neg (flat_index_other_slot NumPoolBuckets _ s b hb hsl)]
        exact h
  · rcases h with h | ⟨s, hs, h⟩
    · by_cases hbS : b = GetPoolBucketIndex InSize
      · by_cases hx : x = (GetGlobalUniformBufferFromPool NumPoolBuckets NumFrames
            GFrameNumberRenderThread Pool InDevice InSize).1
        · right
          refine ⟨GFrameNumberRenderThread % NumFrames, Nat.mod_lt _ hNumFrames, ?_⟩
          rw [hbS]
          exact hx ▸ Get_registered _ _ _ _ _ _
        · left
          exact Get_free_keeps _ _ _ _ _ _ b x h hx
      · left
        rw [Get_free_other _ _ _ _ _ _ b hbS]
        exact h
    · right
      exact ⟨s, hs, Get_used_mono _ _ _ _ _ _ _ x h⟩

theorem buffers_stay_held_in_their_bucket_witness :
    HeldInBucket 8 2
        (BeginFrame 8 2 2
          (GetGlobalUniformBufferFromPool 8 2 0 FVulkanGlobalUniformPool.New ⟨0⟩ 100).2.1)
        7 ⟨0, 128⟩ ∧
      HeldInBucket 8 2
        (GetGlobalUniformBufferFromPool 8 2 2
          (GetGlobalUniformBufferFromPool 8 2 0 FVulkanGlobalUniformPool.New ⟨0⟩ 100).2.1
          ⟨1⟩ 100).2.1
        7 ⟨0, 128⟩ :=
  buffers_stay_held_in_their_bucket 8 2 (by decide) 2
    (GetGlobalUniformBufferFromPool 8 2 0 FVulkanGlobalUniformPool.New ⟨0⟩ 100).2.1 ⟨1⟩ 100 7
    (by decide) ⟨0, 128⟩ (Or.inr ⟨0, by decide, by decide⟩)

/-- C14. `AllocateBufferFromPool` with usage `UniformBuffer_MultiFrame` leaves every slot
list of `GUBPool` unchanged, and the buffer it returns is in no slot list of `GUBPool` and is
the device buffer of no handle held by the global uniform pool (the lists holding buffers the
device created before). -/
theorem MultiFrame_allocation_bypasses_the_pools (GFrameNumberRenderThread : Nat)
    (GUBPool : Nat → List FVulkanBuffer) (Device : FVulkanDevice) (ConstantBufferSize : Nat)
    (NumPoolBuckets NumFrames : Nat) (Pool : FVulkanGlobalUniformPool)
    (hGUBPool : ∀ i < NUM_SAFE_FRAMES, ∀ y ∈ GUBPool i, y.Id < Device.NumCreated)
    (hPool : PoolInvariant NumPoolBuckets NumFrames Pool Device) :
    (AllocateBufferFromPool GFrameNumberRenderThread GUBPool Device ConstantBufferSize
        EUniformBufferUsage.UniformBuffer_MultiFrame).2.1 = GUBPool ∧
      (∀ i < NUM_SAFE_FRAMES,
        (AllocateBufferFromPool GFrameNumberRenderThread GUBPool Device ConstantBufferSize
          EUniformBufferUsage.UniformBuffer_MultiFrame).1 ∉
          (AllocateBufferFromPool GFrameNumberRenderThread GUBPool Device ConstantBufferSize
            EUniformBufferUsage.UniformBuffer_MultiFrame).2.1 i) ∧
      (∀ b < NumPoolBuckets, ∀ y ∈ Pool.GlobalUniformBufferPool b,
        y.Id ≠ (AllocateBufferFromPool GFrameNumberRenderThread GUBPool Device
          ConstantBufferSize EUniformBufferUsage.UniformBuffer_MultiFrame).1.Id) ∧
      (∀ i < NumPoolBuckets * NumFrames, ∀ y ∈ Pool.UsedGlobalUniformBuffers i,
        y.Id ≠ (AllocateBufferFromPool GFrameNumberRenderThread GUBPool Device
          ConstantBufferSize EUniformBufferUsage.UniformBuffer_MultiFrame).1.Id) := by
  have hR : AllocateBufferFromPool GFrameNumberRenderThread GUBPool Device ConstantBufferSize
      EUniformBufferUsage.UniformBuffer_MultiFrame =
      (⟨Device.NumCreated, ConstantBufferSize⟩, GUBPool, ⟨Device.NumCreated + 1⟩) := by
    simp [AllocateBufferFromPool, NewVulkanBuffer]
  rw [hR]
  refine ⟨rfl, ?_, ?_, ?_⟩
  · intro i hi hmem
    exact absurd (hGUBPool i hi _ hmem) (lt_irrefl _)
  · intro b hb y hy heq
    exact absurd (hPool.free_created b hb y hy) (by rw [heq]; exact lt_irrefl _)
  · intro i hi y hy heq
    exact absurd (hPool.used_created i hi y hy) (by rw [heq]; exact lt_irrefl _)

theorem MultiFrame_allocation_bypasses_the_pools_witness :
    (AllocateBufferFromPool 7 (fun i => if i = 2 then [⟨0, 16⟩] else []) ⟨1⟩ 64
        EUniformBufferUsage.UniformBuffer_MultiFrame).2.1 =
        (fun i => if i = 2 then [⟨0, 16⟩] else []) ∧
      ∀ i < NUM_SAFE_FRAMES,
        (AllocateBufferFromPool 7 (fun i => if i = 2 then [⟨0, 16⟩] else []) ⟨1⟩ 64
          EUniformBufferUsage.UniformBuffer_MultiFrame).1 ∉
          (AllocateBufferFromPool 7 (fun i => if i = 2 then [⟨0, 16⟩] else []) ⟨1⟩ 64
            EUniformBufferUsage.UniformBuffer_MultiFrame).2.1 i :=
  ⟨(MultiFrame_allocation_bypasses_the_pools 7 (fun i => if i = 2 then [⟨0, 16⟩] else []) ⟨1⟩
      64 17 4 FVulkanGlobalUniformPool.New (by decide) (PoolInvariant_New 17 4 ⟨1⟩)).1,
    (MultiFrame_allocation_bypasses_the_pools 7 (fun i => if i = 2 then [⟨0, 16⟩] else []) ⟨1⟩
      64 17 4 FVulkanGlobalUniformPool.New (by decide) (PoolInvariant_New 17 4 ⟨1⟩)).2.1⟩

/-! ## The constructor of the uniform buffer object -/

theorem ResourceLoop_closed (C : FContents) (off n : Nat) :
    ∀ m : Nat, m ≤ n → (∀ i < m, C.ResourceAt off i ≠ none) →
      (List.range m).foldlM (ResourceLoopBody C off) (List.replicate n none) =
        Except.ok ((List.range n).map (fun i => if i < m then C.ResourceAt off i else none)) := by
  intro m
  induction m with
  | zero =>
    intro _ _
    simp [pure, Except.pure]
  | succ m ih =>
    intro hm hall
    rw [List.range_succ, List.foldlM_append, ih (by omega) (fun i hi => hall i (by omega))]
    obtain ⟨R, hR⟩ := Option.ne_none_iff_exists'.mp (hall m (by omega))
    simp only [bind, Except.bind, List.foldlM_cons, List.foldlM_nil, ResourceLoopBody, hR, pure,
      Except.pure]
    congr 1
    apply List.ext_getElem?
    intro j
    rw [List.getElem?_set, List.getElem?_map, List.getElem?_map]
    by_cases hj : j < n
    · rw [List.getElem?_range hj]
      by_cases hmj : m = j
      · subst hmj
        simp [hR, hj]
      · have h1 : (j < m + 1) = (j < m) := by
          apply propext; constructor <;> intro h <;> omega
        simp [hmj, List.getElem?_range hj, h1]
    · have hnone : (List.range n)[j]? = none := by
        simp; omega
      have hmj : m ≠ j := by omega
      simp [hnone, hmj]

theorem ResourceLoop_ok_nonnull (C : FContents) (off n : Nat) :
    ∀ m : Nat, ∀ T,
      (List.range m).foldlM (ResourceLoopBody C off) (List.replicate n none) = Except.ok T →
      ∀ i < m, C.ResourceAt off i ≠ none := by
  intro m
  induction m with
  | zero => intro T _ i hi; omega
  | succ m ih =>
    intro T hT i hi
    rw [List.range_succ, List.foldlM_append] at hT
    cases h0 : (List.range m).foldlM (ResourceLoopBody C off) (List.replicate n none) with
    | error e =>
      rw [h0] at hT
      simp [bind, Except.bind] at hT
    | ok T0 =>
      rw [h0] at hT
      simp only [bind, Except.bind, List.foldlM_cons, List.foldlM_nil, ResourceLoopBody] at hT
      by_cases him : i = m
      · subst him
        intro hnone
        rw [hnone] at hT
        simp at hT
      · exact ih T0 h0 i (by omega)

theorem TransferResourceTable_ok (C : FContents) (off n : Nat)
    (hall : ∀ i < n, C.ResourceAt off i ≠ none) :
    TransferResourceTable C off n =
      Except.ok ((List.range n).map (fun i => C.ResourceAt off i)) := by
  unfold TransferResourceTable
  rw [ResourceLoop_closed C off n n le_rfl hall]
  congr 1
  apply List.map_congr_left
  intro i hi
  simp [List.mem_range.mp hi]

theorem TransferResourceTable_ok_iff (C : FContents) (off n : Nat)
    (T : List (Option FRHIResource)) (h : TransferResourceTable C off n = Except.ok T) :
    (∀ i < n, C.ResourceAt off i ≠ none) ∧
      T = (List.range n).map (fun i => C.ResourceAt off i) := by
  have hall := ResourceLoop_ok_nonnull C off n n T h
  refine ⟨hall, ?_⟩
  rw [TransferResourceTable_ok C off n hall] at h
  exact (Except.ok.inj h).symm

theorem New_layout_empty (St : RHIState) (L : FRHIUniformBufferLayout)
    (Contents : Option FContents) (U : EUniformBufferUsage)
    (h0 : L.ConstantBufferSize = 0) (hR : L.Resources = []) :
    FVulkanUniformBuffer.New St L Contents U = (Except.error FCheckFailure.LayoutEmpty, St) := by
  simp [FVulkanUniformBuffer.New, h0, hR]

theorem New_contents_null (St : RHIState) (L : FRHIUniformBufferLayout)
    (U : EUniformBufferUsage) (h : 0 < L.Resources.length ∨ 0 < L.ConstantBufferSize) :
    FVulkanUniformBuffer.New St L none U = (Except.error FCheckFailure.ContentsNull, St) := by
  have : ¬ (L.Resources = [] ∧ L.ConstantBufferSize = 0) := by
    rintro ⟨h1, h2⟩
    rw [h1, h2] at h
    simp at h
  simp only [FVulkanUniformBuffer.New]
  rw [if_neg (by simpa [Nat.pos_iff_ne_zero] using this)]

theorem New_ok (St : RHIState) (L : FRHIUniformBufferLayout) (C : FContents)
    (U : EUniformBufferUsage) (h : 0 < L.Resources.length ∨ 0 < L.ConstantBufferSize)
    (hall : ∀ i < L.Resources.length, C.ResourceAt L.ResourceOffset i ≠ none) :
    FVulkanUniformBuffer.New St L (some C) U =
      (Except.ok
        { Layout := L
          Buffer := (StoreConstantData St L C U).1
          ConstantData := (StoreConstantData St L C U).2.1
          ResourceTable :=
            (List.range L.Resources.length).map (fun i => C.ResourceAt L.ResourceOffset i) },
        (StoreConstantData St L C U).2.2) := by
  have hne : ¬ ¬ (L.Resources.length > 0 ∨ L.ConstantBufferSize > 0) := not_not.mpr h
  simp only [FVulkanUniformBuffer.New]
  rw [if_neg hne]
  by_cases hn : L.Resources.length = 0
  · simp [hn]
  · simp only [hn, if_false]
    rw [TransferResourceTable_ok C L.ResourceOffset L.Resources.length hall]

theorem New_ok_inv (St St' : RHIState) (L : FRHIUniformBufferLayout)
    (Contents : Option FContents) (U : EUniformBufferUsage) (Obj : FVulkanUniformBuffer)
    (h : FVulkanUniformBuffer.New St L Contents U = (Except.ok Obj, St')) :
    ∃ C, Contents = some C ∧ (0 < L.Resources.length ∨ 0 < L.ConstantBufferSize) ∧
      ∀ i < L.Resources.length, C.ResourceAt L.ResourceOffset i ≠ none := by
  by_cases hl : L.Resources.length > 0 ∨ L.ConstantBufferSize > 0
  · cases Contents with
    | none =>
      rw [New_contents_null St L U hl] at h
      simp at h
    | some C =>
      refine ⟨C, rfl, hl, ?_⟩
      simp only [FVulkanUniformBuffer.New] at h
      rw [if_neg (not_not.mpr hl)] at h
      by_cases hn : L.Resources.length = 0
      · intro i hi; omega
      · simp only [hn, if_false] at h
        cases hT : TransferResourceTable C L.ResourceOffset L.Resources.length with
        | error e =>
          rw [hT] at h
          simp at h
        | ok T => exact (TransferResourceTable_ok_iff C _ _ T hT).1
  · simp only [FVulkanUniformBuffer.New] at h
    rw [if_pos hl] at h
    simp at h

theorem StoreConstantData_deferred (St : RHIState) (L : FRHIUniformBufferLayout) (C : FContents)
    (U : EUniformBufferUsage) (hmode : St.UseRealUBsEnabled = false)
    (hn : 0 < L.ConstantBufferSize) :
    StoreConstantData St L C U = (none, C.Bytes.take L.ConstantBufferSize, St) := by
  have hne : L.ConstantBufferSize ≠ 0 := by omega
  simp [StoreConstantData, hne, hmode, Memcpy]

theorem StoreConstantData_zero (St : RHIState) (L : FRHIUniformBufferLayout) (C : FContents)
    (U : EUniformBufferUsage) (h0 : L.ConstantBufferSize = 0) :
    StoreConstantData St L C U = (none, [], St) := by
  simp [StoreConstantData, h0]

theorem AllocateBufferFromPool_new (f : Nat) (G : Nat → List FVulkanBuffer) (D : FVulkanDevice)
    (n : Nat) (U : EUniformBufferUsage) :
    (AllocateBufferFromPool f G D n U).1 = ⟨D.NumCreated, n⟩ ∧
      (AllocateBufferFromPool f G D n U).2.2 = ⟨D.NumCreated + 1⟩ := by
  cases U <;> simp [AllocateBufferFromPool, NewVulkanBuffer]

theorem StoreConstantData_immediate (St : RHIState) (L : FRHIUniformBufferLayout)
    (C : FContents) (U : EUniformBufferUsage) (hmode : St.UseRealUBsEnabled = true)
    (hn : 0 < L.ConstantBufferSize) (hlen : L.ConstantBufferSize ≤ C.Bytes.length) :
    (StoreConstantData St L C U).1 = some ⟨St.Device.NumCreated, L.ConstantBufferSize⟩ ∧
      (StoreConstantData St L C U).2.1 = [] ∧
      (StoreConstantData St L C U).2.2.Device = ⟨St.Device.NumCreated + 1⟩ ∧
      (StoreConstantData St L C U).2.2.GUBPool =
        (AllocateBufferFromPool St.GFrameNumberRenderThread St.GUBPool St.Device
          L.ConstantBufferSize U).2.1 ∧
      (StoreConstantData St L C U).2.2.UniformPool = St.UniformPool ∧
      ((StoreConstantData St L C U).2.2.BufferData St.Device.NumCreated).take
        L.ConstantBufferSize = C.Bytes.take L.ConstantBufferSize := by
  have hne : L.ConstantBufferSize ≠ 0 := by omega
  have hA := AllocateBufferFromPool_new St.GFrameNumberRenderThread St.GUBPool St.Device
    L.ConstantBufferSize U
  have htake : (List.take L.ConstantBufferSize C.Bytes).length = L.ConstantBufferSize := by
    rw [List.length_take]; omega
  simp only [StoreConstantData, hne, hmode, ne_eq, not_false_eq_true, if_true, hA.1, hA.2,
    true_and, Function.update_same, Memcpy]
  exact List.take_left' htake

/-- C15, as the code has it. With `r.Vulkan.UseRealUBs` registered and non-zero, for every
layout with `ConstantBufferSize > 0`, contents of at least that many bytes and no null
resource reference among the layout's resources, creating the object with usage
`UniformBuffer_MultiFrame` succeeds; its buffer is the device buffer created by this call,
of size exactly `ConstantBufferSize`; no slot list of `GUBPool` and no list of the global
uniform pool changes; and the first `ConstantBufferSize` bytes of the buffer are those of the
contents. -/
theorem MultiFrame_storage_with_real_uniform_buffers (St : RHIState)
    (InLayout : FRHIUniformBufferLayout) (Contents : FContents)
    (hmode : St.UseRealUBsEnabled = true) (hn : 0 < InLayout.ConstantBufferSize)
    (hlen : InLayout.ConstantBufferSize ≤ Contents.Bytes.length)
    (hres : ∀ i < InLayout.Resources.length,
      Contents.ResourceAt InLayout.ResourceOffset i ≠ none) :
    ∃ Obj St1,
      FVulkanUniformBuffer.New St InLayout (some Contents)
          EUniformBufferUsage.UniformBuffer_MultiFrame = (Except.ok Obj, St1) ∧
        Obj.Buffer = some ⟨St.Device.NumCreated, InLayout.ConstantBufferSize⟩ ∧
        St1.Device.NumCreated = St.Device.NumCreated + 1 ∧
        St1.GUBPool = St.GUBPool ∧ St1.UniformPool = St.UniformPool ∧
        (St1.BufferData St.Device.NumCreated).take InLayout.ConstantBufferSize =
          Contents.Bytes.take InLayout.ConstantBufferSize := by
  have hS := StoreConstantData_immediate St InLayout Contents
    EUniformBufferUsage.UniformBuffer_MultiFrame hmode hn hlen
  refine ⟨_, _, New_ok St InLayout Contents _ (Or.inr hn) hres, hS.1, ?_, ?_, hS.2.2.2.2.1,
    hS.2.2.2.2.2⟩
  · rw [hS.2.2.1]
  · rw [hS.2.2.2.1]
    simp [AllocateBufferFromPool]

theorem MultiFrame_storage_with_real_uniform_buffers_witness :
    ∃ Obj St1,
      FVulkanUniformBuffer.New
          { GFrameNumberRenderThread := 7, GUBPool := fun _ => [],
            UniformPool := FVulkanGlobalUniformPool.New, Device := ⟨0⟩,
            BufferData := fun _ => [], UseRealUBs := some 1 }
          ⟨4, 8, []⟩ (some { Bytes := [1, 2, 3, 4, 5], ResourceAt := fun _ _ => none })
          EUniformBufferUsage.UniformBuffer_MultiFrame = (Except.ok Obj, St1) ∧
        Obj.Buffer = some ⟨0, 4⟩ ∧
        (St1.BufferData 0).take 4 = [1, 2, 3, 4] := by
  obtain ⟨Obj, St1, h1, h2, _, _, _, h6⟩ := MultiFrame_storage_with_real_uniform_buffers
    { GFrameNumberRenderThread := 7, GUBPool := fun _ => [],
      UniformPool := FVulkanGlobalUniformPool.New, Device := ⟨0⟩,
      BufferData := fun _ => [], UseRealUBs := some 1 }
    ⟨4, 8, []⟩ { Bytes := [1, 2, 3, 4, 5], ResourceAt := fun _ _ => none }
    (by decide) (by decide) (by decide) (by decide)
  exact ⟨Obj, St1, h1, h2, h6⟩

/-- C15 as stated fails: with `r.Vulkan.UseRealUBs` at 0, a `UniformBuffer_MultiFrame`
object created from a 4-byte layout and non-null contents has no device buffer (its bytes
are kept in `ConstantData`). -/
theorem MultiFrame_creation_without_device_buffer :
    ¬ ∀ (St : RHIState) (InLayout : FRHIUniformBufferLayout) (Contents : FContents),
        0 < InLayout.ConstantBufferSize →
        InLayout.ConstantBufferSize ≤ Contents.Bytes.length →
        ∃ Obj St1 B,
          FVulkanUniformBuffer.New St InLayout (some Contents)
            EUniformBufferUsage.UniformBuffer_MultiFrame = (Except.ok Obj, St1) ∧
          Obj.Buffer = some B ∧ B.Size = InLayout.ConstantBufferSize := by
  intro h
  obtain ⟨Obj, St1, B, h1, h2, _⟩ := h
    { GFrameNumberRenderThread := 7, GUBPool := fun _ => [],
      UniformPool := FVulkanGlobalUniformPool.New, Device := ⟨0⟩,
      BufferData := fun _ => [], UseRealUBs := some 0 }
    ⟨4, 8, []⟩ { Bytes := [1, 2, 3, 4, 5], ResourceAt := fun _ _ => none }
    (by decide) (by decide)
  have h3 := congrArg Prod.fst h1
  have h4 : Obj = ⟨⟨4, 8, []⟩, none, [1, 2, 3, 4], []⟩ := (Except.ok.inj h3).symm
  rw [h4] at h2
  exact Option.noConfusion h2

/-- C16. Constant-data round trip. For every layout with `ConstantBufferSize = n > 0`, every
contents of at least `n` bytes (without a null resource reference among the layout's
resources) and either value of the configuration switch, creating a
`UniformBuffer_SingleFrame` object succeeds and its constant bytes read back as the first
`n` bytes of the contents: the first `n` bytes of its device buffer when
`r.Vulkan.UseRealUBs` is on, its `ConstantData` array when it is off. -/
theorem SingleFrame_constant_data_round_trip (St : RHIState)
    (InLayout : FRHIUniformBufferLayout) (Contents : FContents)
    (hn : 0 < InLayout.ConstantBufferSize)
    (hlen : InLayout.ConstantBufferSize ≤ Contents.Bytes.length)
    (hres : ∀ i < InLayout.Resources.length,
      Contents.ResourceAt InLayout.ResourceOffset i ≠ none) :
    ∃ Obj St1,
      FVulkanUniformBuffer.New St InLayout (some Contents)
          EUniformBufferUsage.UniformBuffer_SingleFrame = (Except.ok Obj, St1) ∧
        (St.UseRealUBsEnabled = true →
          ∃ B, Obj.Buffer = some B ∧
            (St1.BufferData B.Id).take InLayout.ConstantBufferSize =
              Contents.Bytes.take InLayout.ConstantBufferSize) ∧
        (St.UseRealUBsEnabled = false →
          Obj.Buffer = none ∧
            Obj.ConstantData = Contents.Bytes.take InLayout.ConstantBufferSize) ∧
        (Contents.Bytes.take InLayout.ConstantBufferSize).length =
          InLayout.ConstantBufferSize := by
  refine ⟨_, _, New_ok St InLayout Contents _ (Or.inr hn) hres, ?_, ?_, ?_⟩
  · intro hmode
    have hS := StoreConstantData_immediate St InLayout Contents
      EUniformBufferUsage.UniformBuffer_SingleFrame hmode hn hlen
    exact ⟨_, hS.1, hS.2.2.2.2.2⟩
  · intro hmode
    rw [StoreConstantData_deferred St InLayout Contents _ hmode hn]
    exact ⟨rfl, rfl⟩
  · rw [List.length_take]; omega

theorem SingleFrame_constant_data_round_trip_witness :
    ∃ Obj St1,
      FVulkanUniformBuffer.New
          { GFrameNumberRenderThread := 7, GUBPool := fun _ => [],
            UniformPool := FVulkanGlobalUniformPool.New, Device := ⟨0⟩,
            BufferData := fun _ => [], UseRealUBs := none }
          ⟨4, 8, [0]⟩ (some { Bytes := [1, 2, 3, 4, 5], ResourceAt := fun _ _ => some ⟨9⟩ })
          EUniformBufferUsage.UniformBuffer_SingleFrame = (Except.ok Obj, St1) ∧
        Obj.ConstantData = [1, 2, 3, 4] := by
  obtain ⟨Obj, St1, h1, _, h3, _⟩ := SingleFrame_constant_data_round_trip
    { GFrameNumberRenderThread := 7, GUBPool := fun _ => [],
      UniformPool := FVulkanGlobalUniformPool.New, Device := ⟨0⟩,
      BufferData := fun _ => [], UseRealUBs := none }
    ⟨4, 8, [0]⟩ { Bytes := [1, 2, 3, 4, 5], ResourceAt := fun _ _ => some ⟨9⟩ }
    (by decide) (by decide) (by decide)
  exact ⟨Obj, St1, h1, (h3 rfl).2⟩

/-- C17, as the code has it. For every layout with `ConstantBufferSize = 0` and a non-empty
resources list, creating a `UniformBuffer_SingleFrame` object with contents = null fails
`check(Contents)` and leaves the state as it was; with non-null contents whose resource
references are all non-null it succeeds, with no device buffer, no constant data and the
resource table read from the contents. -/
theorem resource_only_creation_needs_contents (St : RHIState)
    (InLayout : FRHIUniformBufferLayout) (h0 : InLayout.ConstantBufferSize = 0)
    (hR : InLayout.Resources ≠ []) :
    FVulkanUniformBuffer.New St InLayout none EUniformBufferUsage.UniformBuffer_SingleFrame =
        (Except.error FCheckFailure.ContentsNull, St) ∧
      ∀ Contents : FContents,
        (∀ i < InLayout.Resources.length,
          Contents.ResourceAt InLayout.ResourceOffset i ≠ none) →
        FVulkanUniformBuffer.New St InLayout (some Contents)
            EUniformBufferUsage.UniformBuffer_SingleFrame =
          (Except.ok
            { Layout := InLayout
              Buffer := none
              ConstantData := []
              ResourceTable := (List.range InLayout.Resources.length).map
                (fun i => Contents.ResourceAt InLayout.ResourceOffset i) }, St) := by
  have hpos : 0 < InLayout.Resources.length := List.length_pos.mpr hR
  refine ⟨New_contents_null St InLayout _ (Or.inl hpos), ?_⟩
  intro Contents hres
  rw [New_ok St InLayout Contents _ (Or.inl hpos) hres,
    StoreConstantData_zero St InLayout Contents _ h0]

theorem resource_only_creation_needs_contents_witness :
    (FVulkanUniformBuffer.New
        { GFrameNumberRenderThread := 7, GUBPool := fun _ => [],
          UniformPool := FVulkanGlobalUniformPool.New, Device := ⟨0⟩,
          BufferData := fun _ => [], UseRealUBs := some 1 }
        ⟨0, 0, [1]⟩ none EUniformBufferUsage.UniformBuffer_SingleFrame).1 =
      Except.error FCheckFailure.ContentsNull :=
  congrArg Prod.fst
    (resource_only_creation_needs_contents
      { GFrameNumberRenderThread := 7, GUBPool := fun _ => [],
        UniformPool := FVulkanGlobalUniformPool.New, Device := ⟨0⟩,
        BufferData := fun _ => [], UseRealUBs := some 1 }
      ⟨0, 0, [1]⟩ (by decide) (by decide)).1

/-- C17 as stated fails: creating a `UniformBuffer_SingleFrame` object from the layout
`{constantBufferSize: 0, resources: [textureRef]}` with contents = null does not succeed. -/
theorem resource_only_creation_with_null_contents_fails :
    ¬ ∀ (St : RHIState) (InLayout : FRHIUniformBufferLayout),
        InLayout.ConstantBufferSize = 0 → InLayout.Resources ≠ [] →
        ∃ Obj St1,
          FVulkanUniformBuffer.New St InLayout none
            EUniformBufferUsage.UniformBuffer_SingleFrame = (Except.ok Obj, St1) := by
  intro h
  obtain ⟨Obj, St1, h1⟩ := h
    { GFrameNumberRenderThread := 7, GUBPool := fun _ => [],
      UniformPool := FVulkanGlobalUniformPool.New, Device := ⟨0⟩,
      BufferData := fun _ => [], UseRealUBs := some 1 }
    ⟨0, 0, [1]⟩ (by decide) (by decide)
  have h2 := congrArg Prod.fst h1
  exact Except.noConfusion h2

/-- C18. For every layout with `ConstantBufferSize > 0` (with or without resources), every
usage mode and every state, creating the object with contents = null fails
`check(Contents)`: no object is produced and the state is as before. -/
theorem null_contents_with_constant_data_is_rejected (St : RHIState)
    (InLayout : FRHIUniformBufferLayout) (Usage : EUniformBufferUsage)
    (hn : 0 < InLayout.ConstantBufferSize) :
    FVulkanUniformBuffer.New St InLayout none Usage =
      (Except.error FCheckFailure.ContentsNull, St) :=
  New_contents_null St InLayout Usage (Or.inr hn)

theorem null_contents_with_constant_data_is_rejected_witness :
    (FVulkanUniformBuffer.New
        { GFrameNumberRenderThread := 7, GUBPool := fun _ => [],
          UniformPool := FVulkanGlobalUniformPool.New, Device := ⟨0⟩,
          BufferData := fun _ => [], UseRealUBs := some 1 }
        ⟨64, 0, []⟩ none EUniformBufferUsage.UniformBuffer_SingleFrame).1 =
      Except.error FCheckFailure.ContentsNull :=
  congrArg Prod.fst
    (null_contents_with_constant_data_is_rejected
      { GFrameNumberRenderThread := 7, GUBPool := fun _ => [],
        UniformPool := FVulkanGlobalUniformPool.New, Device := ⟨0⟩,
        BufferData := fun _ => [], UseRealUBs := some 1 }
      ⟨64, 0, []⟩ EUniformBufferUsage.UniformBuffer_SingleFrame (by decide))

/-- C19. For every contents pointer, every usage mode and every state, creating the object
from a layout with `ConstantBufferSize = 0` and an empty resources list fails the first
`check`, and the state, with all pool lists, is left unchanged. -/
theorem empty_layout_is_rejected (St : RHIState) (InLayout : FRHIUniformBufferLayout)
    (Contents : Option FContents) (Usage : EUniformBufferUsage)
    (h0 : InLayout.ConstantBufferSize = 0) (hR : InLayout.Resources = []) :
    FVulkanUniformBuffer.New St InLayout Contents Usage =
      (Except.error FCheckFailure.LayoutEmpty, St) :=
  New_layout_empty St InLayout Contents Usage h0 hR

theorem empty_layout_is_rejected_witness :
    (FVulkanUniformBuffer.New
        { GFrameNumberRenderThread := 7, GUBPool := fun _ => [],
          UniformPool := FVulkanGlobalUniformPool.New, Device := ⟨0⟩,
          BufferData := fun _ => [], UseRealUBs := some 1 }
        ⟨0, 16, []⟩ (some { Bytes := [1, 2], ResourceAt := fun _ _ => none })
        EUniformBufferUsage.UniformBuffer_MultiFrame).1 =
      Except.error FCheckFailure.LayoutEmpty :=
  congrArg Prod.fst
    (empty_layout_is_rejected
      { GFrameNumberRenderThread := 7, GUBPool := fun _ => [],
        UniformPool := FVulkanGlobalUniformPool.New, Device := ⟨0⟩,
        BufferData := fun _ => [], UseRealUBs := some 1 }
      ⟨0, 16, []⟩ (some { Bytes := [1, 2], ResourceAt := fun _ _ => none })
      EUniformBufferUsage.UniformBuffer_MultiFrame (by decide) (by decide))

/-- C20. For every successful creation from a layout with `n` declared resources, the
contents are non-null, the resource table of the object has exactly `n` entries, and for
every `i < n` entry `i` is the `i`-th resource reference read from the contents at
`ResourceOffset`, which is not null (for `n = 0` the table is empty). -/
theorem resource_table_in_declaration_order (St St1 : RHIState)
    (InLayout : FRHIUniformBufferLayout) (Contents : Option FContents)
    (Usage : EUniformBufferUsage) (Obj : FVulkanUniformBuffer)
    (h : FVulkanUniformBuffer.New St InLayout Contents Usage = (Except.ok Obj, St1)) :
    ∃ C, Contents = some C ∧ Obj.ResourceTable.length = InLayout.Resources.length ∧
      ∀ i < InLayout.Resources.length,
        Obj.ResourceTable[i]? = some (C.ResourceAt InLayout.ResourceOffset i) ∧
          C.ResourceAt InLayout.ResourceOffset i ≠ none := by
  obtain ⟨C, hC, hl, hall⟩ := New_ok_inv St St1 InLayout Contents Usage Obj h
  subst hC
  rw [New_ok St InLayout C Usage hl hall] at h
  have hObj := (Except.ok.inj (congrArg Prod.fst h)).symm
  refine ⟨C, rfl, ?_, ?_⟩
  · rw [hObj]
    simp
  · intro i hi
    refine ⟨?_, hall i hi⟩
    rw [hObj]
    simp [List.getElem?_map, List.getElem?_range hi]

theorem resource_table_in_declaration_order_witness :
    ∃ C : FContents,
      some ({ Bytes := [], ResourceAt := fun _ i => some ⟨i + 10⟩ } : FContents) = some C ∧
      ([some ⟨10⟩, some ⟨11⟩] : List (Option FRHIResource)).length = 2 ∧
      ∀ i < 2, ([some ⟨10⟩, some ⟨11⟩] : List (Option FRHIResource))[i]? =
          some (C.ResourceAt 8 i) ∧ C.ResourceAt 8 i ≠ none :=
  resource_table_in_declaration_order
    { GFrameNumberRenderThread := 7, GUBPool := fun _ => [],
      UniformPool := FVulkanGlobalUniformPool.New, Device := ⟨0⟩,
      BufferData := fun _ => [], UseRealUBs := none }
    { GFrameNumberRenderThread := 7, GUBPool := fun _ => [],
      UniformPool := FVulkanGlobalUniformPool.New, Device := ⟨0⟩,
      BufferData := fun _ => [], UseRealUBs := none }
    ⟨0, 8, [0, 0]⟩ (some { Bytes := [], ResourceAt := fun _ i => some ⟨i + 10⟩ })
    EUniformBufferUsage.UniformBuffer_SingleFrame
    ⟨⟨0, 8, [0, 0]⟩, none, [], [some ⟨10⟩, some ⟨11⟩]⟩ rfl

/-! ## Invariant of the used lists along a run -/

theorem Run_append_state (NB NF : Nat) :
    ∀ (es1 : List FrameEvent) (W : RenderThread) (es2 : List FrameEvent),
      (Run NB NF W (es1 ++ es2)).1 = (Run NB NF (Run NB NF W es1).1 es2).1 := by
  intro es1
  induction es1 with
  | nil => intro W es2; rfl
  | cons e es ih =>
    intro W es2
    simp only [List.cons_append, Run]
    exact ih _ es2

theorem Run_frame (NB NF : Nat) :
    ∀ (es : List FrameEvent) (W : RenderThread),
      (Run NB NF W es).1.GFrameNumberRenderThread =
        W.GFrameNumberRenderThread + NumBeginFrames es := by
  intro es
  induction es with
  | nil => intro W; simp [Run, NumBeginFrames_nil]
  | cons e es ih =>
    intro W
    cases e with
    | NextFrame =>
      simp only [Run, NumBeginFrames_NextFrame]
      rw [ih]
      simp only [Step]
      omega
    | Acquire S =>
      simp only [Run, NumBeginFrames_Acquire]
      rw [ih]
      simp only [Step]

theorem Get_used_cases (NB NF f : Nat) (P : FVulkanGlobalUniformPool) (D : FVulkanDevice)
    (S i : Nat) (x : FPooledUniformBufferRef)
    (hx : x ∈ (GetGlobalUniformBufferFromPool NB NF f P D S).2.1.UsedGlobalUniformBuffers i) :
    x ∈ P.UsedGlobalUniformBuffers i ∨
      (i = f % NF * NB + GetPoolBucketIndex S ∧
        x = (GetGlobalUniformBufferFromPool NB NF f P D S).1) := by
  by_cases h : P.GlobalUniformBufferPool (GetPoolBucketIndex S) = []
  · rw [GetGlobalUniformBufferFromPool_new _ _ _ _ _ _ h] at hx ⊢
    simp only [Function.update_apply] at hx
    by_cases hi : i = f % NF * NB + GetPoolBucketIndex S
    · rw [if_pos hi] at hx
      rcases List.mem_append.mp hx with h1 | h1
      · left; rw [hi]; exact h1
      · right; exact ⟨hi, by simpa using h1⟩
    · rw [if_neg hi] at hx
      exact Or.inl hx
  · rw [GetGlobalUniformBufferFromPool_pop _ _ _ _ _ _ h] at hx ⊢
    simp only [Function.update_apply] at hx
    by_cases hi : i = f % NF * NB + GetPoolBucketIndex S
    · rw [if_pos hi] at hx
      rcases List.mem_append.mp hx with h1 | h1
      · left; rw [hi]; exact h1
      · right; exact ⟨hi, by simpa using h1⟩
    · rw [if_neg hi] at hx
      exact Or.inl hx

theorem Run_used_history (NB NF : Nat) (W0 : RenderThread)
    (hW0 : ∀ i, W0.Pool.UsedGlobalUniformBuffers i = []) :
    ∀ es : List FrameEvent, (∀ e ∈ es, e.InRange NB = true) →
      ∀ (s b : Nat) (x : FPooledUniformBufferRef), s < NF → b < NB →
        x ∈ (Run NB NF W0 es).1.Pool.UsedGlobalUniformBuffers (s * NB + b) →
        ∃ pre S post, es = pre ++ FrameEvent.Acquire S :: post ∧
          x = (AcquireAfter NB NF W0 pre S).1 ∧ GetPoolBucketIndex S = b ∧
          (Run NB NF W0 pre).1.GFrameNumberRenderThread % NF = s ∧
          (Run NB NF W0 pre).1.GFrameNumberRenderThread ≤
            (Run NB NF W0 es).1.GFrameNumberRenderThread ∧
          (Run NB NF W0 es).1.GFrameNumberRenderThread <
            (Run NB NF W0 pre).1.GFrameNumberRenderThread + NF := by
  intro es
  induction es using List.reverseRecOn with
  | nil =>
    intro _ s b x _ _ hx
    simp [Run, hW0] at hx
  | append_singleton es e ih =>
    intro hes s b x hs hb hx
    have hes1 : ∀ e1 ∈ es, e1.InRange NB = true :=
      fun e1 he1 => hes e1 (List.mem_append_left _ he1)
    have hstate : (Run NB NF W0 (es ++ [e])).1 = (Step NB NF (Run NB NF W0 es).1 e).1 := by
      rw [Run_append_state]
      rfl
    rw [hstate] at hx ⊢
    cases e with
    | NextFrame =>
      have hx1 : x ∈ (BeginFrame NB NF ((Run NB NF W0 es).1.GFrameNumberRenderThread + 1)
          (Run NB NF W0 es).1.Pool).UsedGlobalUniformBuffers (s * NB + b) := hx
      rw [BeginFrame_used] at hx1
      by_cases hin : ((Run NB NF W0 es).1.GFrameNumberRenderThread + 1) % NF * NB ≤ s * NB + b ∧
          s * NB + b < ((Run NB NF W0 es).1.GFrameNumberRenderThread + 1) % NF * NB + NB
      · rw [if_pos hin] at hx1
        simp at hx1
      · rw [if_neg hin] at hx1
        have hslot : s ≠ ((Run NB NF W0 es).1.GFrameNumberRenderThread + 1) % NF := by
          intro heq
          apply hin
          rw [← heq]
          exact ⟨Nat.le_add_right _ _, by omega⟩
        obtain ⟨pre, S, post, h1, h2, h3, h4, h5, h6⟩ := ih hes1 s b x hs hb hx1
        refine ⟨pre, S, post ++ [FrameEvent.NextFrame], ?_, h2, h3, h4, ?_, ?_⟩
        · rw [h1]; simp
        · show _ ≤ (Run NB NF W0 es).1.GFrameNumberRenderThread + 1
          omega
        · show (Run NB NF W0 es).1.GFrameNumberRenderThread + 1 < _
          have hne : (Run NB NF W0 es).1.GFrameNumberRenderThread + 1 ≠
              (Run NB NF W0 pre).1.GFrameNumberRenderThread + NF := by
            intro heq
            apply hslot
            rw [heq, Nat.add_mod_right, h4]
          omega
    | Acquire S1 =>
      have hS1 : GetPoolBucketIndex S1 < NB := by
        simpa [FrameEvent.InRange] using hes (FrameEvent.Acquire S1) (by simp)
      have hx1 : x ∈ (GetGlobalUniformBufferFromPool NB NF
          (Run NB NF W0 es).1.GFrameNumberRenderThread (Run NB NF W0 es).1.Pool
          (Run NB NF W0 es).1.Device S1).2.1.UsedGlobalUniformBuffers (s * NB + b) := hx
      rcases Get_used_cases _ _ _ _ _ _ _ x hx1 with h | ⟨hi, hxe⟩
      · obtain ⟨pre, S, post, h1, h2, h3, h4, h5, h6⟩ := ih hes1 s b x hs hb h
        refine ⟨pre, S, post ++ [FrameEvent.Acquire S1], ?_, h2, h3, h4, h5, h6⟩
        rw [h1]; simp
      · obtain ⟨hs1, hb1⟩ := flat_index_inj NB s b _ _ hb hS1 hi
        refine ⟨es, S1, [], rfl, hxe, hb1.symm, hs1.symm, le_refl _, ?_⟩
        show (Run NB NF W0 es).1.GFrameNumberRenderThread < _
        omega

/-- C12. Invariant I1 along a run `es` from the empty pool under the frame protocol (each
`NextFrame` advances the frame counter by one and then calls `BeginFrame`; acquires follow).
First, every handle in the used list of `(s, b)` was returned by an acquire of the run, made
for bucket `b` in a frame `f` with `f % NumFrames = s`, and `f` is the most recent such frame
(`f ≤ current frame < f + NumFrames`). Second, a handle handed out by an acquire of the run is
still in the used list of its frame's slot and in no free list as long as fewer than
`NumFrames` frame advances followed the acquire. -/
theorem used_lists_hold_the_most_recent_frame_of_their_slot (NumPoolBuckets NumFrames : Nat)
    (hNumFrames : 0 < NumFrames) (GFrameNumberRenderThread : Nat) (InDevice : FVulkanDevice)
    (es : List FrameEvent) (hes : ∀ e ∈ es, e.InRange NumPoolBuckets = true) :
    (∀ (s b : Nat) (x : FPooledUniformBufferRef), s < NumFrames → b < NumPoolBuckets →
      x ∈ (Run NumPoolBuckets NumFrames
          (RenderThread.Start GFrameNumberRenderThread InDevice)
          es).1.Pool.UsedGlobalUniformBuffers (s * NumPoolBuckets + b) →
      ∃ pre S post, es = pre ++ FrameEvent.Acquire S :: post ∧
        x = (AcquireAfter NumPoolBuckets NumFrames
          (RenderThread.Start GFrameNumberRenderThread InDevice) pre S).1 ∧
        GetPoolBucketIndex S = b ∧
        (Run NumPoolBuckets NumFrames (RenderThread.Start GFrameNumberRenderThread InDevice)
          pre).1.GFrameNumberRenderThread % NumFrames = s ∧
        (Run NumPoolBuckets NumFrames (RenderThread.Start GFrameNumberRenderThread InDevice)
          pre).1.GFrameNumberRenderThread ≤
          (Run NumPoolBuckets NumFrames (RenderThread.Start GFrameNumberRenderThread InDevice)
            es).1.GFrameNumberRenderThread ∧
        (Run NumPoolBuckets NumFrames (RenderThread.Start GFrameNumberRenderThread InDevice)
          es).1.GFrameNumberRenderThread <
          (Run NumPoolBuckets NumFrames (RenderThread.Start GFrameNumberRenderThread InDevice)
            pre).1.GFrameNumberRenderThread + NumFrames) ∧
      ∀ (pre : List FrameEvent) (S : Nat) (post : List FrameEvent),
        es = pre ++ FrameEvent.Acquire S :: post → NumBeginFrames post < NumFrames →
        (AcquireAfter NumPoolBuckets NumFrames
            (RenderThread.Start GFrameNumberRenderThread InDevice) pre S).1 ∈
          (Run NumPoolBuckets NumFrames (RenderThread.Start GFrameNumberRenderThread InDevice)
            es).1.Pool.UsedGlobalUniformBuffers
            ((Run NumPoolBuckets NumFrames
              (RenderThread.Start GFrameNumberRenderThread InDevice)
              pre).1.GFrameNumberRenderThread % NumFrames * NumPoolBuckets +
              GetPoolBucketIndex S) ∧
        ∀ b < NumPoolBuckets,
          (AcquireAfter NumPoolBuckets NumFrames
            (RenderThread.Start GFrameNumberRenderThread InDevice) pre S).1 ∉
          (Run NumPoolBuckets NumFrames (RenderThread.Start GFrameNumberRenderThread InDevice)
            es).1.Pool.GlobalUniformBufferPool b := by
  constructor
  · exact Run_used_history NumPoolBuckets NumFrames _ (fun _ => rfl) es hes
  · intro pre S post hsplit hcount
    have hpre : ∀ e ∈ pre, e.InRange NumPoolBuckets = true :=
      fun e he => hes e (by rw [hsplit]; exact List.mem_append_left _ he)
    have hpost : ∀ e ∈ post, e.InRange NumPoolBuckets = true :=
      fun e he => hes e (by rw [hsplit]; simp [he])
    have hS : GetPoolBucketIndex S < NumPoolBuckets := by
      simpa [FrameEvent.InRange] using hes (FrameEvent.Acquire S) (by rw [hsplit]; simp)
    have hstate : (Run NumPoolBuckets NumFrames
        (RenderThread.Start GFrameNumberRenderThread InDevice) es).1 =
        (Run NumPoolBuckets NumFrames (AcquireAfter NumPoolBuckets NumFrames
          (RenderThread.Start GFrameNumberRenderThread InDevice) pre S).2 post).1 := by
      rw [hsplit, Run_append_state]
      rfl
    have inv1 := Run_inv NumPoolBuckets NumFrames hNumFrames pre
      (RenderThread.Start GFrameNumberRenderThread InDevice) hpre
      (PoolInvariant_New NumPoolBuckets NumFrames InDevice)
    have inv2 := PoolInvariant_GetGlobalUniformBufferFromPool NumPoolBuckets NumFrames
      (Run NumPoolBuckets NumFrames (RenderThread.Start GFrameNumberRenderThread InDevice)
        pre).1.GFrameNumberRenderThread hNumFrames _ _ S hS inv1
    have hreg := Get_registered NumPoolBuckets NumFrames
      (Run NumPoolBuckets NumFrames (RenderThread.Start GFrameNumberRenderThread InDevice)
        pre).1.GFrameNumberRenderThread
      (Run NumPoolBuckets NumFrames (RenderThread.Start GFrameNumberRenderThread InDevice)
        pre).1.Pool
      (Run NumPoolBuckets NumFrames (RenderThread.Start GFrameNumberRenderThread InDevice)
        pre).1.Device S
    have hkeep := Run_keeps_used NumPoolBuckets NumFrames hNumFrames _ _ _ hS post
      (AcquireAfter NumPoolBuckets NumFrames
        (RenderThread.Start GFrameNumberRenderThread InDevice) pre S).2 0 inv2 hpost rfl
      (by omega) hreg
    have inv3 := Run_inv NumPoolBuckets NumFrames hNumFrames post
      (AcquireAfter NumPoolBuckets NumFrames
        (RenderThread.Start GFrameNumberRenderThread InDevice) pre S).2 hpost inv2
    rw [hstate]
    refine ⟨hkeep.1, ?_⟩
    intro b hb hmem
    exact inv3.free_used b hb _
      (flat_index_lt NumPoolBuckets NumFrames _ _ (Nat.mod_lt _ hNumFrames) hS) _ hmem hkeep.1

theorem used_lists_hold_the_most_recent_frame_of_their_slot_witness :
    (AcquireAfter 8 2 (RenderThread.Start 0 ⟨0⟩) [] 100).1 ∈
        (Run 8 2 (RenderThread.Start 0 ⟨0⟩)
          [FrameEvent.Acquire 100, FrameEvent.NextFrame]).1.Pool.UsedGlobalUniformBuffers
          ((Run 8 2 (RenderThread.Start 0 ⟨0⟩) []).1.GFrameNumberRenderThread % 2 * 8 +
            GetPoolBucketIndex 100) ∧
      ∀ b < 8, (AcquireAfter 8 2 (RenderThread.Start 0 ⟨0⟩) [] 100).1 ∉
        (Run 8 2 (RenderThread.Start 0 ⟨0⟩)
          [FrameEvent.Acquire 100, FrameEvent.NextFrame]).1.Pool.GlobalUniformBufferPool b :=
  (used_lists_hold_the_most_recent_frame_of_their_slot 8 2 (by decide) 0 ⟨0⟩
    [FrameEvent.Acquire 100, FrameEvent.NextFrame] (by decide)).2 [] 100
    [FrameEvent.NextFrame] rfl (by decide)


/-! ## Creation, destruction and the pools -/

theorem AllocateBufferFromPool_SingleFrame (f : Nat) (G : Nat → List FVulkanBuffer)
    (D : FVulkanDevice) (n : Nat) :
    AllocateBufferFromPool f G D n EUniformBufferUsage.UniformBuffer_SingleFrame =
      (⟨D.NumCreated, n⟩,
        Function.update G (f % NUM_SAFE_FRAMES) (G (f % NUM_SAFE_FRAMES) ++ [⟨D.NumCreated, n⟩]),
        ⟨D.NumCreated + 1⟩) := by
  simp [AllocateBufferFromPool, NewVulkanBuffer]

/-- C21, as the code has it. With `r.Vulkan.UseRealUBs` on, creating a
`UniformBuffer_SingleFrame` object with `ConstantBufferSize = S > 0` (contents of at least
`S` bytes, no null resource reference) obtains its buffer from `AllocateBufferFromPool`: the
device creates one new buffer of size exactly `S`, the buffer is appended to the slot
`GFrameNumberRenderThread % NUM_SAFE_FRAMES` of `GUBPool`, and the global uniform pool
(free and used lists of every bucket) is unchanged. -/
theorem SingleFrame_creation_allocates_a_new_ring_buffer (St : RHIState)
    (InLayout : FRHIUniformBufferLayout) (Contents : FContents)
    (hmode : St.UseRealUBsEnabled = true) (hn : 0 < InLayout.ConstantBufferSize)
    (hlen : InLayout.ConstantBufferSize ≤ Contents.Bytes.length)
    (hres : ∀ i < InLayout.Resources.length,
      Contents.ResourceAt InLayout.ResourceOffset i ≠ none) :
    ∃ Obj St1,
      FVulkanUniformBuffer.New St InLayout (some Contents)
          EUniformBufferUsage.UniformBuffer_SingleFrame = (Except.ok Obj, St1) ∧
        Obj.Buffer = some ⟨St.Device.NumCreated, InLayout.ConstantBufferSize⟩ ∧
        St1.Device.NumCreated = St.Device.NumCreated + 1 ∧
        St1.GUBPool = Function.update St.GUBPool (St.GFrameNumberRenderThread % NUM_SAFE_FRAMES)
          (St.GUBPool (St.GFrameNumberRenderThread % NUM_SAFE_FRAMES) ++
            [⟨St.Device.NumCreated, InLayout.ConstantBufferSize⟩]) ∧
        St1.UniformPool = St.UniformPool := by
  have hS := StoreConstantData_immediate St InLayout Contents
    EUniformBufferUsage.UniformBuffer_SingleFrame hmode hn hlen
  refine ⟨_, _, New_ok St InLayout Contents _ (Or.inr hn) hres, hS.1, ?_, ?_, hS.2.2.2.2.1⟩
  · rw [hS.2.2.1]
  · rw [hS.2.2.2.1, AllocateBufferFromPool_SingleFrame]

theorem SingleFrame_creation_allocates_a_new_ring_buffer_witness :
    ∃ Obj St1,
      FVulkanUniformBuffer.New
          { GFrameNumberRenderThread := 7, GUBPool := fun _ => [],
            UniformPool :=
              { GlobalUniformBufferPool := fun b => if b = 7 then [⟨0, 128⟩] else []
                UsedGlobalUniformBuffers := fun _ => [] },
            Device := ⟨1⟩, BufferData := fun _ => [], UseRealUBs := some 1 }
          ⟨100, 0, []⟩ (some { Bytes := List.replicate 100 0, ResourceAt := fun _ _ => none })
          EUniformBufferUsage.UniformBuffer_SingleFrame = (Except.ok Obj, St1) ∧
        Obj.Buffer = some ⟨1, 100⟩ ∧ St1.Device.NumCreated = 2 := by
  obtain ⟨Obj, St1, h1, h2, h3, _, _⟩ := SingleFrame_creation_allocates_a_new_ring_buffer
    { GFrameNumberRenderThread := 7, GUBPool := fun _ => [],
      UniformPool :=
        { GlobalUniformBufferPool := fun b => if b = 7 then [⟨0, 128⟩] else []
          UsedGlobalUniformBuffers := fun _ => [] },
      Device := ⟨1⟩, BufferData := fun _ => [], UseRealUBs := some 1 }
    ⟨100, 0, []⟩ { Bytes := List.replicate 100 0, ResourceAt := fun _ _ => none }
    (by decide) (by decide) (by decide) (by decide)
  exact ⟨Obj, St1, h1, h2, h3⟩

/-- C21 as stated fails: with `r.Vulkan.UseRealUBs` on and a free 128-byte buffer in the
bucket of size 100, creating a `UniformBuffer_SingleFrame` object of 100 constant bytes does
not reuse that buffer; the object gets a device buffer of another identity (a new one). -/
theorem SingleFrame_creation_does_not_reuse_a_free_bucket_buffer :
    ¬ ∀ (St : RHIState) (InLayout : FRHIUniformBufferLayout) (Contents : FContents)
        (x : FPooledUniformBufferRef),
        St.UseRealUBsEnabled = true → 0 < InLayout.ConstantBufferSize →
        InLayout.ConstantBufferSize ≤ Contents.Bytes.length →
        St.UniformPool.GlobalUniformBufferPool
          (GetPoolBucketIndex InLayout.ConstantBufferSize) = [x] →
        ∃ Obj St1 B,
          FVulkanUniformBuffer.New St InLayout (some Contents)
            EUniformBufferUsage.UniformBuffer_SingleFrame = (Except.ok Obj, St1) ∧
          Obj.Buffer = some B ∧ B.Id = x.Id := by
  intro h
  obtain ⟨Obj, St1, B, h1, h2, h3⟩ := h
    { GFrameNumberRenderThread := 7, GUBPool := fun _ => [],
      UniformPool :=
        { GlobalUniformBufferPool := fun b => if b = 7 then [⟨0, 128⟩] else []
          UsedGlobalUniformBuffers := fun _ => [] },
      Device := ⟨1⟩, BufferData := fun _ => [], UseRealUBs := some 1 }
    ⟨100, 0, []⟩ { Bytes := List.replicate 100 0, ResourceAt := fun _ _ => none } ⟨0, 128⟩
    (by decide) (by decide) (by decide) (by decide)
  have h4 : Obj = ⟨⟨100, 0, []⟩, some ⟨1, 100⟩, [], []⟩ :=
    (Except.ok.inj (congrArg Prod.fst h1)).symm
  rw [h4] at h2
  have h5 : B = ⟨1, 100⟩ := (Option.some.inj h2).symm
  rw [h5] at h3
  revert h3
  decide

/-- C22. With the configuration switch off (deferred copy), for every layout with
`ConstantBufferSize = n > 0`, contents of at least `n` bytes (no null resource reference)
and every usage mode, creation succeeds, the `ConstantData` of the object holds exactly the
first `n` bytes of the contents, the object has no device buffer, and the state after the
call is the state before it: the device created nothing and no pool list changed. -/
theorem deferred_mode_keeps_bytes_on_the_cpu (St : RHIState)
    (InLayout : FRHIUniformBufferLayout) (Contents : FContents) (Usage : EUniformBufferUsage)
    (hmode : St.UseRealUBsEnabled = false) (hn : 0 < InLayout.ConstantBufferSize)
    (hlen : InLayout.ConstantBufferSize ≤ Contents.Bytes.length)
    (hres : ∀ i < InLayout.Resources.length,
      Contents.ResourceAt InLayout.ResourceOffset i ≠ none) :
    ∃ Obj,
      FVulkanUniformBuffer.New St InLayout (some Contents) Usage = (Except.ok Obj, St) ∧
        Obj.ConstantData = Contents.Bytes.take InLayout.ConstantBufferSize ∧
        Obj.ConstantData.length = InLayout.ConstantBufferSize ∧ Obj.Buffer = none := by
  have hNew := New_ok St InLayout Contents Usage (Or.inr hn) hres
  rw [StoreConstantData_deferred St InLayout Contents Usage hmode hn] at hNew
  refine ⟨_, hNew, rfl, ?_, rfl⟩
  show (List.take InLayout.ConstantBufferSize Contents.Bytes).length = _
  rw [List.length_take]
  omega

theorem deferred_mode_keeps_bytes_on_the_cpu_witness :
    ∃ Obj,
      FVulkanUniformBuffer.New
          { GFrameNumberRenderThread := 7, GUBPool := fun _ => [],
            UniformPool := FVulkanGlobalUniformPool.New, Device := ⟨0⟩,
            BufferData := fun _ => [], UseRealUBs := some 0 }
          ⟨4, 8, []⟩ (some { Bytes := [1, 2, 3, 4, 5], ResourceAt := fun _ _ => none })
          EUniformBufferUsage.UniformBuffer_SingleFrame =
          (Except.ok Obj,
            { GFrameNumberRenderThread := 7, GUBPool := fun _ => [],
              UniformPool := FVulkanGlobalUniformPool.New, Device := ⟨0⟩,
              BufferData := fun _ => [], UseRealUBs := some 0 }) ∧
        Obj.ConstantData = [1, 2, 3, 4] ∧ Obj.Buffer = none := by
  obtain ⟨Obj, h1, h2, _, h4⟩ := deferred_mode_keeps_bytes_on_the_cpu
    { GFrameNumberRenderThread := 7, GUBPool := fun _ => [],
      UniformPool := FVulkanGlobalUniformPool.New, Device := ⟨0⟩,
      BufferData := fun _ => [], UseRealUBs := some 0 }
    ⟨4, 8, []⟩ { Bytes := [1, 2, 3, 4, 5], ResourceAt := fun _ _ => none }
    EUniformBufferUsage.UniformBuffer_SingleFrame (by decide) (by decide) (by decide)
    (by decide)
  exact ⟨Obj, h1, h2, h4⟩

/-- C23. Destruction does not release. For every state, a `UniformBuffer_SingleFrame` object
created with `r.Vulkan.UseRealUBs` on is backed by a buffer registered in the slot
`GFrameNumberRenderThread % NUM_SAFE_FRAMES` of `GUBPool`; destroying the object leaves
`GUBPool` and every list of the global uniform pool unchanged, so the buffer is still in that
slot list and has been added to no free list. -/
theorem destruction_does_not_release (St : RHIState) (InLayout : FRHIUniformBufferLayout)
    (Contents : FContents) (hmode : St.UseRealUBsEnabled = true)
    (hn : 0 < InLayout.ConstantBufferSize)
    (hlen : InLayout.ConstantBufferSize ≤ Contents.Bytes.length)
    (hres : ∀ i < InLayout.Resources.length,
      Contents.ResourceAt InLayout.ResourceOffset i ≠ none) :
    ∃ Obj St1 B,
      FVulkanUniformBuffer.New St InLayout (some Contents)
          EUniformBufferUsage.UniformBuffer_SingleFrame = (Except.ok Obj, St1) ∧
        Obj.Buffer = some B ∧
        B ∈ St1.GUBPool (St.GFrameNumberRenderThread % NUM_SAFE_FRAMES) ∧
        (FVulkanUniformBuffer.Destroy St1 Obj).GUBPool = St1.GUBPool ∧
        (FVulkanUniformBuffer.Destroy St1 Obj).UniformPool = St1.UniformPool ∧
        (FVulkanUniformBuffer.Destroy St1 Obj).UniformPool = St.UniformPool ∧
        B ∈ (FVulkanUniformBuffer.Destroy St1 Obj).GUBPool
          (St.GFrameNumberRenderThread % NUM_SAFE_FRAMES) := by
  have hS := StoreConstantData_immediate St InLayout Contents
    EUniformBufferUsage.UniformBuffer_SingleFrame hmode hn hlen
  have hmem : (⟨St.Device.NumCreated, InLayout.ConstantBufferSize⟩ : FVulkanBuffer) ∈
      (StoreConstantData St InLayout Contents
        EUniformBufferUsage.UniformBuffer_SingleFrame).2.2.GUBPool
        (St.GFrameNumberRenderThread % NUM_SAFE_FRAMES) := by
    rw [hS.2.2.2.1, AllocateBufferFromPool_SingleFrame]
    simp
  exact ⟨_, _, _, New_ok St InLayout Contents _ (Or.inr hn) hres, hS.1, hmem, rfl, rfl,
    hS.2.2.2.2.1, hmem⟩

theorem destruction_does_not_release_witness :
    ∃ Obj St1 B,
      FVulkanUniformBuffer.New
          { GFrameNumberRenderThread := 7, GUBPool := fun _ => [],
            UniformPool := FVulkanGlobalUniformPool.New, Device := ⟨0⟩,
            BufferData := fun _ => [], UseRealUBs := some 1 }
          ⟨4, 8, []⟩ (some { Bytes := [1, 2, 3, 4, 5], ResourceAt := fun _ _ => none })
          EUniformBufferUsage.UniformBuffer_SingleFrame = (Except.ok Obj, St1) ∧
        Obj.Buffer = some B ∧
        B ∈ (FVulkanUniformBuffer.Destroy St1 Obj).GUBPool (7 % NUM_SAFE_FRAMES) := by
  obtain ⟨Obj, St1, B, h1, h2, _, _, _, _, h7⟩ := destruction_does_not_release
    { GFrameNumberRenderThread := 7, GUBPool := fun _ => [],
      UniformPool := FVulkanGlobalUniformPool.New, Device := ⟨0⟩,
      BufferData := fun _ => [], UseRealUBs := some 1 }
    ⟨4, 8, []⟩ { Bytes := [1, 2, 3, 4, 5], ResourceAt := fun _ _ => none }
    (by decide) (by decide) (by decide) (by decide)
  exact ⟨Obj, St1, B, h1, h2, h7⟩

/-! ## More on the global uniform pool -/

theorem Get_used_other (NB NF f : Nat) (P : FVulkanGlobalUniformPool) (D : FVulkanDevice)
    (S i : Nat) (hi : i ≠ f % NF * NB + GetPoolBucketIndex S) :
    (GetGlobalUniformBufferFromPool NB NF f P D S).2.1.UsedGlobalUniformBuffers i =
      P.UsedGlobalUniformBuffers i := by
  by_cases h : P.GlobalUniformBufferPool (GetPoolBucketIndex S) = []
  · rw [GetGlobalUniformBufferFromPool_new _ _ _ _ _ _ h]
    simp only [Function.update_apply, if_neg hi]
  · rw [GetGlobalUniformBufferFromPool_pop _ _ _ _ _ _ h]
    simp only [Function.update_apply, if_neg hi]

theorem Get_used_at (NB NF f : Nat) (P : FVulkanGlobalUniformPool) (D : FVulkanDevice)
    (S : Nat) :
    (GetGlobalUniformBufferFromPool NB NF f P D S).2.1.UsedGlobalUniformBuffers
        (f % NF * NB + GetPoolBucketIndex S) =
      P.UsedGlobalUniformBuffers (f % NF * NB + GetPoolBucketIndex S) ++
        [(GetGlobalUniformBufferFromPool NB NF f P D S).1] := by
  by_cases h : P.GlobalUniformBufferPool (GetPoolBucketIndex S) = []
  · rw [GetGlobalUniformBufferFromPool_new _ _ _ _ _ _ h]
    simp
  · rw [GetGlobalUniformBufferFromPool_pop _ _ _ _ _ _ h]
    simp

theorem Get_free_subset (NB NF f : Nat) (P : FVulkanGlobalUniformPool) (D : FVulkanDevice)
    (S b : Nat) (x : FPooledUniformBufferRef)
    (hx : x ∈ (GetGlobalUniformBufferFromPool NB NF f P D S).2.1.GlobalUniformBufferPool b) :
    x ∈ P.GlobalUniformBufferPool b := by
  by_cases h : P.GlobalUniformBufferPool (GetPoolBucketIndex S) = []
  · rw [GetGlobalUniformBufferFromPool_new _ _ _ _ _ _ h] at hx
    exact hx
  · rw [GetGlobalUniformBufferFromPool_pop _ _ _ _ _ _ h] at hx
    simp only [Function.update_apply] at hx
    by_cases hb : b = GetPoolBucketIndex S
    · rw [if_pos hb] at hx
      rw [hb]
      exact List.mem_of_mem_dropLast hx
    · rw [if_neg hb] at hx
      exact hx

theorem Get_result_size (NB NF f : Nat) (P : FVulkanGlobalUniformPool) (D : FVulkanDevice)
    (S : Nat) :
    (GetGlobalUniformBufferFromPool NB NF f P D S).1 ∈
        P.GlobalUniformBufferPool (GetPoolBucketIndex S) ∨
      (GetGlobalUniformBufferFromPool NB NF f P D S).1.Size = GetPoolBucketSize S := by
  by_cases h : P.GlobalUniformBufferPool (GetPoolBucketIndex S) = []
  · rw [GetGlobalUniformBufferFromPool_new _ _ _ _ _ _ h]
    exact Or.inr rfl
  · rw [GetGlobalUniformBufferFromPool_pop _ _ _ _ _ _ h]
    exact Or.inl (List.getLast_mem h)

theorem GetPoolBucketSize_in_range (NB S : Nat) (hNB : NB ≤ 32)
    (hS : GetPoolBucketIndex S < NB) :
    GetPoolBucketSize S = 2 ^ GetPoolBucketIndex S ∧ S ≤ 2 ^ GetPoolBucketIndex S := by
  have h1 : Nat.clog 2 S ≤ 31 := by
    rw [← GetPoolBucketIndex_eq]; omega
  have hle : S ≤ 2 ^ 31 := (Nat.le_pow_iff_clog_le (by norm_num)).mpr h1
  refine ⟨GetPoolBucketSize_of_le S hle, ?_⟩
  rw [GetPoolBucketIndex_eq]
  exact Nat.le_pow_clog (by norm_num) S

theorem Reachable_sizes (NB NF : Nat) (hNF : 0 < NF) (hNB : NB ≤ 32)
    (P : FVulkanGlobalUniformPool) (D : FVulkanDevice) (h : Reachable NB NF P D) :
    (∀ b < NB, ∀ x ∈ P.GlobalUniformBufferPool b, x.Size = 2 ^ b) ∧
      ∀ s < NF, ∀ b < NB, ∀ x ∈ P.UsedGlobalUniformBuffers (s * NB + b), x.Size = 2 ^ b := by
  induction h with
  | init D =>
    constructor
    · intro b _ x hx
      simp [FVulkanGlobalUniformPool.New] at hx
    · intro s _ b _ x hx
      simp [FVulkanGlobalUniformPool.New] at hx
  | @beginFrame f P D _ ih =>
    obtain ⟨ih1, ih2⟩ := ih
    constructor
    · intro b hb x hx
      rw [BeginFrame_free, if_pos hb] at hx
      rcases List.mem_append.mp hx with h1 | h1
      · exact ih1 b hb x h1
      · exact ih2 _ (Nat.mod_lt _ hNF) b hb x h1
    · intro s hs b hb x hx
      rw [BeginFrame_used] at hx
      split at hx
      · simp at hx
      · exact ih2 s hs b hb x hx
  | @getBuffer f S P D _ hS ih =>
    obtain ⟨ih1, ih2⟩ := ih
    constructor
    · intro b hb x hx
      exact ih1 b hb x (Get_free_subset _ _ _ _ _ _ b x hx)
    · intro s hs b hb x hx
      rcases Get_used_cases _ _ _ _ _ _ _ x hx with h1 | ⟨hi, hxe⟩
      · exact ih2 s hs b hb x h1
      · obtain ⟨_, hbS⟩ := flat_index_inj NB s b _ _ hb hS hi
        rw [hxe, hbS]
        rcases Get_result_size NB NF f P D S with h2 | h2
        · exact ih1 _ hS _ h2
        · rw [h2]
          exact (GetPoolBucketSize_in_range NB S hNB hS).1

/-- C27. In every pool state reachable from the empty pool (pool of at most 32 buckets, so
that every canonical size `2^b` is a `uint32`), every buffer in the free list of bucket `b`
or in a used list of `(slot, b)` has size exactly `2^b`; and the buffer returned by
`GetGlobalUniformBufferFromPool` for a size `S` whose bucket exists, popped or newly
created, has size `2 ^ bucketIndex(S)`, which is at least `S`. -/
theorem reachable_buffers_have_their_bucket_size (NumPoolBuckets NumFrames : Nat)
    (hNumFrames : 0 < NumFrames) (hBuckets : NumPoolBuckets ≤ 32)
    (Pool : FVulkanGlobalUniformPool) (InDevice : FVulkanDevice)
    (h : Reachable NumPoolBuckets NumFrames Pool InDevice) :
    (∀ b < NumPoolBuckets, ∀ x ∈ Pool.GlobalUniformBufferPool b, x.Size = 2 ^ b) ∧
      (∀ s < NumFrames, ∀ b < NumPoolBuckets,
        ∀ x ∈ Pool.UsedGlobalUniformBuffers (s * NumPoolBuckets + b), x.Size = 2 ^ b) ∧
      ∀ (GFrameNumberRenderThread InSize : Nat), GetPoolBucketIndex InSize < NumPoolBuckets →
        (GetGlobalUniformBufferFromPool NumPoolBuckets NumFrames GFrameNumberRenderThread
          Pool InDevice InSize).1.Size = 2 ^ GetPoolBucketIndex InSize ∧
        InSize ≤ (GetGlobalUniformBufferFromPool NumPoolBuckets NumFrames
          GFrameNumberRenderThread Pool InDevice InSize).1.Size := by
  obtain ⟨h1, h2⟩ := Reachable_sizes NumPoolBuckets NumFrames hNumFrames hBuckets Pool InDevice h
  refine ⟨h1, h2, ?_⟩
  intro f S hS
  have hsz := GetPoolBucketSize_in_range NumPoolBuckets S hBuckets hS
  have hR : (GetGlobalUniformBufferFromPool NumPoolBuckets NumFrames f Pool InDevice S).1.Size
      = 2 ^ GetPoolBucketIndex S := by
    rcases Get_result_size NumPoolBuckets NumFrames f Pool InDevice S with h3 | h3
    · exact h1 _ hS _ h3
    · rw [h3]; exact hsz.1
  exact ⟨hR, by rw [hR]; exact hsz.2⟩

theorem reachable_buffers_have_their_bucket_size_witness :
    (GetGlobalUniformBufferFromPool 8 2 3
        (BeginFrame 8 2 2
          (GetGlobalUniformBufferFromPool 8 2 0 FVulkanGlobalUniformPool.New ⟨0⟩ 100).2.1)
        (GetGlobalUniformBufferFromPool 8 2 0 FVulkanGlobalUniformPool.New ⟨0⟩ 100).2.2
        70).1.Size = 2 ^ GetPoolBucketIndex 70 ∧
      70 ≤ (GetGlobalUniformBufferFromPool 8 2 3
        (BeginFrame 8 2 2
          (GetGlobalUniformBufferFromPool 8 2 0 FVulkanGlobalUniformPool.New ⟨0⟩ 100).2.1)
        (GetGlobalUniformBufferFromPool 8 2 0 FVulkanGlobalUniformPool.New ⟨0⟩ 100).2.2
        70).1.Size :=
  (reachable_buffers_have_their_bucket_size 8 2 (by decide) (by decide) _ _
    (Reachable.beginFrame 2
      (Reachable.getBuffer 0 100 (Reachable.init ⟨0⟩) (by decide)))).2.2 3 70 (by decide)

/-- C25. For every size and pool state, `GetGlobalUniformBufferFromPool` leaves the free
list of every bucket other than `GetPoolBucketIndex InSize` and the used list at every flat
index other than that of (slot `GFrameNumberRenderThread % NumFrames`, bucket
`GetPoolBucketIndex InSize`) unchanged (so the used lists of every other bucket and of every
other slot), and an acquire on the render thread leaves the frame counter unchanged. -/
theorem acquire_changes_only_its_bucket_and_slot
    (NumPoolBuckets NumFrames GFrameNumberRenderThread : Nat)
    (Pool : FVulkanGlobalUniformPool) (InDevice : FVulkanDevice) (InSize : Nat) :
    (∀ b, b ≠ GetPoolBucketIndex InSize →
      (GetGlobalUniformBufferFromPool NumPoolBuckets NumFrames GFrameNumberRenderThread
        Pool InDevice InSize).2.1.GlobalUniformBufferPool b = Pool.GlobalUniformBufferPool b) ∧
      (∀ i, i ≠ GFrameNumberRenderThread % NumFrames * NumPoolBuckets +
          GetPoolBucketIndex InSize →
        (GetGlobalUniformBufferFromPool NumPoolBuckets NumFrames GFrameNumberRenderThread
          Pool InDevice InSize).2.1.UsedGlobalUniformBuffers i =
          Pool.UsedGlobalUniformBuffers i) ∧
      (∀ s b, b < NumPoolBuckets → GetPoolBucketIndex InSize < NumPoolBuckets →
        (s ≠ GFrameNumberRenderThread % NumFrames ∨ b ≠ GetPoolBucketIndex InSize) →
        (GetGlobalUniformBufferFromPool NumPoolBuckets NumFrames GFrameNumberRenderThread
          Pool InDevice InSize).2.1.UsedGlobalUniformBuffers (s * NumPoolBuckets + b) =
          Pool.UsedGlobalUniformBuffers (s * NumPoolBuckets + b)) ∧
      ∀ W : RenderThread,
        (Step NumPoolBuckets NumFrames W (FrameEvent.Acquire InSize)).1.GFrameNumberRenderThread
          = W.GFrameNumberRenderThread := by
  refine ⟨fun b hb => Get_free_other _ _ _ _ _ _ b hb,
    fun i hi => Get_used_other _ _ _ _ _ _ i hi, ?_, fun _ => rfl⟩
  intro s b hb hS hne
  apply Get_used_other
  intro heq
  obtain ⟨h1, h2⟩ := flat_index_inj NumPoolBuckets s b _ _ hb hS heq
  rcases hne with h | h
  · exact h h1
  · exact h h2

/-- C28. If `BeginFrame` is called at the frame counter value at which
`GetGlobalUniformBufferFromPool` has just handed out a buffer for a size whose bucket
exists, the buffer is in the free list of that bucket at once (as its last entry), and the
next `GetGlobalUniformBufferFromPool` on that bucket at the same frame counter value returns
that very handle. -/
theorem BeginFrame_in_the_same_frame_recycles_at_once
    (NumPoolBuckets NumFrames GFrameNumberRenderThread : Nat)
    (Pool : FVulkanGlobalUniformPool) (InDevice : FVulkanDevice) (InSize : Nat)
    (hS : GetPoolBucketIndex InSize < NumPoolBuckets) :
    (GetGlobalUniformBufferFromPool NumPoolBuckets NumFrames GFrameNumberRenderThread
        Pool InDevice InSize).1 ∈
        (BeginFrame NumPoolBuckets NumFrames GFrameNumberRenderThread
          (GetGlobalUniformBufferFromPool NumPoolBuckets NumFrames GFrameNumberRenderThread
            Pool InDevice InSize).2.1).GlobalUniformBufferPool (GetPoolBucketIndex InSize) ∧
      ∀ (Device2 : FVulkanDevice) (InSize2 : Nat),
        GetPoolBucketIndex InSize2 = GetPoolBucketIndex InSize →
        (GetGlobalUniformBufferFromPool NumPoolBuckets NumFrames GFrameNumberRenderThread
          (BeginFrame NumPoolBuckets NumFrames GFrameNumberRenderThread
            (GetGlobalUniformBufferFromPool NumPoolBuckets NumFrames GFrameNumberRenderThread
              Pool InDevice InSize).2.1) Device2 InSize2).1 =
          (GetGlobalUniformBufferFromPool NumPoolBuckets NumFrames GFrameNumberRenderThread
            Pool InDevice InSize).1 := by
  have hfree : (BeginFrame NumPoolBuckets NumFrames GFrameNumberRenderThread
      (GetGlobalUniformBufferFromPool NumPoolBuckets NumFrames GFrameNumberRenderThread
        Pool InDevice InSize).2.1).GlobalUniformBufferPool (GetPoolBucketIndex InSize) =
      ((GetGlobalUniformBufferFromPool NumPoolBuckets NumFrames GFrameNumberRenderThread
        Pool InDevice InSize).2.1.GlobalUniformBufferPool (GetPoolBucketIndex InSize) ++
        Pool.UsedGlobalUniformBuffers
          (GFrameNumberRenderThread % NumFrames * NumPoolBuckets + GetPoolBucketIndex InSize)) ++
        [(GetGlobalUniformBufferFromPool NumPoolBuckets NumFrames GFrameNumberRenderThread
          Pool InDevice InSize).1] := by
    rw [BeginFrame_free, if_pos hS, Get_used_at, List.append_assoc]
  constructor
  · rw [hfree]
    simp
  · intro Device2 InSize2 hidx
    have hne : (BeginFrame NumPoolBuckets NumFrames GFrameNumberRenderThread
        (GetGlobalUniformBufferFromPool NumPoolBuckets NumFrames GFrameNumberRenderThread
          Pool InDevice InSize).2.1).GlobalUniformBufferPool (GetPoolBucketIndex InSize2) ≠
        [] := by
      rw [hidx, hfree]
      simp
    rw [GetGlobalUniformBufferFromPool_pop _ _ _ _ _ _ hne]
    simp only [hidx, hfree, List.getLast_append_singleton]

theorem BeginFrame_in_the_same_frame_recycles_at_once_witness :
    (GetGlobalUniformBufferFromPool 8 2 3
        (BeginFrame 8 2 3
          (GetGlobalUniformBufferFromPool 8 2 3 FVulkanGlobalUniformPool.New ⟨0⟩ 100).2.1)
        ⟨1⟩ 65).1 =
      (GetGlobalUniformBufferFromPool 8 2 3 FVulkanGlobalUniformPool.New ⟨0⟩ 100).1 :=
  (BeginFrame_in_the_same_frame_recycles_at_once 8 2 3 FVulkanGlobalUniformPool.New ⟨0⟩ 100
    (by decide)).2 ⟨1⟩ 65 (by decide)

/-- C30. The flat index of a used list is in bounds and collision-free: for every frame
number `f` and bucket `b < NumPoolBuckets` the index
`(f % NumFrames) * NumPoolBuckets + b` is below `NumPoolBuckets * NumFrames`, two
(slot, bucket) pairs with slot `< NumFrames` and bucket `< NumPoolBuckets` have the same
index only if they are the same pair, and this index is the one at which
`GetGlobalUniformBufferFromPool` registers and which `BeginFrame` resets. -/
theorem used_list_index_in_bounds_and_collision_free (NumPoolBuckets NumFrames : Nat)
    (hNumFrames : 0 < NumFrames) :
    (∀ f b : Nat, b < NumPoolBuckets →
      UsedBucketIndex NumPoolBuckets (f % NumFrames) b <
        NumUsedBuckets NumPoolBuckets NumFrames) ∧
      (∀ s b s2 b2 : Nat, s < NumFrames → b < NumPoolBuckets → s2 < NumFrames →
        b2 < NumPoolBuckets →
        UsedBucketIndex NumPoolBuckets s b = UsedBucketIndex NumPoolBuckets s2 b2 →
        s = s2 ∧ b = b2) ∧
      (∀ (f : Nat) (Pool : FVulkanGlobalUniformPool) (InDevice : FVulkanDevice) (InSize : Nat),
        (GetGlobalUniformBufferFromPool NumPoolBuckets NumFrames f Pool InDevice
          InSize).2.1.UsedGlobalUniformBuffers
          (UsedBucketIndex NumPoolBuckets (f % NumFrames) (GetPoolBucketIndex InSize)) =
        Pool.UsedGlobalUniformBuffers
          (UsedBucketIndex NumPoolBuckets (f % NumFrames) (GetPoolBucketIndex InSize)) ++
          [(GetGlobalUniformBufferFromPool NumPoolBuckets NumFrames f Pool InDevice
            InSize).1]) ∧
      ∀ (f : Nat) (Pool : FVulkanGlobalUniformPool) (b : Nat), b < NumPoolBuckets →
        (BeginFrame NumPoolBuckets NumFrames f Pool).UsedGlobalUniformBuffers
          (UsedBucketIndex NumPoolBuckets (f % NumFrames) b) = [] := by
  refine ⟨?_, ?_, ?_, ?_⟩
  · intro f b hb
    exact flat_index_lt NumPoolBuckets NumFrames _ b (Nat.mod_lt _ hNumFrames) hb
  · intro s b s2 b2 _ hb _ hb2 h
    exact flat_index_inj NumPoolBuckets s b s2 b2 hb hb2 h
  · intro f Pool InDevice InSize
    exact Get_used_at _ _ _ _ _ _
  · intro f Pool b hb
    show (BeginFrame NumPoolBuckets NumFrames f Pool).UsedGlobalUniformBuffers
      (f % NumFrames * NumPoolBuckets + b) = []
    rw [BeginFrame_used, if_pos ⟨Nat.le_add_right _ _, by omega⟩]

theorem used_list_index_in_bounds_and_collision_free_witness :
    UsedBucketIndex 17 (9 % 4) 16 < NumUsedBuckets 17 4 :=
  (used_list_index_in_bounds_and_collision_free 17 4 (by decide)).1 9 16 (by decide)

/-! ## Scenario A -/

theorem Run_NextFrames_no_output (NB NF : Nat) :
    ∀ (k : Nat) (W : RenderThread),
      (Run NB NF W (List.replicate k FrameEvent.NextFrame)).2 = [] := by
  intro k
  induction k with
  | zero => intro W; rfl
  | succ k ih =>
    intro W
    simp only [List.replicate_succ, Run, Step, Option.toList, List.nil_append]
    exact ih _

theorem NumBeginFrames_replicate (k : Nat) :
    NumBeginFrames (List.replicate k FrameEvent.NextFrame) = k := by
  simp [NumBeginFrames]

/-- C24. Scenario A with `NumFrames = 5`, from the empty pool (a pool with the bucket of
index 7). A request of 100 bytes uses the bucket of 128 bytes. The first acquire creates a
new buffer of 128 bytes; the free list of the bucket then still has no entry, and a second
acquire in the same frame creates a second, distinct buffer of 128 bytes; after five
`BeginFrame` calls, each after one frame advance, both buffers are in the free list of that
bucket. -/
theorem scenario_A (NumPoolBuckets : Nat) (hBuckets : 7 < NumPoolBuckets)
    (GFrameNumberRenderThread : Nat) (InDevice : FVulkanDevice) :
    GetPoolBucketIndex 100 = 7 ∧ GetPoolBucketSize 100 = 128 ∧
      (AcquireAfter NumPoolBuckets 5 (RenderThread.Start GFrameNumberRenderThread InDevice)
        [] 100).1 = ⟨InDevice.NumCreated, 128⟩ ∧
      (AcquireAfter NumPoolBuckets 5 (RenderThread.Start GFrameNumberRenderThread InDevice)
        [] 100).2.Pool.GlobalUniformBufferPool 7 = [] ∧
      (AcquireAfter NumPoolBuckets 5
        (AcquireAfter NumPoolBuckets 5 (RenderThread.Start GFrameNumberRenderThread InDevice)
          [] 100).2 [] 100).1 = ⟨InDevice.NumCreated + 1, 128⟩ ∧
      (AcquireAfter NumPoolBuckets 5
        (AcquireAfter NumPoolBuckets 5 (RenderThread.Start GFrameNumberRenderThread InDevice)
          [] 100).2 [] 100).1 ≠
        (AcquireAfter NumPoolBuckets 5 (RenderThread.Start GFrameNumberRenderThread InDevice)
          [] 100).1 ∧
      (⟨InDevice.NumCreated, 128⟩ : FPooledUniformBufferRef) ∈
        (Run NumPoolBuckets 5
          (AcquireAfter NumPoolBuckets 5
            (AcquireAfter NumPoolBuckets 5
              (RenderThread.Start GFrameNumberRenderThread InDevice) [] 100).2 [] 100).2
          (List.replicate 5 FrameEvent.NextFrame)).1.Pool.GlobalUniformBufferPool 7 ∧
      (⟨InDevice.NumCreated + 1, 128⟩ : FPooledUniformBufferRef) ∈
        (Run NumPoolBuckets 5
          (AcquireAfter NumPoolBuckets 5
            (AcquireAfter NumPoolBuckets 5
              (RenderThread.Start GFrameNumberRenderThread InDevice) [] 100).2 [] 100).2
          (List.replicate 5 FrameEvent.NextFrame)).1.Pool.GlobalUniformBufferPool 7 := by
  have hidx : GetPoolBucketIndex 100 = 7 := by decide
  have hsz : GetPoolBucketSize 100 = 128 := by decide
  have hS : GetPoolBucketIndex 100 < NumPoolBuckets := by rw [hidx]; exact hBuckets
  -- the first acquire
  have hA1 : AcquireAfter NumPoolBuckets 5
      (RenderThread.Start GFrameNumberRenderThread InDevice) [] 100 =
      (⟨InDevice.NumCreated, 128⟩,
        { GFrameNumberRenderThread := GFrameNumberRenderThread
          Pool :=
            { GlobalUniformBufferPool := fun _ => []
              UsedGlobalUniformBuffers :=
                Function.update (fun _ => []) (GFrameNumberRenderThread % 5 * NumPoolBuckets + 7)
                  [⟨InDevice.NumCreated, 128⟩] }
          Device := ⟨InDevice.NumCreated + 1⟩ }) := by
    simp only [AcquireAfter, Run, RenderThread.Start]
    rw [GetGlobalUniformBufferFromPool_new _ _ _ _ _ _ rfl]
    simp [hidx, hsz, FVulkanGlobalUniformPool.New]
  -- the second acquire
  have hA2 : (AcquireAfter NumPoolBuckets 5
      (AcquireAfter NumPoolBuckets 5 (RenderThread.Start GFrameNumberRenderThread InDevice)
        [] 100).2 [] 100).1 = ⟨InDevice.NumCreated + 1, 128⟩ := by
    rw [hA1]
    simp only [AcquireAfter, Run]
    rw [GetGlobalUniformBufferFromPool_new _ _ _ _ _ _ rfl]
    simp [hsz]
  have inv0 := PoolInvariant_New NumPoolBuckets 5 InDevice
  have inv1 := PoolInvariant_GetGlobalUniformBufferFromPool NumPoolBuckets 5
    GFrameNumberRenderThread (by decide) _ _ 100 hS inv0
  have inv2 := PoolInvariant_GetGlobalUniformBufferFromPool NumPoolBuckets 5
    GFrameNumberRenderThread (by decide) _ _ 100 hS inv1
  have hreg1 := Get_registered NumPoolBuckets 5 GFrameNumberRenderThread
    FVulkanGlobalUniformPool.New InDevice 100
  have hreg1b := Get_used_mono NumPoolBuckets 5 GFrameNumberRenderThread _
    (GetGlobalUniformBufferFromPool NumPoolBuckets 5 GFrameNumberRenderThread
      FVulkanGlobalUniformPool.New InDevice 100).2.2 100 _ _ hreg1
  have hreg2 := Get_registered NumPoolBuckets 5 GFrameNumberRenderThread
    (GetGlobalUniformBufferFromPool NumPoolBuckets 5 GFrameNumberRenderThread
      FVulkanGlobalUniformPool.New InDevice 100).2.1
    (GetGlobalUniformBufferFromPool NumPoolBuckets 5 GFrameNumberRenderThread
      FVulkanGlobalUniformPool.New InDevice 100).2.2 100
  have hrange : ∀ e ∈ List.replicate 5 FrameEvent.NextFrame,
      e.InRange NumPoolBuckets = true := by
    intro e he
    rw [List.eq_of_mem_replicate he]
    rfl
  have hx1 : (AcquireAfter NumPoolBuckets 5
      (RenderThread.Start GFrameNumberRenderThread InDevice) [] 100).1 =
      ⟨InDevice.NumCreated, 128⟩ := by rw [hA1]
  have hrec1 := Run_recycles NumPoolBuckets 5 (by decide)
    (AcquireAfter NumPoolBuckets 5 (RenderThread.Start GFrameNumberRenderThread InDevice)
      [] 100).1 GFrameNumberRenderThread (GetPoolBucketIndex 100) hS
    (List.replicate 5 FrameEvent.NextFrame)
    (AcquireAfter NumPoolBuckets 5
      (AcquireAfter NumPoolBuckets 5 (RenderThread.Start GFrameNumberRenderThread InDevice)
        [] 100).2 [] 100).2 0 inv2 hrange (fun _ => ⟨rfl, hreg1b⟩) (by intro h; omega)
    (by rw [NumBeginFrames_replicate]) (by rw [Run_NextFrames_no_output]; simp)
  have hrec2 := Run_recycles NumPoolBuckets 5 (by decide)
    (AcquireAfter NumPoolBuckets 5
      (AcquireAfter NumPoolBuckets 5 (RenderThread.Start GFrameNumberRenderThread InDevice)
        [] 100).2 [] 100).1 GFrameNumberRenderThread (GetPoolBucketIndex 100) hS
    (List.replicate 5 FrameEvent.NextFrame)
    (AcquireAfter NumPoolBuckets 5
      (AcquireAfter NumPoolBuckets 5 (RenderThread.Start GFrameNumberRenderThread InDevice)
        [] 100).2 [] 100).2 0 inv2 hrange (fun _ => ⟨rfl, hreg2⟩) (by intro h; omega)
    (by rw [NumBeginFrames_replicate]) (by rw [Run_NextFrames_no_output]; simp)
  rw [hx1, hidx] at hrec1
  rw [hA2, hidx] at hrec2
  refine ⟨hidx, hsz, hx1, by rw [hA1], hA2, ?_, hrec1, hrec2⟩
  rw [hA2, hx1]
  intro h
  have := congrArg FVulkanPooledUniformBuffer.Id h
  simp at this

theorem scenario_A_witness :
    (⟨0, 128⟩ : FPooledUniformBufferRef) ∈
        (Run 8 5
          (AcquireAfter 8 5 (AcquireAfter 8 5 (RenderThread.Start 0 ⟨0⟩) [] 100).2 [] 100).2
          (List.replicate 5 FrameEvent.NextFrame)).1.Pool.GlobalUniformBufferPool 7 ∧
      (⟨0 + 1, 128⟩ : FPooledUniformBufferRef) ∈
        (Run 8 5
          (AcquireAfter 8 5 (AcquireAfter 8 5 (RenderThread.Start 0 ⟨0⟩) [] 100).2 [] 100).2
          (List.replicate 5 FrameEvent.NextFrame)).1.Pool.GlobalUniformBufferPool 7 :=
  (scenario_A 8 (by decide) 0 ⟨0⟩).2.2.2.2.2.2

/-! ## Null resource references -/

theorem ResourceLoop_fail (C : FContents) (off n i0 : Nat)
    (hnull : C.ResourceAt off i0 = none) (hbefore : ∀ j < i0, C.ResourceAt off j ≠ none) :
    ∀ m : Nat, m ≤ n → i0 < m →
      (List.range m).foldlM (ResourceLoopBody C off) (List.replicate n none) =
        Except.error (FCheckFailure.ResourceNull i0) := by
  intro m
  induction m with
  | zero => intro _ h; omega
  | succ m ih =>
    intro hm hi
    rw [List.range_succ, List.foldlM_append]
    by_cases him : i0 = m
    · subst him
      rw [ResourceLoop_closed C off n i0 (by omega) hbefore]
      simp [bind, Except.bind, ResourceLoopBody, hnull]
    · rw [ih (by omega) (by omega)]
      rfl

theorem New_resource_null (St : RHIState) (L : FRHIUniformBufferLayout) (C : FContents)
    (U : EUniformBufferUsage) (i0 : Nat) (hi0 : i0 < L.Resources.length)
    (hnull : C.ResourceAt L.ResourceOffset i0 = none)
    (hbefore : ∀ j < i0, C.ResourceAt L.ResourceOffset j ≠ none) :
    (FVulkanUniformBuffer.New St L (some C) U).1 =
      Except.error (FCheckFailure.ResourceNull i0) := by
  have hl : ¬ ¬ (L.Resources.length > 0 ∨ L.ConstantBufferSize > 0) :=
    not_not.mpr (Or.inl (by omega))
  have hn : L.Resources.length ≠ 0 := by omega
  simp only [FVulkanUniformBuffer.New]
  rw [if_neg hl]
  simp only [hn, if_false]
  have hT : TransferResourceTable C L.ResourceOffset L.Resources.length =
      Except.error (FCheckFailure.ResourceNull i0) :=
    ResourceLoop_fail C _ _ i0 hnull hbefore _ le_rfl hi0
  rw [hT]

theorem exists_first_null (C : FContents) (off n : Nat)
    (h : ∃ i, i < n ∧ C.ResourceAt off i = none) :
    ∃ i0, i0 < n ∧ C.ResourceAt off i0 = none ∧ ∀ j < i0, C.ResourceAt off j ≠ none := by
  classical
  refine ⟨Nat.find h, (Nat.find_spec h).1, (Nat.find_spec h).2, ?_⟩
  intro j hj hnone
  exact Nat.find_min h hj ⟨lt_trans hj (Nat.find_spec h).1, hnone⟩

/-- C29. For every layout with `n > 0` resources and non-null contents: if one of the `n`
resource references read from the contents at `ResourceOffset` is null, creation fails the
`check(CurrResource)` of the first null reference; a creation that succeeds has all `n`
references non-null; and with all `n` references non-null creation succeeds. -/
theorem null_resource_reference_is_rejected (St : RHIState)
    (InLayout : FRHIUniformBufferLayout) (Contents : FContents) (Usage : EUniformBufferUsage)
    (hn : 0 < InLayout.Resources.length) :
    ((∃ i, i < InLayout.Resources.length ∧
        Contents.ResourceAt InLayout.ResourceOffset i = none) →
      ∃ i0, i0 < InLayout.Resources.length ∧
        Contents.ResourceAt InLayout.ResourceOffset i0 = none ∧
        (FVulkanUniformBuffer.New St InLayout (some Contents) Usage).1 =
          Except.error (FCheckFailure.ResourceNull i0)) ∧
      (∀ Obj St1,
        FVulkanUniformBuffer.New St InLayout (some Contents) Usage = (Except.ok Obj, St1) →
        ∀ i < InLayout.Resources.length,
          Contents.ResourceAt InLayout.ResourceOffset i ≠ none) ∧
      ((∀ i < InLayout.Resources.length,
          Contents.ResourceAt InLayout.ResourceOffset i ≠ none) →
        ∃ Obj St1,
          FVulkanUniformBuffer.New St InLayout (some Contents) Usage = (Except.ok Obj, St1)) := by
  refine ⟨?_, ?_, ?_⟩
  · intro h
    obtain ⟨i0, h1, h2, h3⟩ := exists_first_null Contents _ _ h
    exact ⟨i0, h1, h2, New_resource_null St InLayout Contents Usage i0 h1 h2 h3⟩
  · intro Obj St1 h
    obtain ⟨C, hC, _, hall⟩ := New_ok_inv St St1 InLayout (some Contents) Usage Obj h
    rw [← Option.some.inj hC] at hall
    exact hall
  · intro hall
    exact ⟨_, _, New_ok St InLayout Contents Usage (Or.inl hn) hall⟩

theorem null_resource_reference_is_rejected_witness :
    ∃ i0, i0 < 3 ∧
      (if i0 < 2 then some (⟨i0⟩ : FRHIResource) else none) = none ∧
      (FVulkanUniformBuffer.New
        { GFrameNumberRenderThread := 7, GUBPool := fun _ => [],
          UniformPool := FVulkanGlobalUniformPool.New, Device := ⟨0⟩,
          BufferData := fun _ => [], UseRealUBs := none }
        ⟨4, 8, [0, 0, 0]⟩
        (some { Bytes := [1, 2, 3, 4], ResourceAt := fun _ i => if i < 2 then some ⟨i⟩ else none })
        EUniformBufferUsage.UniformBuffer_SingleFrame).1 =
        Except.error (FCheckFailure.ResourceNull i0) :=
  (null_resource_reference_is_rejected
    { GFrameNumberRenderThread := 7, GUBPool := fun _ => [],
      UniformPool := FVulkanGlobalUniformPool.New, Device := ⟨0⟩,
      BufferData := fun _ => [], UseRealUBs := none }
    ⟨4, 8, [0, 0, 0]⟩
    { Bytes := [1, 2, 3, 4], ResourceAt := fun _ i => if i < 2 then some ⟨i⟩ else none }
    EUniformBufferUsage.UniformBuffer_SingleFrame (by decide)).1 ⟨2, by decide, by decide⟩

/-! ## Retention in the ring pool -/

theorem CleanupUniformBufferPool_apply (f : Nat) (G : Nat → List FVulkanBuffer) (i : Nat) :
    CleanupUniformBufferPool f G i =
      if i = (f + 1) % 2 ^ 32 % NUM_SAFE_FRAMES then [] else G i := by
  simp [CleanupUniformBufferPool, Function.update_apply]

theorem CleanupUniformBufferPool_apply_of_lt (f : Nat) (G : Nat → List FVulkanBuffer) (i : Nat)
    (hf : f + 1 < 2 ^ 32) :
    CleanupUniformBufferPool f G i = if i = (f + 1) % NUM_SAFE_FRAMES then [] else G i := by
  rw [CleanupUniformBufferPool_apply, Nat.mod_eq_of_lt hf]

theorem AllocateBufferFromPool_mem (f : Nat) (G : Nat → List FVulkanBuffer) (D : FVulkanDevice)
    (n : Nat) (U : EUniformBufferUsage) (i : Nat) (y : FVulkanBuffer)
    (hy : y ∈ (AllocateBufferFromPool f G D n U).2.1 i) :
    y ∈ G i ∨ y.Id = D.NumCreated := by
  cases U with
  | UniformBuffer_MultiFrame =>
    left
    simpa [AllocateBufferFromPool] using hy
  | UniformBuffer_SingleFrame =>
    rw [AllocateBufferFromPool_SingleFrame] at hy
    simp only [Function.update_apply] at hy
    by_cases hi : i = f % NUM_SAFE_FRAMES
    · rw [if_pos hi] at hy
      rcases List.mem_append.mp hy with h | h
      · left; rw [hi]; exact h
      · right
        have : y = ⟨D.NumCreated, n⟩ := by simpa using h
        rw [this]
    · rw [if_neg hi] at hy
      exact Or.inl hy

theorem AllocateBufferFromPool_mono (f : Nat) (G : Nat → List FVulkanBuffer) (D : FVulkanDevice)
    (n : Nat) (U : EUniformBufferUsage) (i : Nat) (y : FVulkanBuffer) (hy : y ∈ G i) :
    y ∈ (AllocateBufferFromPool f G D n U).2.1 i := by
  cases U with
  | UniformBuffer_MultiFrame => simpa [AllocateBufferFromPool] using hy
  | UniformBuffer_SingleFrame =>
    rw [AllocateBufferFromPool_SingleFrame]
    simp only [Function.update_apply]
    split
    · rename_i hi
      rw [← hi]
      exact List.mem_append_left _ hy
    · exact hy

theorem RingRun_append :
    ∀ (es1 : List RingEvent) (St : RHIState) (es2 : List RingEvent),
      RingRun St (es1 ++ es2) = RingRun (RingRun St es1) es2 := by
  intro es1
  induction es1 with
  | nil => intro St es2; rfl
  | cons e es ih => intro St es2; exact ih _ es2

theorem NumRingFrames_cons (e : RingEvent) (es : List RingEvent) :
    NumRingFrames (e :: es) =
      NumRingFrames es + (if e = RingEvent.NextFrame then 1 else 0) := by
  simp [NumRingFrames, List.count_cons]

theorem RingRun_tracks (x : FVulkanBuffer) (N : Nat) (hN : N + 5 < 2 ^ 32) :
    ∀ (es : List RingEvent) (St : RHIState) (n : Nat),
      St.GFrameNumberRenderThread = N + n → n + NumRingFrames es ≤ 4 →
      (∀ i < NUM_SAFE_FRAMES, ∀ y ∈ St.GUBPool i, y.Id < St.Device.NumCreated) →
      x.Id < St.Device.NumCreated →
      (∀ i < NUM_SAFE_FRAMES, i ≠ N % NUM_SAFE_FRAMES → x ∉ St.GUBPool i) →
      (n + NumRingFrames es ≤ 3 → x ∈ St.GUBPool (N % NUM_SAFE_FRAMES) →
        x ∈ (RingRun St es).GUBPool (N % NUM_SAFE_FRAMES)) ∧
      (RingRun St es).GFrameNumberRenderThread = N + n + NumRingFrames es ∧
      ∀ i < NUM_SAFE_FRAMES, i ≠ N % NUM_SAFE_FRAMES → x ∉ (RingRun St es).GUBPool i := by
  intro es
  induction es with
  | nil =>
    intro St n hf _ _ _ hother
    exact ⟨fun _ hx => hx, by simp [RingRun, NumRingFrames, hf], hother⟩
  | cons e es ih =>
    intro St n hf hcount hcreated hx hother
    rw [NumRingFrames_cons] at hcount ⊢
    cases e with
    | Allocate Size U =>
      simp only [RingEvent.noConfusion, if_false, reduceCtorEq] at hcount ⊢
      have hD := (AllocateBufferFromPool_new St.GFrameNumberRenderThread St.GUBPool St.Device
        Size U).2
      have hcreated1 : ∀ i < NUM_SAFE_FRAMES,
          ∀ y ∈ (RingStep St (RingEvent.Allocate Size U)).GUBPool i,
            y.Id < (RingStep St (RingEvent.Allocate Size U)).Device.NumCreated := by
        intro i hi y hy
        show y.Id < (AllocateBufferFromPool _ _ _ _ _).2.2.NumCreated
        rw [hD]
        rcases AllocateBufferFromPool_mem _ _ _ _ _ i y hy with h | h
        · exact Nat.lt_succ_of_lt (hcreated i hi y h)
        · show y.Id < St.Device.NumCreated + 1
          omega
      have hx1 : x.Id < (RingStep St (RingEvent.Allocate Size U)).Device.NumCreated := by
        show x.Id < (AllocateBufferFromPool _ _ _ _ _).2.2.NumCreated
        rw [hD]
        exact Nat.lt_succ_of_lt hx
      have hother1 : ∀ i < NUM_SAFE_FRAMES, i ≠ N % NUM_SAFE_FRAMES →
          x ∉ (RingStep St (RingEvent.Allocate Size U)).GUBPool i := by
        intro i hi hne hmem
        rcases AllocateBufferFromPool_mem _ _ _ _ _ i x hmem with h | h
        · exact hother i hi hne h
        · omega
      obtain ⟨h1, h2, h3⟩ := ih (RingStep St (RingEvent.Allocate Size U)) n hf hcount
        hcreated1 hx1 hother1
      refine ⟨?_, h2, h3⟩
      intro hc hmem
      exact h1 hc (AllocateBufferFromPool_mono _ _ _ _ _ _ x hmem)
    | Cleanup =>
      simp only [RingEvent.noConfusion, if_false, reduceCtorEq] at hcount ⊢
      have hsub : ∀ i y, y ∈ (RingStep St RingEvent.Cleanup).GUBPool i → y ∈ St.GUBPool i := by
        intro i y hy
        have hy1 : y ∈ CleanupUniformBufferPool St.GFrameNumberRenderThread St.GUBPool i := hy
        rw [CleanupUniformBufferPool_apply] at hy1
        split at hy1
        · simp at hy1
        · exact hy1
      obtain ⟨h1, h2, h3⟩ := ih (RingStep St RingEvent.Cleanup) n hf hcount
        (fun i hi y hy => hcreated i hi y (hsub i y hy)) hx
        (fun i hi hne hmem => hother i hi hne (hsub i x hmem))
      refine ⟨?_, h2, h3⟩
      intro hc hmem
      apply h1 hc
      show x ∈ CleanupUniformBufferPool St.GFrameNumberRenderThread St.GUBPool _
      rw [CleanupUniformBufferPool_apply_of_lt _ _ _ (by omega), if_neg]
      · exact hmem
      · rw [hf, Nat.add_assoc]
        exact (mod_ne_of_lt N (n + 1) NUM_SAFE_FRAMES (by omega)
          (by show n + 1 < 5; omega)).symm
    | NextFrame =>
      simp only [if_true] at hcount ⊢
      obtain ⟨h1, h2, h3⟩ := ih (RingStep St RingEvent.NextFrame) (n + 1)
        (by show St.GFrameNumberRenderThread + 1 = N + (n + 1); omega) (by omega)
        hcreated hx hother
      refine ⟨?_, ?_, h3⟩
      · intro hc hmem
        exact h1 (by omega) hmem
      · show (RingRun (RingStep St RingEvent.NextFrame) es).GFrameNumberRenderThread = _
        rw [h2]
        omega

theorem RingStep_Allocate_GUBPool (St : RHIState) (n : Nat) (U : EUniformBufferUsage) :
    (RingStep St (RingEvent.Allocate n U)).GUBPool =
      (AllocateBufferFromPool St.GFrameNumberRenderThread St.GUBPool St.Device n U).2.1 :=
  rfl

theorem RingStep_Allocate_Device (St : RHIState) (n : Nat) (U : EUniformBufferUsage) :
    (RingStep St (RingEvent.Allocate n U)).Device =
      (AllocateBufferFromPool St.GFrameNumberRenderThread St.GUBPool St.Device n U).2.2 :=
  rfl

/-- C26, as the code has it. Retention in the ring pool `GUBPool` (its slots holding buffers
the device created before), for a frame `N` with `N + 5 < 2^32`, so that the 32-bit frame
counter does not wrap in the frames `N` to `N+4`. A `UniformBuffer_SingleFrame` buffer
allocated by `AllocateBufferFromPool` during frame `N` is stored in slot `N % 5`. Whatever
allocations and cleanup calls follow, it is still in that slot as long as at most 3 frame
advances have occurred, so after the cleanup calls of frames `N`, `N+1`, `N+2` and `N+3`; a
cleanup call in frame `N+4` drops it, and then it is in no slot. A cleanup call at a frame
counter `f` with `f + 1 < 2^32` empties exactly slot `(f + 1) % 5` and leaves the other slots
unchanged. -/
theorem ring_pool_retention (St : RHIState) (ConstantBufferSize : Nat)
    (hwindow : St.GFrameNumberRenderThread + 5 < 2 ^ 32)
    (hcreated : ∀ i < NUM_SAFE_FRAMES, ∀ y ∈ St.GUBPool i, y.Id < St.Device.NumCreated) :
    (AllocateBufferFromPool St.GFrameNumberRenderThread St.GUBPool St.Device
        ConstantBufferSize EUniformBufferUsage.UniformBuffer_SingleFrame).1 ∈
        (RingStep St (RingEvent.Allocate ConstantBufferSize
          EUniformBufferUsage.UniformBuffer_SingleFrame)).GUBPool
          (St.GFrameNumberRenderThread % NUM_SAFE_FRAMES) ∧
      (∀ mid : List RingEvent, NumRingFrames mid ≤ 3 →
        (AllocateBufferFromPool St.GFrameNumberRenderThread St.GUBPool St.Device
          ConstantBufferSize EUniformBufferUsage.UniformBuffer_SingleFrame).1 ∈
          (RingRun (RingStep St (RingEvent.Allocate ConstantBufferSize
            EUniformBufferUsage.UniformBuffer_SingleFrame)) mid).GUBPool
            (St.GFrameNumberRenderThread % NUM_SAFE_FRAMES)) ∧
      (∀ mid : List RingEvent, NumRingFrames mid = 4 →
        ∀ i < NUM_SAFE_FRAMES,
          (AllocateBufferFromPool St.GFrameNumberRenderThread St.GUBPool St.Device
            ConstantBufferSize EUniformBufferUsage.UniformBuffer_SingleFrame).1 ∉
          (RingRun (RingStep St (RingEvent.Allocate ConstantBufferSize
            EUniformBufferUsage.UniformBuffer_SingleFrame))
            (mid ++ [RingEvent.Cleanup])).GUBPool i) ∧
      ∀ (f : Nat) (G : Nat → List FVulkanBuffer), f + 1 < 2 ^ 32 →
        CleanupUniformBufferPool f G ((f + 1) % NUM_SAFE_FRAMES) = [] ∧
          ∀ i, i ≠ (f + 1) % NUM_SAFE_FRAMES → CleanupUniformBufferPool f G i = G i := by
  have hA := AllocateBufferFromPool_SingleFrame St.GFrameNumberRenderThread St.GUBPool
    St.Device ConstantBufferSize
  have hx : (AllocateBufferFromPool St.GFrameNumberRenderThread St.GUBPool St.Device
      ConstantBufferSize EUniformBufferUsage.UniformBuffer_SingleFrame).1 =
      ⟨St.Device.NumCreated, ConstantBufferSize⟩ := by rw [hA]
  have hreg : (⟨St.Device.NumCreated, ConstantBufferSize⟩ : FVulkanBuffer) ∈
      (RingStep St (RingEvent.Allocate ConstantBufferSize
        EUniformBufferUsage.UniformBuffer_SingleFrame)).GUBPool
        (St.GFrameNumberRenderThread % NUM_SAFE_FRAMES) := by
    rw [RingStep_Allocate_GUBPool, hA]
    simp
  have hcreated1 : ∀ i < NUM_SAFE_FRAMES,
      ∀ y ∈ (RingStep St (RingEvent.Allocate ConstantBufferSize
        EUniformBufferUsage.UniformBuffer_SingleFrame)).GUBPool i,
        y.Id < (RingStep St (RingEvent.Allocate ConstantBufferSize
          EUniformBufferUsage.UniformBuffer_SingleFrame)).Device.NumCreated := by
    intro i hi y hy
    rw [RingStep_Allocate_Device, hA]
    rw [RingStep_Allocate_GUBPool] at hy
    rcases AllocateBufferFromPool_mem _ _ _ _ _ i y hy with h | h
    · exact Nat.lt_succ_of_lt (hcreated i hi y h)
    · show y.Id < St.Device.NumCreated + 1
      omega
  have hx1 : (⟨St.Device.NumCreated, ConstantBufferSize⟩ : FVulkanBuffer).Id <
      (RingStep St (RingEvent.Allocate ConstantBufferSize
        EUniformBufferUsage.UniformBuffer_SingleFrame)).Device.NumCreated := by
    rw [RingStep_Allocate_Device, hA]
    exact Nat.lt_succ_self _
  have hother1 : ∀ i < NUM_SAFE_FRAMES, i ≠ St.GFrameNumberRenderThread % NUM_SAFE_FRAMES →
      (⟨St.Device.NumCreated, ConstantBufferSize⟩ : FVulkanBuffer) ∉
        (RingStep St (RingEvent.Allocate ConstantBufferSize
          EUniformBufferUsage.UniformBuffer_SingleFrame)).GUBPool i := by
    intro i hi hne hmem
    rw [RingStep_Allocate_GUBPool, hA] at hmem
    simp only [Function.update_apply, if_neg hne] at hmem
    exact absurd (hcreated i hi _ hmem) (lt_irrefl _)
  rw [hx]
  refine ⟨hreg, ?_, ?_, ?_⟩
  · intro mid hmid
    exact (RingRun_tracks _ St.GFrameNumberRenderThread hwindow mid
      (RingStep St (RingEvent.Allocate ConstantBufferSize
        EUniformBufferUsage.UniformBuffer_SingleFrame)) 0 rfl (by omega) hcreated1 hx1
      hother1).1 (by omega) hreg
  · intro mid hmid i hi
    obtain ⟨_, hframe, hother⟩ := RingRun_tracks _ St.GFrameNumberRenderThread hwindow mid
      (RingStep St (RingEvent.Allocate ConstantBufferSize
        EUniformBufferUsage.UniformBuffer_SingleFrame)) 0 rfl (by omega) hcreated1 hx1 hother1
    rw [RingRun_append]
    show _ ∉ CleanupUniformBufferPool _ _ i
    rw [CleanupUniformBufferPool_apply_of_lt _ _ _ (by rw [hframe, hmid]; omega)]
    by_cases hslot : i = St.GFrameNumberRenderThread % NUM_SAFE_FRAMES
    · have hfr : ((RingRun (RingStep St (RingEvent.Allocate ConstantBufferSize
          EUniformBufferUsage.UniformBuffer_SingleFrame)) mid).GFrameNumberRenderThread + 1) %
          NUM_SAFE_FRAMES = St.GFrameNumberRenderThread % NUM_SAFE_FRAMES := by
        rw [hframe, hmid]
        show (St.GFrameNumberRenderThread + 0 + 4 + 1) % 5 = St.GFrameNumberRenderThread % 5
        omega
      rw [if_pos (hslot.trans hfr.symm)]
      simp
    · split
      · simp
      · exact hother i hi hslot
  · intro f G hf
    constructor
    · rw [CleanupUniformBufferPool_apply_of_lt _ _ _ hf, if_pos rfl]
    · intro i hi
      rw [CleanupUniformBufferPool_apply_of_lt _ _ _ hf, if_neg hi]

theorem ring_pool_retention_witness :
    (AllocateBufferFromPool 7 (fun _ => []) ⟨0⟩ 64
        EUniformBufferUsage.UniformBuffer_SingleFrame).1 ∈
      (RingRun
        (RingStep
          { GFrameNumberRenderThread := 7, GUBPool := fun _ => [],
            UniformPool := FVulkanGlobalUniformPool.New, Device := ⟨0⟩,
            BufferData := fun _ => [], UseRealUBs := some 1 }
          (RingEvent.Allocate 64 EUniformBufferUsage.UniformBuffer_SingleFrame))
        [RingEvent.Cleanup, RingEvent.NextFrame, RingEvent.Cleanup, RingEvent.NextFrame,
          RingEvent.Cleanup, RingEvent.NextFrame, RingEvent.Cleanup]).GUBPool
        (7 % NUM_SAFE_FRAMES) :=
  (ring_pool_retention
    { GFrameNumberRenderThread := 7, GUBPool := fun _ => [],
      UniformPool := FVulkanGlobalUniformPool.New, Device := ⟨0⟩,
      BufferData := fun _ => [], UseRealUBs := some 1 }
    64 (by decide) (by decide)).2.1
    [RingEvent.Cleanup, RingEvent.NextFrame, RingEvent.Cleanup, RingEvent.NextFrame,
      RingEvent.Cleanup, RingEvent.NextFrame, RingEvent.Cleanup] (by decide)

/-- C26 as stated fails at the wrap of the 32-bit frame counter: a
`UniformBuffer_SingleFrame` buffer allocated at frame counter `4294967295` is stored in slot
`4294967295 % 5 = 0`, and the cleanup call of that same frame empties slot
`(4294967295 + 1) % 2^32 % 5 = 0`, so the buffer is not held after it. -/
theorem ring_pool_drops_buffer_at_frame_counter_wrap :
    ¬ ∀ (St : RHIState) (ConstantBufferSize : Nat),
        St.GFrameNumberRenderThread < 2 ^ 32 →
        (∀ i < NUM_SAFE_FRAMES, ∀ y ∈ St.GUBPool i, y.Id < St.Device.NumCreated) →
        ∀ mid : List RingEvent, NumRingFrames mid ≤ 3 →
          (AllocateBufferFromPool St.GFrameNumberRenderThread St.GUBPool St.Device
            ConstantBufferSize EUniformBufferUsage.UniformBuffer_SingleFrame).1 ∈
            (RingRun (RingStep St (RingEvent.Allocate ConstantBufferSize
              EUniformBufferUsage.UniformBuffer_SingleFrame)) mid).GUBPool
              (St.GFrameNumberRenderThread % NUM_SAFE_FRAMES) := by
  intro h
  have h1 := h
    { GFrameNumberRenderThread := 4294967295, GUBPool := fun _ => [],
      UniformPool := FVulkanGlobalUniformPool.New, Device := ⟨0⟩,
      BufferData := fun _ => [], UseRealUBs := some 1 }
    64 (by decide) (by decide) [RingEvent.Cleanup] (by decide)
  revert h1
  decide

end VulkanRHI
